import Mathlib

/-! Jamming strategies: constant, random and reactive jammers.

A shallow embedding of `constant-jammer.cc`, `random-jammer.cc` and
`reactive-jammer.cc`.  Each jammer is a record of its member variables; every
member function becomes a function on the jammer and on the `World` it talks to
(the discrete-event scheduler and the radio utility).

Conventions
* `Time` values are integers (nanoseconds, as in `ns3::Time`).
* `double` values (powers, probabilities, random draws, energy fractions) are
  rationals.  Where the code only stores them and compares them with `<` they
  are used as they are; the one sum of doubles, in `RandomJammer::DoEndTxHandler`,
  is rounded to the nearest double (`doubleAdd`).
* `uint16_t` channel arithmetic is taken modulo `2^16`.
-/

namespace ns3

/-! ## The scheduler -/

/-- The member functions a jammer hands to `Simulator::Schedule`. -/
inductive Callback where
  | DoJamming
  | ReactToPacket
  | RxTimeoutHandler
  deriving DecidableEq, Repr

/-- A scheduled callback: its unique id, its fire time, and what runs. -/
structure Event where
  uid : Nat
  ts : Int
  cb : Callback
  deriving DecidableEq, Repr

/-- Order in which two pending events run: by fire time, then by id. -/
def Event.before (a b : Event) : Bool :=
  decide (a.ts < b.ts) || (decide (a.ts = b.ts) && decide (a.uid ≤ b.uid))

/-- Modelled from the spec: the scheduler collaborator (`Simulator`), which is
not part of the sources.  It has a clock, a supply of fresh event ids and the
set of events that are scheduled and neither run nor cancelled. -/
structure Simulator where
  now : Int
  nextUid : Nat
  events : List Event
  deriving DecidableEq, Repr

/-- Modelled from the spec: a timer handle (`EventId`).  A default-constructed
handle refers to no event (`none`); otherwise it holds the id of the event it
was obtained for. -/
abbrev EventId := Option Nat

namespace Simulator

/-- Modelled from the spec: `schedule(delay, callback) -> TimerHandle`; the new
event fires at `now + delay`. -/
def Schedule (s : Simulator) (delay : Int) (cb : Callback) : Simulator × EventId :=
  ({ s with nextUid := s.nextUid + 1,
            events := s.events ++ [{ uid := s.nextUid, ts := s.now + delay, cb := cb }] },
   some s.nextUid)

/-- Modelled from the spec: `cancel(handle)`; cancelling an inert handle is a
no-op. -/
def Cancel (s : Simulator) (id : EventId) : Simulator :=
  match id with
  | none => s
  | some u => { s with events := s.events.filter (fun e => e.uid != u) }

/-- Modelled from the spec: a handle is expired (inert) until first scheduled,
and again after its event has fired or has been cancelled. -/
def IsExpired (s : Simulator) (id : EventId) : Bool :=
  match id with
  | none => true
  | some u => !(s.events.any (fun e => e.uid == u))

/-- Modelled from the spec: callbacks run strictly ordered by their scheduled
time (events with equal times run in the order they were scheduled).  The next
event to run is the pending one that is before all others. -/
def Next (s : Simulator) : Option Event :=
  s.events.find? (fun e => s.events.all (fun x => e.before x))

/-- The scheduler takes the next event off the queue: the clock jumps to its
fire time and the event is no longer pending. -/
def Pop (s : Simulator) : Option (Event × Simulator) :=
  match s.Next with
  | none => none
  | some e =>
    some (e, { s with now := e.ts, events := s.events.filter (fun x => x.uid != e.uid) })

/-- Virtual time passes until `t` without any callback running: possible only
when `t` is not in the past and no pending event is due before `t`. -/
def Advance (s : Simulator) (t : Int) : Simulator :=
  if s.now ≤ t ∧ s.events.all (fun x => decide (t ≤ x.ts)) = true then { s with now := t } else s

/-- The pending events that run a given callback. -/
def pending (s : Simulator) (cb : Callback) : List Event :=
  s.events.filter (fun e => e.cb == cb)

end Simulator

/-! ## The radio utility -/

/-- The fields of `PhyLayerInfo` the jammers read. -/
structure PhyLayerInfo where
  currentChannel : Nat
  numOfChannels : Nat
  channelSwitchDelay : Int
  deriving DecidableEq, Repr

/-- A command a jammer issued to the radio, with the time of the call. -/
inductive RadioCommand where
  | SendJammingSignal (time : Int) (power : ℚ) (duration : Int)
  | SwitchChannel (time : Int) (channel : Nat)
  deriving DecidableEq, Repr

/-- The outcome a jammer reports after asking for a transmission. -/
inductive Report where
  | JammingSignalSent (actualPower : ℚ)
  | FailedToSend
  deriving DecidableEq, Repr

/-- Everything outside the jammer: scheduler, radio state, and the record of
radio commands, of reports and of the values drawn from the interval
distribution, each in the order of the calls. -/
structure World where
  sim : Simulator
  phy : PhyLayerInfo
  commands : List RadioCommand
  reports : List Report
  draws : List ℚ
  deriving DecidableEq, Repr

namespace World

/-- The call `m_utility->SendJammingSignal (power, duration)`, recorded. -/
def SendJammingSignal (w : World) (power : ℚ) (duration : Int) : World :=
  { w with commands := w.commands ++ [RadioCommand.SendJammingSignal w.sim.now power duration] }

/-- Modelled from the spec: `switchChannel(index)` of the radio collaborator;
the command is recorded and the radio reports the new channel afterwards. -/
def SwitchChannel (w : World) (channel : Nat) : World :=
  { w with commands := w.commands ++ [RadioCommand.SwitchChannel w.sim.now channel],
           phy := { w.phy with currentChannel := channel } }

/-- A call of `m_randomJammingInterval.GetValue ()`, recorded with the value
it returned. -/
def GetValue (w : World) (value : ℚ) : World :=
  { w with draws := w.draws ++ [value] }

/-- The report made from the power the radio returned (`actualPower != 0.0`). -/
def report (w : World) (actualPower : ℚ) : World :=
  if actualPower ≠ 0 then
    { w with reports := w.reports ++ [Report.JammingSignalSent actualPower] }
  else
    { w with reports := w.reports ++ [Report.FailedToSend] }

/-- `Simulator::Schedule` lifted to the world. -/
def Schedule (w : World) (delay : Int) (cb : Callback) : World × EventId :=
  ({ w with sim := (w.sim.Schedule delay cb).1 }, (w.sim.Schedule delay cb).2)

/-- `EventId::Cancel` lifted to the world. -/
def Cancel (w : World) (id : EventId) : World :=
  { w with sim := w.sim.Cancel id }

/-- The switch commands in the record, oldest first. -/
def switches (w : World) : List RadioCommand :=
  w.commands.filter (fun c => match c with
    | RadioCommand.SwitchChannel _ _ => true
    | _ => false)

end World

/-- The channel computation shared by the three `RxTimeoutHandler`s:
`uint16_t nextChannel = currentChannel + 1; if (nextChannel >= numOfChannels)
nextChannel = 1;`. -/
def nextChannel (currentChannel numOfChannels : Nat) : Nat :=
  let next := (currentChannel + 1) % 65536
  if next ≥ numOfChannels then 1 else next

/-- Ways a member function can abort the simulation. -/
inductive Fatal where
  | AssertFailed
  | UnknownReactionStrategy
  deriving DecidableEq, Repr

/-! ## Constant jammer (`constant-jammer.cc`) -/

/-- The member variables of `ConstantJammer`, together with the on/off state
kept by its base class. -/
structure ConstantJammer where
  /-- Modelled from the spec: the `JammerState` of the abstract Jammer
  (`true` is `On`), read through `IsJammerOn ()`. -/
  m_jammerOn : Bool
  m_constantJammingInterval : Int
  m_txPower : ℚ
  m_jammingDuration : Int
  m_jammingEvent : EventId
  m_rxTimeout : Int
  m_rxTimeoutEvent : EventId
  m_reactToMitigation : Bool
  m_reacting : Bool
  deriving DecidableEq, Repr

namespace ConstantJammer

def SetTxPower (j : ConstantJammer) (power : ℚ) : ConstantJammer :=
  { j with m_txPower := power }

def SetJammingDuration (j : ConstantJammer) (duration : Int) : ConstantJammer :=
  { j with m_jammingDuration := duration }

/-- Guarded by `NS_ASSERT (interval.GetSeconds () >= 0)`. -/
def SetConstantJammingInterval (j : ConstantJammer) (interval : Int) :
    Except Fatal ConstantJammer :=
  if interval ≥ 0 then .ok { j with m_constantJammingInterval := interval }
  else .error Fatal.AssertFailed

def SetRxTimeout (j : ConstantJammer) (rxTimeout : Int) : ConstantJammer :=
  { j with m_rxTimeout := rxTimeout }

def SetReactToMitigation (j : ConstantJammer) (flag : Bool) : ConstantJammer :=
  { j with m_reactToMitigation := flag }

/-- `ConstantJammer::DoStopJammer`: `m_jammingEvent.Cancel ();`. -/
def DoStopJammer (j : ConstantJammer) (w : World) : ConstantJammer × World :=
  (j, w.Cancel j.m_jammingEvent)

/-- `ConstantJammer::DoJamming`; `actualPower` is what
`SendJammingSignal` returns. -/
def DoJamming (j : ConstantJammer) (w : World) (actualPower : ℚ) : ConstantJammer × World :=
  if !j.m_jammerOn then (j, w)
  else
    let w1 := (w.SendJammingSignal j.m_txPower j.m_jammingDuration).report actualPower
    if j.m_reactToMitigation && w1.sim.IsExpired j.m_rxTimeoutEvent then
      let r := w1.Schedule j.m_rxTimeout Callback.RxTimeoutHandler
      ({ j with m_rxTimeoutEvent := r.2, m_reacting := false }, r.1)
    else
      ({ j with m_reacting := false }, w1)

/-- `ConstantJammer::DoStartRxHandler`. -/
def DoStartRxHandler (j : ConstantJammer) (w : World) (_startRss : ℚ) :
    Bool × ConstantJammer × World :=
  if j.m_reactToMitigation then
    let r := (w.Cancel j.m_rxTimeoutEvent).Schedule j.m_rxTimeout Callback.RxTimeoutHandler
    (false, { j with m_rxTimeoutEvent := r.2 }, r.1)
  else
    (false, j, w)

/-- `ConstantJammer::DoEndRxHandler`. -/
def DoEndRxHandler (j : ConstantJammer) (w : World) (_averageRss : ℚ) :
    Bool × ConstantJammer × World :=
  (false, j, w)

/-- `ConstantJammer::DoEndTxHandler`. -/
def DoEndTxHandler (j : ConstantJammer) (w : World) (_txPower : ℚ) : ConstantJammer × World :=
  let w1 := w.Cancel j.m_jammingEvent
  if j.m_reacting then
    let r := w1.Schedule w1.phy.channelSwitchDelay Callback.DoJamming
    ({ j with m_jammingEvent := r.2 }, r.1)
  else
    let r := w1.Schedule j.m_constantJammingInterval Callback.DoJamming
    ({ j with m_jammingEvent := r.2 }, r.1)

/-- `ConstantJammer::RxTimeoutHandler`. -/
def RxTimeoutHandler (j : ConstantJammer) (w : World) : ConstantJammer × World :=
  if !j.m_reactToMitigation then (j, w)
  else
    let w1 := w.SwitchChannel (nextChannel w.phy.currentChannel w.phy.numOfChannels)
    let r := (w1.Cancel j.m_rxTimeoutEvent).Schedule j.m_rxTimeout Callback.RxTimeoutHandler
    ({ j with m_reacting := true, m_rxTimeoutEvent := r.2 }, r.1)

/-- Modelled from the spec: `start()` of the abstract Jammer, which is not
part of the sources: sets the state to `On` and invokes the strategy hook
`DoJamming`. -/
def StartJammer (j : ConstantJammer) (w : World) (actualPower : ℚ) : ConstantJammer × World :=
  DoJamming { j with m_jammerOn := true } w actualPower

/-- Modelled from the spec: `stop()` of the abstract Jammer, which is not part
of the sources: sets the state to `Off` and invokes the strategy hook
`DoStopJammer`. -/
def StopJammer (j : ConstantJammer) (w : World) : ConstantJammer × World :=
  DoStopJammer { j with m_jammerOn := false } w

end ConstantJammer

/-! ## Random jammer (`random-jammer.cc`) -/

/-! ### Double precision

`RandomJammer::DoEndTxHandler` adds two `double` values.  A finite `double`
(IEEE 754 binary64) is a rational number, and an arithmetic operation on
doubles yields the exact result rounded to the nearest double. -/

/-- The integer nearest to `q`; when `q` lies halfway between two integers,
the even one. -/
def roundHalfEven (q : ℚ) : Int :=
  if q - ⌊q⌋ < 1 / 2 then ⌊q⌋
  else if 1 / 2 < q - ⌊q⌋ then ⌊q⌋ + 1
  else if ⌊q⌋ % 2 = 0 then ⌊q⌋ else ⌊q⌋ + 1

/-- The `double` nearest to the rational `x` (round to nearest, ties to even):
the nearest multiple of `2 ^ (e - 52)`, where `2 ^ e ≤ |x| < 2 ^ (e + 1)` and
`e` is not taken below `-1022`, the exponent of the smallest normal double.
Results beyond the largest double (about `1.8e308`) are not replaced by
infinity. -/
def roundDouble (x : ℚ) : ℚ :=
  roundHalfEven (x / 2 ^ (max (Int.log 2 |x|) (-1022) - 52))
    * 2 ^ (max (Int.log 2 |x|) (-1022) - 52)

/-- The C++ expression `x + y` on doubles. -/
def doubleAdd (x y : ℚ) : ℚ := roundDouble (x + y)

/-- The C++ expression `x - y` on doubles. -/
def doubleSub (x y : ℚ) : ℚ := roundDouble (x - y)

/-- The C++ expression `x * y` on doubles. -/
def doubleMul (x y : ℚ) : ℚ := roundDouble (x * y)

/-- Modelled from the spec: the "configured random distribution" of the
inter-burst interval, an ns-3 `RandomVariable`, which is not part of the
sources.  Two kinds are represented: `UniformVariable (lower, upper)`, the kind
the attribute defaults to, and `ConstantVariable (c)`. -/
inductive RandomVariable where
  | UniformVariable (lower upper : ℚ)
  | ConstantVariable (c : ℚ)
  deriving DecidableEq, Repr

/-- Modelled from the spec: `RandomVariable::GetValue ()`, which is not part of
the sources: one fresh value of the distribution.  `u` is the number in
`[0, 1)` that the generator behind the variable yields for this call; a
uniform variable returns `lower + u * (upper - lower)`, computed on doubles, a
constant variable returns its constant. -/
def RandomVariable.GetValue : RandomVariable → ℚ → ℚ
  | .UniformVariable lower upper, u => doubleAdd lower (doubleMul u (doubleSub upper lower))
  | .ConstantVariable c, _ => c

/-- Modelled from the spec: `Time::GetSeconds ()`, which is not part of the
sources; neither the sources nor the spec say how a time is represented.  As
in ns-3 a `Time` is a whole number of nanoseconds, and `GetSeconds` returns it
in seconds as a `double`: the double nearest to `t / 10^9`. -/
def GetSeconds (t : Int) : ℚ := roundDouble ((t : ℚ) / 1000000000)

/-- Modelled from the spec: `Seconds (double)`, which is not part of the
sources; neither the sources nor the spec say how it rounds.  As a conversion
of a `double` to an integer does, it keeps the whole nanoseconds of `x` seconds
and discards the fraction of a nanosecond (toward zero).  For `x ≥ 0`, the
only case the theorems rely on, this is the largest whole number of nanoseconds
not above `x`. -/
def Seconds (x : ℚ) : Int :=
  if 0 ≤ x then ⌊x * 1000000000⌋ else ⌈x * 1000000000⌉

/-- The member variables of `RandomJammer`, together with the on/off state kept
by its base class. -/
structure RandomJammer where
  /-- Modelled from the spec: the `JammerState` of the abstract Jammer
  (`true` is `On`), read through `IsJammerOn ()`. -/
  m_jammerOn : Bool
  m_randomJammingInterval : RandomVariable
  m_txPower : ℚ
  m_jammingDuration : Int
  m_jammingEvent : EventId
  m_rxTimeout : Int
  m_rxTimeoutEvent : EventId
  m_reactToMitigation : Bool
  m_reacting : Bool
  deriving DecidableEq, Repr

namespace RandomJammer

def SetTxPower (j : RandomJammer) (power : ℚ) : RandomJammer :=
  { j with m_txPower := power }

def SetJammingDuration (j : RandomJammer) (duration : Int) : RandomJammer :=
  { j with m_jammingDuration := duration }

def SetRandomVariable (j : RandomJammer) (random : RandomVariable) : RandomJammer :=
  { j with m_randomJammingInterval := random }

def SetRxTimeout (j : RandomJammer) (rxTimeout : Int) : RandomJammer :=
  { j with m_rxTimeout := rxTimeout }

def SetReactToMitigation (j : RandomJammer) (flag : Bool) : RandomJammer :=
  { j with m_reactToMitigation := flag }

/-- `RandomJammer::DoStopJammer`: `m_jammingEvent.Cancel ();`. -/
def DoStopJammer (j : RandomJammer) (w : World) : RandomJammer × World :=
  (j, w.Cancel j.m_jammingEvent)

/-- `RandomJammer::DoJamming`; `actualPower` is what `SendJammingSignal`
returns. -/
def DoJamming (j : RandomJammer) (w : World) (actualPower : ℚ) : RandomJammer × World :=
  if !j.m_jammerOn then (j, w)
  else
    let w1 := (w.SendJammingSignal j.m_txPower j.m_jammingDuration).report actualPower
    if j.m_reactToMitigation && w1.sim.IsExpired j.m_rxTimeoutEvent then
      let r := w1.Schedule j.m_rxTimeout Callback.RxTimeoutHandler
      ({ j with m_rxTimeoutEvent := r.2, m_reacting := false }, r.1)
    else
      ({ j with m_reacting := false }, w1)

/-- `RandomJammer::DoStartRxHandler`. -/
def DoStartRxHandler (j : RandomJammer) (w : World) (_startRss : ℚ) :
    Bool × RandomJammer × World :=
  if j.m_reactToMitigation then
    let r := (w.Cancel j.m_rxTimeoutEvent).Schedule j.m_rxTimeout Callback.RxTimeoutHandler
    (false, { j with m_rxTimeoutEvent := r.2 }, r.1)
  else
    (false, j, w)

/-- `RandomJammer::DoEndRxHandler`. -/
def DoEndRxHandler (j : RandomJammer) (w : World) (_averageRss : ℚ) :
    Bool × RandomJammer × World :=
  (false, j, w)

/-- `RandomJammer::DoEndTxHandler`; `u` is the number in `[0, 1)` that the
generator behind `m_randomJammingInterval` yields if `GetValue ()` is
called. -/
def DoEndTxHandler (j : RandomJammer) (w : World) (_txPower : ℚ) (u : ℚ) :
    RandomJammer × World :=
  let w1 := w.Cancel j.m_jammingEvent
  if j.m_reacting then
    let r := w1.Schedule w1.phy.channelSwitchDelay Callback.DoJamming
    ({ j with m_jammingEvent := r.2 }, r.1)
  else
    let w2 := w1.GetValue (j.m_randomJammingInterval.GetValue u)
    let intervalToNextJamming :=
      Seconds (doubleAdd (j.m_randomJammingInterval.GetValue u)
        (GetSeconds j.m_jammingDuration))
    let r := w2.Schedule intervalToNextJamming Callback.DoJamming
    ({ j with m_jammingEvent := r.2 }, r.1)

/-- `RandomJammer::RxTimeoutHandler`. -/
def RxTimeoutHandler (j : RandomJammer) (w : World) : RandomJammer × World :=
  let w0 := w.Cancel j.m_rxTimeoutEvent
  if !j.m_reactToMitigation then (j, w0)
  else
    let w1 := w0.SwitchChannel (nextChannel w0.phy.currentChannel w0.phy.numOfChannels)
    let r := w1.Schedule j.m_rxTimeout Callback.RxTimeoutHandler
    ({ j with m_reacting := true, m_rxTimeoutEvent := r.2 }, r.1)

/-- Modelled from the spec: `start()` of the abstract Jammer, which is not
part of the sources: sets the state to `On` and invokes the strategy hook
`DoJamming`. -/
def StartJammer (j : RandomJammer) (w : World) (actualPower : ℚ) : RandomJammer × World :=
  DoJamming { j with m_jammerOn := true } w actualPower

/-- Modelled from the spec: `stop()` of the abstract Jammer, which is not part
of the sources: sets the state to `Off` and invokes the strategy hook
`DoStopJammer`. -/
def StopJammer (j : RandomJammer) (w : World) : RandomJammer × World :=
  DoStopJammer { j with m_jammerOn := false } w

end RandomJammer

/-! ## Reactive jammer (`reactive-jammer.cc`) -/

/-- `enum ReactionStrategy { ENERGY_AWARE = 0, FIXED_PROBABILITY }`. -/
def ENERGY_AWARE : Nat := 0

def FIXED_PROBABILITY : Nat := 1

/-- The member variables of `ReactiveJammer`, together with the on/off state
kept by its base class.  `m_reactionStrategy` is stored through an unsigned
integer attribute, so it can hold any number.  The uniform variable `m_random`
and the energy source are represented by the values they yield. -/
structure ReactiveJammer where
  /-- Modelled from the spec: the `JammerState` of the abstract Jammer
  (`true` is `On`). -/
  m_jammerOn : Bool
  m_rxTxSwitchingDelay : Int
  m_txPower : ℚ
  m_jammingDuration : Int
  m_jammingEvent : EventId
  m_reactionStrategy : Nat
  m_fixedProbability : ℚ
  m_rxTimeout : Int
  m_rxTimeoutEvent : EventId
  m_reactToMitigation : Bool
  deriving DecidableEq, Repr

namespace ReactiveJammer

def SetTxPower (j : ReactiveJammer) (power : ℚ) : ReactiveJammer :=
  { j with m_txPower := power }

def SetJammingDuration (j : ReactiveJammer) (duration : Int) : ReactiveJammer :=
  { j with m_jammingDuration := duration }

/-- Guarded by `NS_ASSERT (delay.GetSeconds () >= 0)`. -/
def SetRxTxSwitchingDelay (j : ReactiveJammer) (delay : Int) : Except Fatal ReactiveJammer :=
  if delay ≥ 0 then .ok { j with m_rxTxSwitchingDelay := delay }
  else .error Fatal.AssertFailed

def SetReactionStrategy (j : ReactiveJammer) (strategy : Nat) : ReactiveJammer :=
  { j with m_reactionStrategy := strategy }

/-- Guarded by `NS_ASSERT (probability >=0 && probability <= 1)`. -/
def SetFixedProbability (j : ReactiveJammer) (probability : ℚ) : Except Fatal ReactiveJammer :=
  if probability ≥ 0 ∧ probability ≤ 1 then .ok { j with m_fixedProbability := probability }
  else .error Fatal.AssertFailed

def SetRxTimeout (j : ReactiveJammer) (rxTimeout : Int) : ReactiveJammer :=
  { j with m_rxTimeout := rxTimeout }

def SetReactToMitigation (j : ReactiveJammer) (flag : Bool) : ReactiveJammer :=
  { j with m_reactToMitigation := flag }

/-- `ReactiveJammer::DoStopJammer`: `m_jammingEvent.Cancel ();`. -/
def DoStopJammer (j : ReactiveJammer) (w : World) : ReactiveJammer × World :=
  (j, w.Cancel j.m_jammingEvent)

/-- `ReactiveJammer::DoJamming`, the start hook. -/
def DoJamming (j : ReactiveJammer) (w : World) : ReactiveJammer × World :=
  if j.m_reactToMitigation then
    let r := w.Schedule j.m_rxTimeout Callback.RxTimeoutHandler
    ({ j with m_rxTimeoutEvent := r.2 }, r.1)
  else
    (j, w)

/-- `ReactiveJammer::IsPacketToBeJammed`; `draw` is the value
`m_random.GetValue ()` yields and `energyFraction` the value
`m_source->GetEnergyFraction ()` yields. -/
def IsPacketToBeJammed (j : ReactiveJammer) (draw energyFraction : ℚ) : Except Fatal Bool :=
  if j.m_reactionStrategy = ENERGY_AWARE then
    .ok (decide (draw < energyFraction))
  else if j.m_reactionStrategy = FIXED_PROBABILITY then
    .ok (decide (draw < j.m_fixedProbability))
  else
    .error Fatal.UnknownReactionStrategy

/-- `ReactiveJammer::DoStartRxHandler`. -/
def DoStartRxHandler (j : ReactiveJammer) (w : World) (_startRss : ℚ)
    (draw energyFraction : ℚ) : Except Fatal (Bool × ReactiveJammer × World) :=
  match IsPacketToBeJammed j draw energyFraction with
  | .error e => .error e
  | .ok jam =>
    let r1 : World × EventId :=
      if jam then (w.Cancel j.m_jammingEvent).Schedule j.m_rxTxSwitchingDelay Callback.ReactToPacket
      else (w, j.m_jammingEvent)
    let j1 := { j with m_jammingEvent := r1.2 }
    if j1.m_reactToMitigation then
      let r2 := (r1.1.Cancel j1.m_rxTimeoutEvent).Schedule j1.m_rxTimeout Callback.RxTimeoutHandler
      .ok (false, { j1 with m_rxTimeoutEvent := r2.2 }, r2.1)
    else
      .ok (false, j1, r1.1)

/-- `ReactiveJammer::DoEndRxHandler`. -/
def DoEndRxHandler (j : ReactiveJammer) (w : World) (_averageRss : ℚ) :
    Bool × ReactiveJammer × World :=
  (false, j, w)

/-- `ReactiveJammer::DoEndTxHandler`. -/
def DoEndTxHandler (j : ReactiveJammer) (w : World) (_txPower : ℚ) : ReactiveJammer × World :=
  (j, w)

/-- `ReactiveJammer::ReactToPacket`; `actualPower` is what `SendJammingSignal`
returns. -/
def ReactToPacket (j : ReactiveJammer) (w : World) (actualPower : ℚ) : ReactiveJammer × World :=
  (j, (w.SendJammingSignal j.m_txPower j.m_jammingDuration).report actualPower)

/-- `ReactiveJammer::RxTimeoutHandler`. -/
def RxTimeoutHandler (j : ReactiveJammer) (w : World) : ReactiveJammer × World :=
  let w0 := w.Cancel j.m_rxTimeoutEvent
  if !j.m_reactToMitigation then (j, w0)
  else
    let w1 := w0.SwitchChannel (nextChannel w0.phy.currentChannel w0.phy.numOfChannels)
    let r := w1.Schedule j.m_rxTimeout Callback.RxTimeoutHandler
    ({ j with m_rxTimeoutEvent := r.2 }, r.1)

/-- Modelled from the spec: `start()` of the abstract Jammer, which is not
part of the sources: sets the state to `On` and invokes the strategy hook
`DoJamming`. -/
def StartJammer (j : ReactiveJammer) (w : World) : ReactiveJammer × World :=
  DoJamming { j with m_jammerOn := true } w

/-- Modelled from the spec: `stop()` of the abstract Jammer, which is not part
of the sources: sets the state to `Off` and invokes the strategy hook
`DoStopJammer`. -/
def StopJammer (j : ReactiveJammer) (w : World) : ReactiveJammer × World :=
  DoStopJammer { j with m_jammerOn := false } w

end ReactiveJammer

/-! ## Runs

A run is a sequence of inputs: lifecycle calls, packet observations delivered
by the radio, the scheduler running the jammer's next pending callback, and the
passage of virtual time. -/

/-- One thing that happens to a jammer.  Values the collaborators return
during the call (the power actually sent, random draws, the energy fraction)
travel with the input; the draw of `EndTx` is the number in `[0, 1)` the
generator behind the interval distribution of a random jammer yields. -/
inductive Input where
  | StartJammer (actualPower : ℚ)
  | StopJammer
  | StartRx (startRss draw energyFraction : ℚ)
  | EndRx (averageRss : ℚ)
  | EndTx (txPower draw : ℚ)
  | Fire (cb : Callback) (actualPower : ℚ)
  | Advance (t : Int)
  deriving DecidableEq, Repr

/-- Inputs other than the lifecycle calls `start` and `stop`. -/
def Input.inSession : Input → Bool
  | .StartJammer _ => false
  | .StopJammer => false
  | _ => true

/-- Inputs that are neither a lifecycle call, nor a packet detection, nor a
watchdog fire. -/
def Input.quiet : Input → Bool
  | .StartJammer _ => false
  | .StopJammer => false
  | .StartRx _ _ _ => false
  | .Fire Callback.RxTimeoutHandler _ => false
  | _ => true

namespace World

/-- Time passes in the world. -/
def Advance (w : World) (t : Int) : World :=
  { w with sim := w.sim.Advance t }

end World

namespace ConstantJammer

/-- One input applied to a constant jammer. -/
def step (c : ConstantJammer × World) : Input → ConstantJammer × World
  | .StartJammer p => StartJammer c.1 c.2 p
  | .StopJammer => StopJammer c.1 c.2
  | .StartRx rss _ _ => (DoStartRxHandler c.1 c.2 rss).2
  | .EndRx rss => (DoEndRxHandler c.1 c.2 rss).2
  | .EndTx p _ => DoEndTxHandler c.1 c.2 p
  | .Fire cb p =>
    match c.2.sim.Pop with
    | none => c
    | some (e, s) =>
      if e.cb = cb then
        match cb with
        | Callback.DoJamming => DoJamming c.1 { c.2 with sim := s } p
        | Callback.RxTimeoutHandler => RxTimeoutHandler c.1 { c.2 with sim := s }
        | Callback.ReactToPacket => c
      else c
  | .Advance t => (c.1, c.2.Advance t)

/-- A run: the inputs applied in order. -/
def run (c : ConstantJammer × World) (ins : List Input) : ConstantJammer × World :=
  ins.foldl step c

end ConstantJammer

namespace RandomJammer

/-- One input applied to a random jammer. -/
def step (c : RandomJammer × World) : Input → RandomJammer × World
  | .StartJammer p => StartJammer c.1 c.2 p
  | .StopJammer => StopJammer c.1 c.2
  | .StartRx rss _ _ => (DoStartRxHandler c.1 c.2 rss).2
  | .EndRx rss => (DoEndRxHandler c.1 c.2 rss).2
  | .EndTx p d => DoEndTxHandler c.1 c.2 p d
  | .Fire cb p =>
    match c.2.sim.Pop with
    | none => c
    | some (e, s) =>
      if e.cb = cb then
        match cb with
        | Callback.DoJamming => DoJamming c.1 { c.2 with sim := s } p
        | Callback.RxTimeoutHandler => RxTimeoutHandler c.1 { c.2 with sim := s }
        | Callback.ReactToPacket => c
      else c
  | .Advance t => (c.1, c.2.Advance t)

/-- A run: the inputs applied in order. -/
def run (c : RandomJammer × World) (ins : List Input) : RandomJammer × World :=
  ins.foldl step c

end RandomJammer

namespace ReactiveJammer

/-- One input applied to a reactive jammer; a fatal error ends the run. -/
def step (c : ReactiveJammer × World) : Input → Except Fatal (ReactiveJammer × World)
  | .StartJammer _ => .ok (StartJammer c.1 c.2)
  | .StopJammer => .ok (StopJammer c.1 c.2)
  | .StartRx rss d f =>
    match DoStartRxHandler c.1 c.2 rss d f with
    | .error e => .error e
    | .ok r => .ok r.2
  | .EndRx rss => .ok (DoEndRxHandler c.1 c.2 rss).2
  | .EndTx p _ => .ok (DoEndTxHandler c.1 c.2 p)
  | .Fire cb p =>
    match c.2.sim.Pop with
    | none => .ok c
    | some (e, s) =>
      if e.cb = cb then
        match cb with
        | Callback.ReactToPacket => .ok (ReactToPacket c.1 { c.2 with sim := s } p)
        | Callback.RxTimeoutHandler => .ok (RxTimeoutHandler c.1 { c.2 with sim := s })
        | Callback.DoJamming => .ok c
      else .ok c
  | .Advance t => .ok (c.1, c.2.Advance t)

/-- A run: the inputs applied in order, stopping at the first fatal error. -/
def run (c : ReactiveJammer × World) : List Input → Except Fatal (ReactiveJammer × World)
  | [] => .ok c
  | i :: ins =>
    match step c i with
    | .error e => .error e
    | .ok c1 => run c1 ins

end ReactiveJammer

/-! ## Initial states -/

/-- A scheduler at time `t0` with nothing scheduled. -/
def Simulator.init (t0 : Int) : Simulator :=
  { now := t0, nextUid := 0, events := [] }

/-- A world at time `t0` with nothing scheduled and nothing yet commanded. -/
def World.init (t0 : Int) (phy : PhyLayerInfo) : World :=
  { sim := Simulator.init t0, phy := phy, commands := [], reports := [], draws := [] }

/-- The radio of the three-channel scenario, tuned to channel 2. -/
def PhyLayerInfo.threeChannels : PhyLayerInfo :=
  { currentChannel := 2, numOfChannels := 3, channelSwitchDelay := 500000 }

/-- A constant jammer as constructed, with the attribute defaults of
`ConstantJammer::GetTypeId` (1 mW, 5 ms bursts, interval 0, RX timeout 2 s). -/
def ConstantJammer.fresh : ConstantJammer :=
  { m_jammerOn := false, m_constantJammingInterval := 0, m_txPower := 1 / 1000,
    m_jammingDuration := 5000000, m_jammingEvent := none, m_rxTimeout := 2000000000,
    m_rxTimeoutEvent := none, m_reactToMitigation := false, m_reacting := false }

/-- A random jammer as constructed, with the attribute defaults of
`RandomJammer::GetTypeId` (intervals uniform on 0 to 1 ms, 1 mW, 200 ms bursts,
RX timeout 2 s, chasing enabled). -/
def RandomJammer.fresh : RandomJammer :=
  { m_jammerOn := false,
    m_randomJammingInterval := RandomVariable.UniformVariable 0 (1 / 1000),
    m_txPower := 1 / 1000, m_jammingDuration := 200000000,
    m_jammingEvent := none, m_rxTimeout := 2000000000, m_rxTimeoutEvent := none,
    m_reactToMitigation := true, m_reacting := false }

/-- A reactive jammer as constructed, with the attribute defaults of
`ReactiveJammer::GetTypeId` (1 mW, 5 ms bursts, 500 us turnaround,
energy-aware, fixed probability 1, RX timeout 2 s). -/
def ReactiveJammer.fresh : ReactiveJammer :=
  { m_jammerOn := false, m_rxTxSwitchingDelay := 500000, m_txPower := 1 / 1000,
    m_jammingDuration := 5000000, m_jammingEvent := none, m_reactionStrategy := ENERGY_AWARE,
    m_fixedProbability := 1, m_rxTimeout := 2000000000, m_rxTimeoutEvent := none,
    m_reactToMitigation := false }

/-! ## Well-formed scheduler states

Facts that hold of every state the scheduler and a jammer can be in; they are
stated as predicates so that theorems can name exactly what they rely on. -/

namespace Simulator

/-- Event ids are unique and were all issued by this scheduler. -/
@[reducible] def WF (s : Simulator) : Prop :=
  (∀ e ∈ s.events, e.uid < s.nextUid) ∧ (s.events.map Event.uid).Nodup

/-- The handle is inert or holds an id this scheduler has issued. -/
@[reducible] def Issued (s : Simulator) (id : EventId) : Prop :=
  ∀ u ∈ id, u < s.nextUid

/-- Any pending event the handle refers to runs the callback `cb`. -/
@[reducible] def Refers (s : Simulator) (id : EventId) (cb : Callback) : Prop :=
  ∀ e ∈ s.events, id = some e.uid → e.cb = cb

/-- Every pending event that runs `cb` is the one the handle refers to: the
slot `id` accounts for all pending `cb` events. -/
@[reducible] def Tracked (s : Simulator) (id : EventId) (cb : Callback) : Prop :=
  ∀ e ∈ s.pending cb, id = some e.uid

/-- The state of the two timer slots before a session: the scheduler is
well formed, the tick/reaction handle `tick` refers to a `tickCb` event if to
any, no watchdog is pending and the watchdog handle `rx` is expired. -/
@[reducible] def Idle (s : Simulator) (tick rx : EventId) (tickCb : Callback) : Prop :=
  s.WF ∧ s.Issued tick ∧ s.Refers tick tickCb ∧
    s.pending Callback.RxTimeoutHandler = [] ∧ s.IsExpired rx = true

/-- The state of the two timer slots while the watchdog `e` is armed: `e` is
the only pending watchdog and the handle `rx` refers to it. -/
@[reducible] def ArmedWith (s : Simulator) (tick rx : EventId) (tickCb : Callback)
    (e : Event) : Prop :=
  s.WF ∧ s.Issued tick ∧ s.Refers tick tickCb ∧
    s.pending Callback.RxTimeoutHandler = [e] ∧ rx = some e.uid

end Simulator

/-! ## Back-to-back bursts -/

namespace ConstantJammer

/-- One burst cycle of a constant jammer after a tick: the burst lasts
`m_jammingDuration`, then the radio delivers burst-sent, then the scheduler
runs the next pending callback as a tick. -/
def burst (actualPower : ℚ) (c : ConstantJammer × World) : ConstantJammer × World :=
  step (step (step c (Input.Advance (c.2.sim.now + c.1.m_jammingDuration)))
    (Input.EndTx actualPower 0)) (Input.Fire Callback.DoJamming actualPower)

/-- The state in which burst-sent of the current burst has just been handled. -/
def burstSent (actualPower : ℚ) (c : ConstantJammer × World) : ConstantJammer × World :=
  step (step c (Input.Advance (c.2.sim.now + c.1.m_jammingDuration)))
    (Input.EndTx actualPower 0)

end ConstantJammer

/-! ## Strategy parameters -/

/-- The strategy parameters of a constant jammer: tx power, burst duration,
inter-burst interval. -/
def ConstantJammer.parameters (j : ConstantJammer) : ℚ × Int × Int :=
  (j.m_txPower, j.m_jammingDuration, j.m_constantJammingInterval)

/-- The strategy parameters of a random jammer: tx power, burst duration,
random-interval distribution. -/
def RandomJammer.parameters (j : RandomJammer) : ℚ × Int × RandomVariable :=
  (j.m_txPower, j.m_jammingDuration, j.m_randomJammingInterval)

/-- The strategy parameters of a reactive jammer: tx power, burst duration,
rx/tx switching delay, reaction strategy, fixed probability. -/
def ReactiveJammer.parameters (j : ReactiveJammer) : ℚ × Int × Int × Nat × ℚ :=
  (j.m_txPower, j.m_jammingDuration, j.m_rxTxSwitchingDelay, j.m_reactionStrategy,
    j.m_fixedProbability)

/-! ## A paced constant jammer -/

/-- A constant jammer with 5 ms bursts every 10 ms that chases with an RX
timeout of 14.8 ms. -/
def ConstantJammer.paced : ConstantJammer :=
  { m_jammerOn := false, m_constantJammingInterval := 10000000, m_txPower := 1 / 1000,
    m_jammingDuration := 5000000, m_jammingEvent := none, m_rxTimeout := 14800000,
    m_rxTimeoutEvent := none, m_reactToMitigation := true, m_reacting := false }

/-- The channel a radio command switches to, if it is a switch command. -/
def RadioCommand.target : RadioCommand → Option Nat
  | .SwitchChannel _ channel => some channel
  | .SendJammingSignal _ _ _ => none

/-- The channels the radio was told to switch to, oldest first. -/
def World.hopTargets (w : World) : List Nat :=
  w.commands.filterMap RadioCommand.target

/-- The watchdog handler of the constant jammer invoked `k` times in
succession. -/
def ConstantJammer.hops (k : Nat) (c : ConstantJammer × World) : ConstantJammer × World :=
  Nat.iterate (fun c => c.1.RxTimeoutHandler c.2) k c

/-- The watchdog handler of the random jammer invoked `k` times in
succession. -/
def RandomJammer.hops (k : Nat) (c : RandomJammer × World) : RandomJammer × World :=
  Nat.iterate (fun c => c.1.RxTimeoutHandler c.2) k c

/-- The watchdog handler of the reactive jammer invoked `k` times in
succession. -/
def ReactiveJammer.hops (k : Nat) (c : ReactiveJammer × World) : ReactiveJammer × World :=
  Nat.iterate (fun c => c.1.RxTimeoutHandler c.2) k c

/-! # Theorems -/

/-! ## Scheduler and world bookkeeping -/

namespace Simulator

@[simp] theorem Cancel_now (s : Simulator) (id : EventId) : (s.Cancel id).now = s.now := by
  cases id <;> rfl

@[simp] theorem Cancel_nextUid (s : Simulator) (id : EventId) :
    (s.Cancel id).nextUid = s.nextUid := by
  cases id <;> rfl

@[simp] theorem Cancel_none (s : Simulator) : s.Cancel none = s := rfl

@[simp] theorem Schedule_now (s : Simulator) (d : Int) (cb : Callback) :
    (s.Schedule d cb).1.now = s.now := rfl

@[simp] theorem Schedule_nextUid (s : Simulator) (d : Int) (cb : Callback) :
    (s.Schedule d cb).1.nextUid = s.nextUid + 1 := rfl

@[simp] theorem Schedule_id (s : Simulator) (d : Int) (cb : Callback) :
    (s.Schedule d cb).2 = some s.nextUid := rfl

@[simp] theorem Schedule_events (s : Simulator) (d : Int) (cb : Callback) :
    (s.Schedule d cb).1.events
      = s.events ++ [{ uid := s.nextUid, ts := s.now + d, cb := cb }] := rfl

theorem Cancel_events_sublist (s : Simulator) (id : EventId) :
    (s.Cancel id).events.Sublist s.events := by
  cases id with
  | none => exact List.Sublist.refl _
  | some u => exact List.filter_sublist _

theorem mem_of_mem_Cancel {s : Simulator} {id : EventId} {e : Event}
    (h : e ∈ (s.Cancel id).events) : e ∈ s.events :=
  (Cancel_events_sublist s id).subset h

theorem pending_Schedule_same (s : Simulator) (d : Int) (cb : Callback) :
    (s.Schedule d cb).1.pending cb
      = s.pending cb ++ [{ uid := s.nextUid, ts := s.now + d, cb := cb }] := by
  simp [pending, List.filter_append]

theorem pending_Schedule_other (s : Simulator) (d : Int) {cb cb1 : Callback} (h : cb ≠ cb1) :
    (s.Schedule d cb).1.pending cb1 = s.pending cb1 := by
  simp [pending, List.filter_append, h]

theorem pending_Cancel (s : Simulator) (u : Nat) (cb : Callback) :
    (s.Cancel (some u)).pending cb = (s.pending cb).filter (fun e => e.uid != u) := by
  simp only [pending, Cancel, List.filter_filter]
  congr 1
  funext e
  exact Bool.and_comm _ _

theorem mem_pending {s : Simulator} {cb : Callback} {e : Event} :
    e ∈ s.pending cb ↔ e ∈ s.events ∧ e.cb = cb := by
  simp [pending, List.mem_filter]

theorem mem_Cancel_some {s : Simulator} {u : Nat} {e : Event} :
    e ∈ (s.Cancel (some u)).events ↔ e ∈ s.events ∧ e.uid ≠ u := by
  simp [Cancel, List.mem_filter]

theorem pending_Cancel_sublist (s : Simulator) (id : EventId) (cb : Callback) :
    ((s.Cancel id).pending cb).Sublist (s.pending cb) :=
  (Cancel_events_sublist s id).filter _

/-- Cancelling the handle of a tracked slot empties the slot. -/
theorem pending_Cancel_of_Tracked {s : Simulator} {id : EventId} {cb : Callback}
    (h : s.Tracked id cb) : (s.Cancel id).pending cb = [] := by
  cases id with
  | none =>
    refine List.eq_nil_iff_forall_not_mem.mpr ?_
    intro e he
    exact Option.noConfusion (h e he)
  | some u =>
    rw [pending_Cancel]
    refine List.filter_eq_nil_iff.mpr ?_
    intro e he
    have hu : some u = some e.uid := h e he
    have hu2 : e.uid = u := (Option.some.inj hu).symm
    simp [hu2]

/-- Cancel-then-schedule on a tracked slot leaves exactly the new event. -/
theorem pending_rearm {s : Simulator} {id : EventId} {cb : Callback} (d : Int)
    (h : s.Tracked id cb) :
    ((s.Cancel id).Schedule d cb).1.pending cb = [Event.mk s.nextUid (s.now + d) cb] := by
  rw [pending_Schedule_same, pending_Cancel_of_Tracked h]
  simp

/-- After cancel-then-schedule the event the old handle referred to is gone. -/
theorem not_mem_rearm {s : Simulator} {id : EventId} (d : Int) (cb : Callback) {e : Event}
    (hid : id = some e.uid) (hlt : e.uid < s.nextUid) :
    e ∉ ((s.Cancel id).Schedule d cb).1.events := by
  subst hid
  intro he
  simp only [Schedule_events, List.mem_append, List.mem_singleton, Cancel_nextUid,
    Cancel_now] at he
  rcases he with he | he
  · exact (mem_Cancel_some.mp he).2 rfl
  · rw [he] at hlt
    exact Nat.lt_irrefl _ hlt

theorem Tracked_of_sublist {s t : Simulator} {id : EventId} {cb : Callback}
    (hsub : (t.pending cb).Sublist (s.pending cb)) (h : s.Tracked id cb) : t.Tracked id cb :=
  fun e he => h e (hsub.subset he)

end Simulator

namespace World

@[simp] theorem world_GetValue_sim (w : World) (v : ℚ) : (w.GetValue v).sim = w.sim := rfl

@[simp] theorem world_GetValue_phy (w : World) (v : ℚ) : (w.GetValue v).phy = w.phy := rfl

@[simp] theorem world_GetValue_commands (w : World) (v : ℚ) :
    (w.GetValue v).commands = w.commands := rfl

@[simp] theorem world_GetValue_reports (w : World) (v : ℚ) :
    (w.GetValue v).reports = w.reports := rfl

@[simp] theorem world_GetValue_draws (w : World) (v : ℚ) :
    (w.GetValue v).draws = w.draws ++ [v] := rfl

@[simp] theorem world_Cancel_draws (w : World) (id : EventId) :
    (w.Cancel id).draws = w.draws := rfl

@[simp] theorem world_Schedule_draws (w : World) (d : Int) (cb : Callback) :
    (w.Schedule d cb).1.draws = w.draws := rfl

@[simp] theorem world_Cancel_phy (w : World) (id : EventId) : (w.Cancel id).phy = w.phy := rfl

@[simp] theorem world_Cancel_commands (w : World) (id : EventId) :
    (w.Cancel id).commands = w.commands := rfl

@[simp] theorem world_Cancel_reports (w : World) (id : EventId) :
    (w.Cancel id).reports = w.reports := rfl

@[simp] theorem world_Cancel_sim (w : World) (id : EventId) : (w.Cancel id).sim = w.sim.Cancel id := rfl

@[simp] theorem world_Schedule_phy (w : World) (d : Int) (cb : Callback) :
    (w.Schedule d cb).1.phy = w.phy := rfl

@[simp] theorem world_Schedule_commands (w : World) (d : Int) (cb : Callback) :
    (w.Schedule d cb).1.commands = w.commands := rfl

@[simp] theorem world_Schedule_reports (w : World) (d : Int) (cb : Callback) :
    (w.Schedule d cb).1.reports = w.reports := rfl

@[simp] theorem world_Schedule_sim (w : World) (d : Int) (cb : Callback) :
    (w.Schedule d cb).1.sim = (w.sim.Schedule d cb).1 := rfl

@[simp] theorem world_Schedule_id (w : World) (d : Int) (cb : Callback) :
    (w.Schedule d cb).2 = some w.sim.nextUid := rfl

@[simp] theorem world_SwitchChannel_sim (w : World) (ch : Nat) : (w.SwitchChannel ch).sim = w.sim := rfl

@[simp] theorem world_SwitchChannel_commands (w : World) (ch : Nat) :
    (w.SwitchChannel ch).commands
      = w.commands ++ [RadioCommand.SwitchChannel w.sim.now ch] := rfl

@[simp] theorem world_SwitchChannel_reports (w : World) (ch : Nat) :
    (w.SwitchChannel ch).reports = w.reports := rfl

@[simp] theorem world_SendJammingSignal_sim (w : World) (p : ℚ) (d : Int) :
    (w.SendJammingSignal p d).sim = w.sim := rfl

@[simp] theorem world_SendJammingSignal_phy (w : World) (p : ℚ) (d : Int) :
    (w.SendJammingSignal p d).phy = w.phy := rfl

@[simp] theorem world_SendJammingSignal_commands (w : World) (p : ℚ) (d : Int) :
    (w.SendJammingSignal p d).commands
      = w.commands ++ [RadioCommand.SendJammingSignal w.sim.now p d] := rfl

@[simp] theorem world_report_sim (w : World) (p : ℚ) : (w.report p).sim = w.sim := by
  unfold report; split <;> rfl

@[simp] theorem world_report_phy (w : World) (p : ℚ) : (w.report p).phy = w.phy := by
  unfold report; split <;> rfl

@[simp] theorem world_report_commands (w : World) (p : ℚ) : (w.report p).commands = w.commands := by
  unfold report; split <;> rfl

end World

/-! ## Stopping -/

/-- C1 (evaluated on the code). A constant, a random and a reactive jammer with
chasing enabled are started at time 0 and stopped at once.  In each case the
jammer is off and no tick or reaction is pending after the stop, but the
RX-timeout watchdog scheduled by the start is still pending for time 2 s; when
the scheduler runs it, the stopped jammer commands a channel switch (and
schedules the watchdog again). -/
theorem stop_leaves_watchdog_pending :
    ((ConstantJammer.run (ConstantJammer.fresh.SetReactToMitigation true,
          World.init 0 PhyLayerInfo.threeChannels)
        [Input.StartJammer 1, Input.StopJammer]).1.m_jammerOn = false ∧
      (ConstantJammer.run (ConstantJammer.fresh.SetReactToMitigation true,
          World.init 0 PhyLayerInfo.threeChannels)
        [Input.StartJammer 1, Input.StopJammer]).2.sim.events
        = [Event.mk 0 2000000000 Callback.RxTimeoutHandler] ∧
      (ConstantJammer.run (ConstantJammer.fresh.SetReactToMitigation true,
          World.init 0 PhyLayerInfo.threeChannels)
        [Input.StartJammer 1, Input.StopJammer,
          Input.Fire Callback.RxTimeoutHandler 0]).2.switches
        = [RadioCommand.SwitchChannel 2000000000 1] ∧
      (ConstantJammer.run (ConstantJammer.fresh.SetReactToMitigation true,
          World.init 0 PhyLayerInfo.threeChannels)
        [Input.StartJammer 1, Input.StopJammer,
          Input.Fire Callback.RxTimeoutHandler 0]).2.sim.events
        = [Event.mk 1 4000000000 Callback.RxTimeoutHandler]) ∧
    ((RandomJammer.run (RandomJammer.fresh, World.init 0 PhyLayerInfo.threeChannels)
        [Input.StartJammer 1, Input.StopJammer]).1.m_jammerOn = false ∧
      (RandomJammer.run (RandomJammer.fresh, World.init 0 PhyLayerInfo.threeChannels)
        [Input.StartJammer 1, Input.StopJammer]).2.sim.events
        = [Event.mk 0 2000000000 Callback.RxTimeoutHandler] ∧
      (RandomJammer.run (RandomJammer.fresh, World.init 0 PhyLayerInfo.threeChannels)
        [Input.StartJammer 1, Input.StopJammer,
          Input.Fire Callback.RxTimeoutHandler 0]).2.switches
        = [RadioCommand.SwitchChannel 2000000000 1]) ∧
    ((ReactiveJammer.run (ReactiveJammer.fresh.SetReactToMitigation true,
          World.init 0 PhyLayerInfo.threeChannels)
        [Input.StartJammer 1, Input.StopJammer]).map
        (fun x => (x.1.m_jammerOn, x.2.sim.events))
        = Except.ok (false, [Event.mk 0 2000000000 Callback.RxTimeoutHandler]) ∧
      (ReactiveJammer.run (ReactiveJammer.fresh.SetReactToMitigation true,
          World.init 0 PhyLayerInfo.threeChannels)
        [Input.StartJammer 1, Input.StopJammer,
          Input.Fire Callback.RxTimeoutHandler 0]).map (fun x => x.2.switches)
        = Except.ok [RadioCommand.SwitchChannel 2000000000 1]) := by
  refine ⟨by decide, by decide, rfl, rfl⟩

/-! ## Packet detection never accepts the packet -/

/-- C2. `DoStartRxHandler` returns `false` for the constant jammer and for the
random jammer in every state and for every signal strength, and for the
reactive jammer whenever its reaction strategy is `ENERGY_AWARE` or
`FIXED_PROBABILITY` (in which case the call does return). -/
theorem DoStartRxHandler_returns_false :
    (∀ (j : ConstantJammer) (w : World) (startRss : ℚ),
      (j.DoStartRxHandler w startRss).1 = false) ∧
    (∀ (j : RandomJammer) (w : World) (startRss : ℚ),
      (j.DoStartRxHandler w startRss).1 = false) ∧
    (∀ (j : ReactiveJammer) (w : World) (startRss draw energyFraction : ℚ),
      j.m_reactionStrategy = ENERGY_AWARE ∨ j.m_reactionStrategy = FIXED_PROBABILITY →
      ∃ j1 w1, j.DoStartRxHandler w startRss draw energyFraction = Except.ok (false, j1, w1)) := by
  refine ⟨?_, ?_, ?_⟩
  · intro j w rss
    unfold ConstantJammer.DoStartRxHandler
    split <;> rfl
  · intro j w rss
    unfold RandomJammer.DoStartRxHandler
    split <;> rfl
  · intro j w rss d f h
    have hd : ∃ b, j.IsPacketToBeJammed d f = Except.ok b := by
      unfold ReactiveJammer.IsPacketToBeJammed
      rcases h with h | h
      · exact ⟨_, if_pos h⟩
      · by_cases h0 : j.m_reactionStrategy = ENERGY_AWARE
        · exact ⟨_, if_pos h0⟩
        · rw [if_neg h0, if_pos h]
          exact ⟨_, rfl⟩
    obtain ⟨b, hb⟩ := hd
    unfold ReactiveJammer.DoStartRxHandler
    rw [hb]
    dsimp only
    split
    · exact ⟨_, _, rfl⟩
    · exact ⟨_, _, rfl⟩

/-- C2, at a reactive jammer in fixed-probability mode with chasing enabled. -/
theorem DoStartRxHandler_returns_false_witness :
    ∃ j1 w1, ((ReactiveJammer.fresh.SetReactionStrategy FIXED_PROBABILITY).SetReactToMitigation
        true).DoStartRxHandler (World.init 0 PhyLayerInfo.threeChannels) 1 (1 / 2) 1
      = Except.ok (false, j1, w1) :=
  DoStartRxHandler_returns_false.2.2 _ _ _ _ _ (Or.inr rfl)

/-! ## The chase hop -/

theorem nextChannel_of_lt (c N : Nat) (hc : c < N) (hN : N < 65536) :
    nextChannel c N = if c + 1 < N then c + 1 else 1 := by
  unfold nextChannel
  have h1 : (c + 1) % 65536 = c + 1 := Nat.mod_eq_of_lt (by omega)
  simp only [h1, ge_iff_le]
  by_cases h : c + 1 < N
  · rw [if_neg (by omega), if_pos h]
  · rw [if_pos (by omega), if_neg h]

/-- C4. With `reactToMitigation` enabled, on a radio with `N` channels
(`uint16_t`) tuned to channel `c < N`, the watchdog handler of each jammer
commands exactly one switch, to `c + 1` when `c + 1 < N` and to `1` otherwise;
that target is `(c + 1) mod N` with `0` replaced by `1`. -/
theorem RxTimeoutHandler_switches_to_next (c N : Nat) (hc : c < N) (hN : N < 65536) :
    (if c + 1 < N then c + 1 else 1) = (if (c + 1) % N = 0 then 1 else (c + 1) % N) ∧
    (∀ (j : ConstantJammer) (w : World), j.m_reactToMitigation = true →
      w.phy.currentChannel = c → w.phy.numOfChannels = N →
      (j.RxTimeoutHandler w).2.commands
        = w.commands
          ++ [RadioCommand.SwitchChannel w.sim.now (if c + 1 < N then c + 1 else 1)]) ∧
    (∀ (j : RandomJammer) (w : World), j.m_reactToMitigation = true →
      w.phy.currentChannel = c → w.phy.numOfChannels = N →
      (j.RxTimeoutHandler w).2.commands
        = w.commands
          ++ [RadioCommand.SwitchChannel w.sim.now (if c + 1 < N then c + 1 else 1)]) ∧
    (∀ (j : ReactiveJammer) (w : World), j.m_reactToMitigation = true →
      w.phy.currentChannel = c → w.phy.numOfChannels = N →
      (j.RxTimeoutHandler w).2.commands
        = w.commands
          ++ [RadioCommand.SwitchChannel w.sim.now (if c + 1 < N then c + 1 else 1)]) := by
  have ht : nextChannel c N = if c + 1 < N then c + 1 else 1 := nextChannel_of_lt c N hc hN
  refine ⟨?_, ?_, ?_, ?_⟩
  · by_cases h : c + 1 < N
    · have hm : (c + 1) % N = c + 1 := Nat.mod_eq_of_lt h
      rw [if_pos h, hm, if_neg (by omega)]
    · have hN' : c + 1 = N := by omega
      rw [if_neg h, hN', Nat.mod_self, if_pos rfl]
  · intro j w hj hcur hnum
    simp [ConstantJammer.RxTimeoutHandler, hj, hcur, hnum, ht]
  · intro j w hj hcur hnum
    simp [RandomJammer.RxTimeoutHandler, hj, hcur, hnum, ht]
  · intro j w hj hcur hnum
    simp [ReactiveJammer.RxTimeoutHandler, hj, hcur, hnum, ht]

/-- C4, at three channels and current channel 2: the target is channel 1, and
the constant jammer commands exactly that switch. -/
theorem RxTimeoutHandler_switches_to_next_witness :
    ((if 2 + 1 < 3 then 2 + 1 else 1) = 1) ∧
    ((ConstantJammer.fresh.SetReactToMitigation true).RxTimeoutHandler
        (World.init 0 PhyLayerInfo.threeChannels)).2.commands
      = [RadioCommand.SwitchChannel 0 1] :=
  ⟨by decide,
   (RxTimeoutHandler_switches_to_next 2 3 (by decide) (by decide)).2.1
     (ConstantJammer.fresh.SetReactToMitigation true)
     (World.init 0 PhyLayerInfo.threeChannels) rfl rfl rfl⟩

/-! ## The reaction decision -/

/-- C9. In energy-aware mode the decision is `jam` exactly when the draw is
below the remaining-energy fraction, for every draw and every fraction; with
the fraction equal to 0 the decision is `do not jam` for every draw that is
not negative (in particular every draw in `[0,1)`). -/
theorem IsPacketToBeJammed_energy_aware (j : ReactiveJammer) (draw energyFraction : ℚ)
    (hmode : j.m_reactionStrategy = ENERGY_AWARE) :
    (j.IsPacketToBeJammed draw energyFraction = Except.ok true ∨
      j.IsPacketToBeJammed draw energyFraction = Except.ok false) ∧
    (j.IsPacketToBeJammed draw energyFraction = Except.ok true ↔ draw < energyFraction) ∧
    (0 ≤ draw → j.IsPacketToBeJammed draw 0 = Except.ok false) := by
  have h : ∀ f : ℚ, j.IsPacketToBeJammed draw f = Except.ok (decide (draw < f)) := by
    intro f
    unfold ReactiveJammer.IsPacketToBeJammed
    rw [if_pos hmode]
  refine ⟨?_, ?_, ?_⟩
  · rw [h]
    by_cases hd : draw < energyFraction
    · left; simp [hd]
    · right; simp [hd]
  · rw [h]
    simp
  · intro h0
    rw [h]
    simp [not_lt.mpr h0]

/-- C9, at the default (energy-aware) reactive jammer with draw 1/2 and energy
fraction 3/4, and at empty energy. -/
theorem IsPacketToBeJammed_energy_aware_witness :
    (ReactiveJammer.fresh.IsPacketToBeJammed (1 / 2) (3 / 4) = Except.ok true ↔
      (1 / 2 : ℚ) < 3 / 4) ∧
    ReactiveJammer.fresh.IsPacketToBeJammed (1 / 2) 0 = Except.ok false :=
  ⟨(IsPacketToBeJammed_energy_aware ReactiveJammer.fresh (1 / 2) (3 / 4) rfl).2.1,
   (IsPacketToBeJammed_energy_aware ReactiveJammer.fresh (1 / 2) (3 / 4) rfl).2.2
     (by norm_num)⟩

theorem IsPacketToBeJammed_fixed (j : ReactiveJammer) (draw energyFraction : ℚ)
    (hmode : j.m_reactionStrategy = FIXED_PROBABILITY) :
    j.IsPacketToBeJammed draw energyFraction
      = Except.ok (decide (draw < j.m_fixedProbability)) := by
  unfold ReactiveJammer.IsPacketToBeJammed
  have h0 : j.m_reactionStrategy ≠ ENERGY_AWARE := by
    rw [hmode]; decide
  rw [if_neg h0, if_pos hmode]

theorem DoStartRxHandler_of_decision (j : ReactiveJammer) (w : World)
    (startRss draw energyFraction : ℚ) (jam : Bool)
    (h : j.IsPacketToBeJammed draw energyFraction = Except.ok jam) :
    j.DoStartRxHandler w startRss draw energyFraction
      = Except.ok (false,
          (if jam then
            (if j.m_reactToMitigation then
              ({ j with m_jammingEvent := some w.sim.nextUid,
                        m_rxTimeoutEvent := some (w.sim.nextUid + 1) },
               ((((w.Cancel j.m_jammingEvent).Schedule j.m_rxTxSwitchingDelay
                  Callback.ReactToPacket).1.Cancel j.m_rxTimeoutEvent).Schedule j.m_rxTimeout
                  Callback.RxTimeoutHandler).1)
            else
              ({ j with m_jammingEvent := some w.sim.nextUid },
               ((w.Cancel j.m_jammingEvent).Schedule j.m_rxTxSwitchingDelay
                  Callback.ReactToPacket).1))
          else
            (if j.m_reactToMitigation then
              ({ j with m_rxTimeoutEvent := some w.sim.nextUid },
               ((w.Cancel j.m_rxTimeoutEvent).Schedule j.m_rxTimeout
                  Callback.RxTimeoutHandler).1)
            else (j, w)))) := by
  unfold ReactiveJammer.DoStartRxHandler
  rw [h]
  obtain ⟨jon, delay, pw, dur, jev, strat, fp, rto, rev, mit⟩ := j
  cases jam <;> cases mit <;> simp

/-- C10. In fixed-probability mode the decision is `jam` exactly when the draw
is below the configured probability.  With probability 1 every detected
transmission whose draw lies in `[0,1)` gets a reaction scheduled: the handler
returns, the reaction slot holds a new event that is pending with fire time
`now + rxTxSwitchingDelay`.  With probability 0 no reaction is scheduled for
any such draw: the handler returns, the reaction slot keeps its handle and
every reaction pending afterwards was pending before.  (The watchdog handle
holds an id the scheduler has issued, as every handle does.) -/
theorem fixed_probability_decision (j : ReactiveJammer) (w : World)
    (startRss draw energyFraction : ℚ)
    (hmode : j.m_reactionStrategy = FIXED_PROBABILITY)
    (hrx : w.sim.Issued j.m_rxTimeoutEvent) :
    (j.IsPacketToBeJammed draw energyFraction = Except.ok true ↔
      draw < j.m_fixedProbability) ∧
    (j.m_fixedProbability = 1 → 0 ≤ draw → draw < 1 →
      ∃ j1 w1, j.DoStartRxHandler w startRss draw energyFraction = Except.ok (false, j1, w1) ∧
        j1.m_jammingEvent = some w.sim.nextUid ∧
        Event.mk w.sim.nextUid (w.sim.now + j.m_rxTxSwitchingDelay) Callback.ReactToPacket
          ∈ w1.sim.pending Callback.ReactToPacket) ∧
    (j.m_fixedProbability = 0 → 0 ≤ draw → draw < 1 →
      ∃ j1 w1, j.DoStartRxHandler w startRss draw energyFraction = Except.ok (false, j1, w1) ∧
        j1.m_jammingEvent = j.m_jammingEvent ∧
        ∀ e ∈ w1.sim.pending Callback.ReactToPacket, e ∈ w.sim.pending Callback.ReactToPacket) := by
  have hdec := IsPacketToBeJammed_fixed j draw energyFraction hmode
  refine ⟨?_, ?_, ?_⟩
  · rw [hdec]; simp
  · intro hp _ h1
    have hjam : j.IsPacketToBeJammed draw energyFraction = Except.ok true := by
      rw [hdec, hp]; simp [h1]
    rw [DoStartRxHandler_of_decision j w startRss draw energyFraction true hjam]
    obtain ⟨jon, delay, pw, dur, jev, strat, fp, rto, rev, mit⟩ := j
    cases mit <;> simp only [if_true, Bool.false_eq_true, if_false]
    · exact ⟨_, _, rfl, rfl, by simp [Simulator.pending]⟩
    · refine ⟨_, _, rfl, rfl, ?_⟩
      cases rev with
      | none => simp [Simulator.pending]
      | some u =>
        have hu : u < w.sim.nextUid := hrx u rfl
        have hne : w.sim.nextUid ≠ u := by omega
        simp only [Simulator.pending, List.mem_filter, World.world_Schedule_sim,
          World.world_Cancel_sim, Simulator.Schedule_events, List.mem_append, beq_self_eq_true,
          and_true]
        left
        simp only [Simulator.Cancel, List.mem_filter, Simulator.Schedule_events,
          Simulator.Schedule_now, Simulator.Schedule_nextUid, List.mem_append]
        refine ⟨Or.inr ?_, ?_⟩
        · cases jev <;> simp
        · simpa using hne
  · intro hp h0 _
    have hjam : j.IsPacketToBeJammed draw energyFraction = Except.ok false := by
      rw [hdec, hp]; simp [not_lt.mpr h0]
    rw [DoStartRxHandler_of_decision j w startRss draw energyFraction false hjam]
    obtain ⟨jon, delay, pw, dur, jev, strat, fp, rto, rev, mit⟩ := j
    cases mit <;> simp only [if_true, Bool.false_eq_true, if_false]
    · exact ⟨_, _, rfl, rfl, fun e he => he⟩
    · refine ⟨_, _, rfl, rfl, ?_⟩
      intro e he
      simp only [Simulator.pending, List.mem_filter] at he ⊢
      simp at he
      rcases he with ⟨he | he, hcb⟩
      · exact ⟨Simulator.mem_of_mem_Cancel he, by simpa using hcb⟩
      · rw [he] at hcb
        exact absurd hcb (by simp)

/-- C10, at the default reactive jammer switched to fixed-probability mode
(probability 1) with draw 1/2: a reaction is pending 500 us later. -/
theorem fixed_probability_decision_witness :
    ∃ j1 w1, (ReactiveJammer.fresh.SetReactionStrategy FIXED_PROBABILITY).DoStartRxHandler
        (World.init 0 PhyLayerInfo.threeChannels) 1 (1 / 2) 1 = Except.ok (false, j1, w1) ∧
      j1.m_jammingEvent = some 0 ∧
      Event.mk 0 (0 + 500000) Callback.ReactToPacket ∈ w1.sim.pending Callback.ReactToPacket :=
  (fixed_probability_decision (ReactiveJammer.fresh.SetReactionStrategy FIXED_PROBABILITY)
    (World.init 0 PhyLayerInfo.threeChannels) 1 (1 / 2) 1 rfl
    (fun _ hu => Option.noConfusion hu)).2.1 rfl (by norm_num) (by norm_num)

/-! ## Packet detection resets the watchdog -/

/-- C3. With `reactToMitigation` enabled, `DoStartRxHandler` run at time `now`
in a state whose pending watchdog (if any) is the one the watchdog handle
refers to leaves exactly one watchdog pending, with fire time
`now + m_rxTimeout`, held by the watchdog handle; the watchdog that was pending
before is no longer pending; and the record of radio commands is unchanged
(no channel switch).  This holds for the constant and the random jammer, and
for the reactive jammer in both recognised modes whatever the draw, the energy
fraction and hence the jam decision. -/
theorem DoStartRxHandler_resets_watchdog :
    (∀ (j : ConstantJammer) (w : World) (startRss : ℚ), j.m_reactToMitigation = true →
      w.sim.Tracked j.m_rxTimeoutEvent Callback.RxTimeoutHandler →
      w.sim.Issued j.m_rxTimeoutEvent →
      (j.DoStartRxHandler w startRss).2.2.sim.pending Callback.RxTimeoutHandler
          = [Event.mk w.sim.nextUid (w.sim.now + j.m_rxTimeout) Callback.RxTimeoutHandler] ∧
        (j.DoStartRxHandler w startRss).2.1.m_rxTimeoutEvent = some w.sim.nextUid ∧
        (j.DoStartRxHandler w startRss).2.2.commands = w.commands ∧
        ∀ e ∈ w.sim.pending Callback.RxTimeoutHandler,
          e ∉ (j.DoStartRxHandler w startRss).2.2.sim.events) ∧
    (∀ (j : RandomJammer) (w : World) (startRss : ℚ), j.m_reactToMitigation = true →
      w.sim.Tracked j.m_rxTimeoutEvent Callback.RxTimeoutHandler →
      w.sim.Issued j.m_rxTimeoutEvent →
      (j.DoStartRxHandler w startRss).2.2.sim.pending Callback.RxTimeoutHandler
          = [Event.mk w.sim.nextUid (w.sim.now + j.m_rxTimeout) Callback.RxTimeoutHandler] ∧
        (j.DoStartRxHandler w startRss).2.1.m_rxTimeoutEvent = some w.sim.nextUid ∧
        (j.DoStartRxHandler w startRss).2.2.commands = w.commands ∧
        ∀ e ∈ w.sim.pending Callback.RxTimeoutHandler,
          e ∉ (j.DoStartRxHandler w startRss).2.2.sim.events) ∧
    (∀ (j : ReactiveJammer) (w : World) (startRss draw energyFraction : ℚ),
      j.m_reactToMitigation = true →
      j.m_reactionStrategy = ENERGY_AWARE ∨ j.m_reactionStrategy = FIXED_PROBABILITY →
      w.sim.Tracked j.m_rxTimeoutEvent Callback.RxTimeoutHandler →
      w.sim.Issued j.m_rxTimeoutEvent →
      ∃ j1 w1 u, j.DoStartRxHandler w startRss draw energyFraction = Except.ok (false, j1, w1) ∧
        w1.sim.pending Callback.RxTimeoutHandler
          = [Event.mk u (w.sim.now + j.m_rxTimeout) Callback.RxTimeoutHandler] ∧
        j1.m_rxTimeoutEvent = some u ∧
        w1.commands = w.commands ∧
        ∀ e ∈ w.sim.pending Callback.RxTimeoutHandler, e ∉ w1.sim.events) := by
  refine ⟨?_, ?_, ?_⟩
  · intro j w rss hm ht hi
    have hr : j.DoStartRxHandler w rss
        = (false, { j with m_rxTimeoutEvent := some w.sim.nextUid },
            ((w.Cancel j.m_rxTimeoutEvent).Schedule j.m_rxTimeout
              Callback.RxTimeoutHandler).1) := by
      simp [ConstantJammer.DoStartRxHandler, hm]
    rw [hr]
    refine ⟨?_, rfl, rfl, ?_⟩
    · exact Simulator.pending_rearm _ ht
    · intro e he
      have hid := ht e he
      exact Simulator.not_mem_rearm _ _ hid (hi _ hid)
  · intro j w rss hm ht hi
    have hr : j.DoStartRxHandler w rss
        = (false, { j with m_rxTimeoutEvent := some w.sim.nextUid },
            ((w.Cancel j.m_rxTimeoutEvent).Schedule j.m_rxTimeout
              Callback.RxTimeoutHandler).1) := by
      simp [RandomJammer.DoStartRxHandler, hm]
    rw [hr]
    refine ⟨?_, rfl, rfl, ?_⟩
    · exact Simulator.pending_rearm _ ht
    · intro e he
      have hid := ht e he
      exact Simulator.not_mem_rearm _ _ hid (hi _ hid)
  · intro j w rss d f hm hmode ht hi
    have hd : ∃ b, j.IsPacketToBeJammed d f = Except.ok b := by
      unfold ReactiveJammer.IsPacketToBeJammed
      rcases hmode with h | h
      · exact ⟨_, if_pos h⟩
      · by_cases h0 : j.m_reactionStrategy = ENERGY_AWARE
        · exact ⟨_, if_pos h0⟩
        · rw [if_neg h0, if_pos h]
          exact ⟨_, rfl⟩
    obtain ⟨b, hb⟩ := hd
    rw [DoStartRxHandler_of_decision j w rss d f b hb, hm]
    cases b <;> simp only [if_true, Bool.false_eq_true, if_false]
    · refine ⟨_, _, w.sim.nextUid, rfl, ?_, rfl, rfl, ?_⟩
      · exact Simulator.pending_rearm _ ht
      · intro e he
        have hid := ht e he
        exact Simulator.not_mem_rearm _ _ hid (hi _ hid)
    · have ht1 : ((w.sim.Cancel j.m_jammingEvent).Schedule j.m_rxTxSwitchingDelay
          Callback.ReactToPacket).1.Tracked j.m_rxTimeoutEvent Callback.RxTimeoutHandler := by
        refine Simulator.Tracked_of_sublist ?_ ht
        rw [Simulator.pending_Schedule_other _ _ (by decide)]
        exact Simulator.pending_Cancel_sublist _ _ _
      refine ⟨_, _, w.sim.nextUid + 1, rfl, ?_, rfl, rfl, ?_⟩
      · have h := Simulator.pending_rearm j.m_rxTimeout ht1
        simpa using h
      · intro e he
        have hid := ht e he
        have hlt : e.uid < w.sim.nextUid := hi _ hid
        refine Simulator.not_mem_rearm (s := ((w.sim.Cancel j.m_jammingEvent).Schedule
          j.m_rxTxSwitchingDelay Callback.ReactToPacket).1) _ _ hid ?_
        simp only [Simulator.Schedule_nextUid, Simulator.Cancel_nextUid]
        omega

/-- C3, in the end-to-end scenario: a random jammer (bursts of 200 ms, RX
timeout 2 s, chasing enabled) is started at time 0, which arms the watchdog for
2 s; a transmission is detected at 0.5 s.  Afterwards the only pending watchdog
is a new one with fire time 2.5 s, the one for 2 s is gone, and no channel
switch has been commanded. -/
theorem DoStartRxHandler_resets_watchdog_witness :
    (RandomJammer.run (RandomJammer.fresh, World.init 0 PhyLayerInfo.threeChannels)
        [Input.StartJammer 1, Input.Advance 500000000]).2.sim.pending Callback.RxTimeoutHandler
      = [Event.mk 0 2000000000 Callback.RxTimeoutHandler] ∧
    (RandomJammer.run (RandomJammer.fresh, World.init 0 PhyLayerInfo.threeChannels)
        [Input.StartJammer 1, Input.Advance 500000000, Input.StartRx 1 0 0]).2.sim.pending
        Callback.RxTimeoutHandler
      = [Event.mk 1 2500000000 Callback.RxTimeoutHandler] ∧
    (RandomJammer.run (RandomJammer.fresh, World.init 0 PhyLayerInfo.threeChannels)
        [Input.StartJammer 1, Input.Advance 500000000, Input.StartRx 1 0 0]).2.switches = [] :=
  ⟨by decide,
   (DoStartRxHandler_resets_watchdog.2.1
      (RandomJammer.run (RandomJammer.fresh, World.init 0 PhyLayerInfo.threeChannels)
        [Input.StartJammer 1, Input.Advance 500000000]).1
      (RandomJammer.run (RandomJammer.fresh, World.init 0 PhyLayerInfo.threeChannels)
        [Input.StartJammer 1, Input.Advance 500000000]).2
      1 (by decide) (by decide) (by decide)).1,
   by decide⟩

/-! ## Slot discipline of the scheduler operations -/

namespace Simulator

theorem WF_of_sublist {s t : Simulator} (hsub : t.events.Sublist s.events)
    (hn : t.nextUid = s.nextUid) (h : s.WF) : t.WF := by
  refine ⟨fun e he => ?_, ?_⟩
  · rw [hn]
    exact h.1 e (hsub.subset he)
  · exact h.2.sublist (hsub.map _)

theorem WF_Cancel {s : Simulator} (id : EventId) (h : s.WF) : (s.Cancel id).WF :=
  WF_of_sublist (Cancel_events_sublist s id) (Cancel_nextUid s id) h

theorem WF_Schedule {s : Simulator} (d : Int) (cb : Callback) (h : s.WF) :
    (s.Schedule d cb).1.WF := by
  refine ⟨fun e he => ?_, ?_⟩
  · simp only [Schedule_events, List.mem_append, List.mem_singleton, Schedule_nextUid] at he ⊢
    rcases he with he | he
    · exact Nat.lt_succ_of_lt (h.1 e he)
    · rw [he]
      exact Nat.lt_succ_self _
  · simp only [Schedule_events, List.map_append, List.map_cons, List.map_nil]
    refine List.Nodup.append h.2 (List.nodup_singleton _) ?_
    intro u hu hu1
    obtain ⟨e, he, rfl⟩ := List.mem_map.mp hu
    have hlt := h.1 e he
    have heq : e.uid = s.nextUid := by simpa using hu1
    omega

theorem uid_inj {s : Simulator} (h : s.WF) {a b : Event} (ha : a ∈ s.events)
    (hb : b ∈ s.events) (hab : a.uid = b.uid) : a = b :=
  List.inj_on_of_nodup_map h.2 ha hb hab

theorem Issued_mono {s t : Simulator} {id : EventId} (hn : s.nextUid ≤ t.nextUid)
    (h : s.Issued id) : t.Issued id :=
  fun u hu => Nat.lt_of_lt_of_le (h u hu) hn

theorem Refers_of_subset {s t : Simulator} {id : EventId} {cb : Callback}
    (hsub : t.events ⊆ s.events) (h : s.Refers id cb) : t.Refers id cb :=
  fun e he hid => h e (hsub he) hid

theorem Refers_Schedule_other {s : Simulator} {id : EventId} {cb : Callback} (d : Int)
    (cb1 : Callback) (hi : s.Issued id) (h : s.Refers id cb) :
    (s.Schedule d cb1).1.Refers id cb := by
  intro e he hid
  simp only [Schedule_events, List.mem_append, List.mem_singleton] at he
  rcases he with he | he
  · exact h e he hid
  · rw [he] at hid
    exact absurd (hi _ hid) (Nat.lt_irrefl _)

theorem Refers_Schedule_new {s : Simulator} (d : Int) (cb : Callback) (h : s.WF) :
    (s.Schedule d cb).1.Refers (some s.nextUid) cb := by
  intro e he hid
  simp only [Schedule_events, List.mem_append, List.mem_singleton] at he
  rcases he with he | he
  · have hlt := h.1 e he
    have heq : s.nextUid = e.uid := Option.some.inj hid
    omega
  · rw [he]

/-- A predicate on slots that only looks at the pending events and the id
supply does not change when the clock moves. -/
theorem ArmedWith_congr {s t : Simulator} {tick rx : EventId} {cbT : Callback} {e : Event}
    (he : t.events = s.events) (hn : t.nextUid = s.nextUid)
    (h : s.ArmedWith tick rx cbT e) : t.ArmedWith tick rx cbT e := by
  obtain ⟨hwf, hiss, href, hpend, hrx⟩ := h
  refine ⟨⟨?_, ?_⟩, ?_, ?_, ?_, hrx⟩
  · rw [he, hn]; exact hwf.1
  · rw [he]; exact hwf.2
  · exact Issued_mono (Nat.le_of_eq hn.symm) hiss
  · exact Refers_of_subset (by rw [he]; exact fun _ h => h) href
  · unfold pending at hpend ⊢
    rw [he]; exact hpend

theorem Advance_events (s : Simulator) (t : Int) : (s.Advance t).events = s.events := by
  unfold Advance; split <;> rfl

theorem Advance_nextUid (s : Simulator) (t : Int) : (s.Advance t).nextUid = s.nextUid := by
  unfold Advance; split <;> rfl

theorem Pop_spec {s t : Simulator} {e : Event} (h : s.Pop = some (e, t)) :
    e ∈ s.events ∧ t.events = s.events.filter (fun x => x.uid != e.uid) ∧
      t.nextUid = s.nextUid ∧ t.now = e.ts := by
  unfold Pop at h
  cases hN : s.Next with
  | none => rw [hN] at h; exact Option.noConfusion h
  | some x =>
    rw [hN] at h
    simp only [Option.some.injEq, Prod.mk.injEq] at h
    obtain ⟨hx, ht⟩ := h
    subst hx
    subst ht
    exact ⟨List.mem_of_find?_eq_some hN, rfl, rfl, rfl⟩

/-- An armed watchdog is not expired. -/
theorem IsExpired_of_ArmedWith {s : Simulator} {tick rx : EventId} {cbT : Callback} {e : Event}
    (h : s.ArmedWith tick rx cbT e) : s.IsExpired rx = false := by
  obtain ⟨_, _, _, hpend, hrx⟩ := h
  have he : e ∈ s.events := by
    have : e ∈ s.pending Callback.RxTimeoutHandler := by rw [hpend]; exact List.mem_singleton_self _
    exact (mem_pending.mp this).1
  subst hrx
  simp only [IsExpired, Bool.not_eq_false', List.any_eq_true]
  exact ⟨e, he, by simp⟩

end Simulator

namespace Simulator

/-- Cancel-then-schedule of the watchdog in a state whose watchdog slot is
tracked arms exactly the new watchdog. -/
theorem ArmedWith_rearm {s : Simulator} {tick rx : EventId} {cbT : Callback} (d : Int)
    (hwf : s.WF) (hiss : s.Issued tick) (href : s.Refers tick cbT)
    (htr : s.Tracked rx Callback.RxTimeoutHandler) :
    ((s.Cancel rx).Schedule d Callback.RxTimeoutHandler).1.ArmedWith tick (some s.nextUid) cbT
      (Event.mk s.nextUid (s.now + d) Callback.RxTimeoutHandler) := by
  refine ⟨WF_Schedule _ _ (WF_Cancel _ hwf), ?_, ?_, ?_, rfl⟩
  · refine Issued_mono ?_ hiss
    simp
  · refine Refers_Schedule_other _ _ ?_ ?_
    · exact Issued_mono (by simp) hiss
    · exact Refers_of_subset (Cancel_events_sublist s rx).subset href
  · exact pending_rearm d htr

/-- Scheduling the watchdog when none is pending arms exactly the new one. -/
theorem ArmedWith_of_Idle {s : Simulator} {tick rx : EventId} {cbT : Callback} (d : Int)
    (h : s.Idle tick rx cbT) :
    (s.Schedule d Callback.RxTimeoutHandler).1.ArmedWith tick (some s.nextUid) cbT
      (Event.mk s.nextUid (s.now + d) Callback.RxTimeoutHandler) := by
  obtain ⟨hwf, hiss, href, hpend, _⟩ := h
  have htr : s.Tracked none Callback.RxTimeoutHandler := by
    intro e he
    rw [hpend] at he
    exact absurd he (List.not_mem_nil _)
  have h1 := @ArmedWith_rearm s tick none cbT d hwf hiss href htr
  simpa using h1

/-- Cancel-then-schedule of the tick/reaction slot leaves the armed watchdog
alone. -/
theorem ArmedWith_tick {s : Simulator} {tick rx : EventId} {cbT : Callback} {e : Event}
    (d : Int) (hne : cbT ≠ Callback.RxTimeoutHandler) (h : s.ArmedWith tick rx cbT e) :
    ((s.Cancel tick).Schedule d cbT).1.ArmedWith (some s.nextUid) rx cbT e := by
  obtain ⟨hwf, hiss, href, hpend, hrx⟩ := h
  have hmem : e ∈ s.pending Callback.RxTimeoutHandler := by
    rw [hpend]; exact List.mem_singleton_self _
  have he := mem_pending.mp hmem
  refine ⟨WF_Schedule _ _ (WF_Cancel _ hwf), ?_, ?_, ?_, hrx⟩
  · intro u hu
    have : u = s.nextUid := (Option.some.inj hu).symm
    simp [this]
  · have h1 := Refers_Schedule_new d cbT (WF_Cancel tick hwf)
    simpa using h1
  · rw [pending_Schedule_other _ _ hne]
    cases tick with
    | none => simpa using hpend
    | some u =>
      rw [pending_Cancel, hpend]
      have hu : e.uid ≠ u := by
        intro heq
        have hcb := href e he.1 (by rw [heq])
        rw [he.2] at hcb
        exact hne hcb.symm
      simp [hu]

/-- Running a pending event other than the watchdog leaves the armed watchdog
alone. -/
theorem ArmedWith_Pop_other {s t : Simulator} {tick rx : EventId} {cbT : Callback}
    {e x : Event} (hp : s.Pop = some (x, t)) (hx : x.cb ≠ Callback.RxTimeoutHandler)
    (h : s.ArmedWith tick rx cbT e) : t.ArmedWith tick rx cbT e := by
  obtain ⟨hxs, hev, hn, _⟩ := Pop_spec hp
  obtain ⟨hwf, hiss, href, hpend, hrx⟩ := h
  have hmem : e ∈ s.pending Callback.RxTimeoutHandler := by
    rw [hpend]; exact List.mem_singleton_self _
  have he := mem_pending.mp hmem
  have hsub : t.events.Sublist s.events := by
    rw [hev]; exact List.filter_sublist _
  refine ⟨WF_of_sublist hsub hn hwf, Issued_mono (Nat.le_of_eq hn.symm) hiss,
    Refers_of_subset hsub.subset href, ?_, hrx⟩
  have hu : e.uid ≠ x.uid := by
    intro heq
    have := uid_inj hwf he.1 hxs heq
    rw [← this] at hx
    exact hx he.2
  have hpt : t.pending Callback.RxTimeoutHandler
      = (s.pending Callback.RxTimeoutHandler).filter (fun y => y.uid != x.uid) := by
    simp only [pending, hev, List.filter_filter]
    congr 1
    funext y
    exact Bool.and_comm _ _
  rw [hpt, hpend]
  simp [hu]

/-- Running the armed watchdog empties the watchdog slot. -/
theorem Pop_watchdog {s t : Simulator} {tick rx : EventId} {cbT : Callback}
    {e x : Event} (hp : s.Pop = some (x, t)) (hx : x.cb = Callback.RxTimeoutHandler)
    (h : s.ArmedWith tick rx cbT e) :
    x = e ∧ t.WF ∧ t.Issued tick ∧ t.Refers tick cbT ∧
      t.pending Callback.RxTimeoutHandler = [] := by
  obtain ⟨hxs, hev, hn, _⟩ := Pop_spec hp
  obtain ⟨hwf, hiss, href, hpend, _⟩ := h
  have hxe : x = e := by
    have : x ∈ s.pending Callback.RxTimeoutHandler := mem_pending.mpr ⟨hxs, hx⟩
    rw [hpend] at this
    exact List.mem_singleton.mp this
  have hsub : t.events.Sublist s.events := by
    rw [hev]; exact List.filter_sublist _
  refine ⟨hxe, WF_of_sublist hsub hn hwf, Issued_mono (Nat.le_of_eq hn.symm) hiss,
    Refers_of_subset hsub.subset href, ?_⟩
  have hpt : t.pending Callback.RxTimeoutHandler
      = (s.pending Callback.RxTimeoutHandler).filter (fun y => y.uid != x.uid) := by
    simp only [pending, hev, List.filter_filter]
    congr 1
    funext y
    exact Bool.and_comm _ _
  rw [hpt, hpend, hxe]
  simp

theorem Tracked_of_pending_nil {s : Simulator} {id : EventId} {cb : Callback}
    (h : s.pending cb = []) : s.Tracked id cb := by
  intro e he
  rw [h] at he
  exact absurd he (List.not_mem_nil _)

theorem Tracked_of_ArmedWith {s : Simulator} {tick rx : EventId} {cbT : Callback} {e : Event}
    (h : s.ArmedWith tick rx cbT e) : s.Tracked rx Callback.RxTimeoutHandler := by
  obtain ⟨_, _, _, hpend, hrx⟩ := h
  intro x hx
  rw [hpend] at hx
  rw [List.mem_singleton.mp hx]
  exact hrx

end Simulator

/-! ## Constant jammer: the watchdog slot along a run -/

namespace ConstantJammer

theorem constant_DoJamming_armed (j : ConstantJammer) (w : World) (p : ℚ) {e : Event}
    (h : w.sim.ArmedWith j.m_jammingEvent j.m_rxTimeoutEvent Callback.DoJamming e) :
    (j.DoJamming w p).2.sim = w.sim ∧
      (j.DoJamming w p).1.m_jammingEvent = j.m_jammingEvent ∧
      (j.DoJamming w p).1.m_rxTimeoutEvent = j.m_rxTimeoutEvent := by
  have hx := Simulator.IsExpired_of_ArmedWith h
  unfold DoJamming
  cases j.m_jammerOn
  · exact ⟨rfl, rfl, rfl⟩
  · simp [hx]

theorem constant_DoJamming_idle (j : ConstantJammer) (w : World) (p : ℚ)
    (hon : j.m_jammerOn = true) (hm : j.m_reactToMitigation = true)
    (h : w.sim.Idle j.m_jammingEvent j.m_rxTimeoutEvent Callback.DoJamming) :
    (j.DoJamming w p).2.sim = (w.sim.Schedule j.m_rxTimeout Callback.RxTimeoutHandler).1 ∧
      (j.DoJamming w p).1.m_jammingEvent = j.m_jammingEvent ∧
      (j.DoJamming w p).1.m_rxTimeoutEvent = some w.sim.nextUid := by
  have hx : w.sim.IsExpired j.m_rxTimeoutEvent = true := h.2.2.2.2
  unfold DoJamming
  simp [hon, hm, hx]

theorem constant_DoEndTxHandler_slots (j : ConstantJammer) (w : World) (p : ℚ) :
    ∃ delay, (j.DoEndTxHandler w p).2.sim
        = ((w.sim.Cancel j.m_jammingEvent).Schedule delay Callback.DoJamming).1 ∧
      (j.DoEndTxHandler w p).1.m_jammingEvent = some w.sim.nextUid ∧
      (j.DoEndTxHandler w p).1.m_rxTimeoutEvent = j.m_rxTimeoutEvent := by
  unfold DoEndTxHandler
  cases j.m_reacting
  · exact ⟨_, rfl, by simp⟩
  · exact ⟨_, rfl, by simp⟩

theorem constant_DoStartRxHandler_slots (j : ConstantJammer) (w : World) (rss : ℚ)
    (hm : j.m_reactToMitigation = true) :
    (j.DoStartRxHandler w rss).2.2.sim
        = ((w.sim.Cancel j.m_rxTimeoutEvent).Schedule j.m_rxTimeout
            Callback.RxTimeoutHandler).1 ∧
      (j.DoStartRxHandler w rss).2.1.m_jammingEvent = j.m_jammingEvent ∧
      (j.DoStartRxHandler w rss).2.1.m_rxTimeoutEvent = some w.sim.nextUid := by
  unfold DoStartRxHandler
  simp [hm]

theorem constant_RxTimeoutHandler_slots (j : ConstantJammer) (w : World)
    (hm : j.m_reactToMitigation = true) :
    (j.RxTimeoutHandler w).2.sim
        = ((w.sim.Cancel j.m_rxTimeoutEvent).Schedule j.m_rxTimeout
            Callback.RxTimeoutHandler).1 ∧
      (j.RxTimeoutHandler w).1.m_jammingEvent = j.m_jammingEvent ∧
      (j.RxTimeoutHandler w).1.m_rxTimeoutEvent = some w.sim.nextUid := by
  unfold RxTimeoutHandler
  simp [hm]

theorem constant_step_reactToMitigation (c : ConstantJammer × World) (i : Input) :
    (step c i).1.m_reactToMitigation = c.1.m_reactToMitigation := by
  cases i with
  | StartJammer p =>
    simp only [step, StartJammer, DoJamming]
    split
    · rfl
    · split <;> rfl
  | StopJammer => rfl
  | StartRx rss d f =>
    simp only [step, DoStartRxHandler]
    split <;> rfl
  | EndRx rss => rfl
  | EndTx p d =>
    simp only [step, DoEndTxHandler]
    split <;> rfl
  | Fire cb p =>
    simp only [step]
    split
    · rfl
    · split
      · cases cb
        · simp only [DoJamming]
          split
          · rfl
          · split <;> rfl
        · rfl
        · simp only [RxTimeoutHandler]
          split <;> rfl
      · rfl
  | Advance t => rfl

end ConstantJammer

namespace ConstantJammer

/-- Inputs that are neither lifecycle calls, packet detections nor watchdog
fires leave the armed watchdog and its handle as they are. -/
theorem constant_step_quiet_armed (c : ConstantJammer × World) (i : Input) {e : Event}
    (hq : i.quiet = true)
    (h : c.2.sim.ArmedWith c.1.m_jammingEvent c.1.m_rxTimeoutEvent Callback.DoJamming e) :
    (step c i).2.sim.ArmedWith (step c i).1.m_jammingEvent (step c i).1.m_rxTimeoutEvent
      Callback.DoJamming e := by
  cases i with
  | StartJammer p => exact absurd hq (by simp [Input.quiet])
  | StopJammer => exact absurd hq (by simp [Input.quiet])
  | StartRx rss d f => exact absurd hq (by simp [Input.quiet])
  | EndRx rss => exact h
  | EndTx p d =>
    obtain ⟨dl, h1, h2, h3⟩ := constant_DoEndTxHandler_slots c.1 c.2 p
    show (DoEndTxHandler c.1 c.2 p).2.sim.ArmedWith
      (DoEndTxHandler c.1 c.2 p).1.m_jammingEvent
      (DoEndTxHandler c.1 c.2 p).1.m_rxTimeoutEvent _ _
    rw [h1, h2, h3]
    exact Simulator.ArmedWith_tick dl (by decide) h
  | Advance t =>
    exact Simulator.ArmedWith_congr (Simulator.Advance_events _ _)
      (Simulator.Advance_nextUid _ _) h
  | Fire cb p =>
    cases cb with
    | RxTimeoutHandler => exact absurd hq (by simp [Input.quiet])
    | ReactToPacket =>
      simp only [step]
      split
      · exact h
      · split <;> exact h
    | DoJamming =>
      simp only [step]
      split
      · exact h
      · rename_i x t hp
        split
        · rename_i hx
          have ht : t.ArmedWith c.1.m_jammingEvent c.1.m_rxTimeoutEvent Callback.DoJamming e :=
            Simulator.ArmedWith_Pop_other hp (by rw [hx]; decide) h
          obtain ⟨h1, h2, h3⟩ := constant_DoJamming_armed c.1 { c.2 with sim := t } p ht
          rw [h1, h2, h3]
          exact ht
        · exact h

theorem constant_run_quiet_armed (ins : List Input) (c : ConstantJammer × World) {e : Event}
    (hq : ∀ i ∈ ins, i.quiet = true)
    (h : c.2.sim.ArmedWith c.1.m_jammingEvent c.1.m_rxTimeoutEvent Callback.DoJamming e) :
    (run c ins).2.sim.ArmedWith (run c ins).1.m_jammingEvent (run c ins).1.m_rxTimeoutEvent
      Callback.DoJamming e := by
  induction ins generalizing c with
  | nil => exact h
  | cons i ins ih =>
    have hstep := constant_step_quiet_armed c i (hq i (List.mem_cons_self _ _)) h
    exact ih (step c i) (fun x hx => hq x (List.mem_cons_of_mem _ hx)) hstep

/-- Every input of a session keeps exactly one watchdog armed while chasing
is enabled. -/
theorem constant_step_inSession_armed (c : ConstantJammer × World) (i : Input)
    (hs : i.inSession = true) (hm : c.1.m_reactToMitigation = true)
    (h : ∃ e, c.2.sim.ArmedWith c.1.m_jammingEvent c.1.m_rxTimeoutEvent Callback.DoJamming e) :
    ∃ e, (step c i).2.sim.ArmedWith (step c i).1.m_jammingEvent (step c i).1.m_rxTimeoutEvent
      Callback.DoJamming e := by
  obtain ⟨e, he⟩ := h
  cases i with
  | StartJammer p => exact absurd hs (by simp [Input.inSession])
  | StopJammer => exact absurd hs (by simp [Input.inSession])
  | StartRx rss d f =>
    obtain ⟨h1, h2, h3⟩ := constant_DoStartRxHandler_slots c.1 c.2 rss hm
    refine ⟨Event.mk c.2.sim.nextUid (c.2.sim.now + c.1.m_rxTimeout)
      Callback.RxTimeoutHandler, ?_⟩
    show (DoStartRxHandler c.1 c.2 rss).2.2.sim.ArmedWith
      (DoStartRxHandler c.1 c.2 rss).2.1.m_jammingEvent
      (DoStartRxHandler c.1 c.2 rss).2.1.m_rxTimeoutEvent _ _
    rw [h1, h2, h3]
    exact Simulator.ArmedWith_rearm _ he.1 he.2.1 he.2.2.1 (Simulator.Tracked_of_ArmedWith he)
  | EndRx rss => exact ⟨e, constant_step_quiet_armed c _ rfl he⟩
  | EndTx p d => exact ⟨e, constant_step_quiet_armed c _ rfl he⟩
  | Advance t => exact ⟨e, constant_step_quiet_armed c _ rfl he⟩
  | Fire cb p =>
    cases cb with
    | ReactToPacket => exact ⟨e, constant_step_quiet_armed c _ rfl he⟩
    | DoJamming => exact ⟨e, constant_step_quiet_armed c _ rfl he⟩
    | RxTimeoutHandler =>
      simp only [step]
      split
      · exact ⟨e, he⟩
      · rename_i x t hp
        split
        · rename_i hx
          obtain ⟨_, hwf, hiss, href, hnil⟩ := Simulator.Pop_watchdog hp hx he
          obtain ⟨h1, h2, h3⟩ := constant_RxTimeoutHandler_slots c.1 { c.2 with sim := t } hm
          refine ⟨Event.mk t.nextUid (t.now + c.1.m_rxTimeout) Callback.RxTimeoutHandler, ?_⟩
          rw [h1, h2, h3]
          exact Simulator.ArmedWith_rearm _ hwf hiss href (Simulator.Tracked_of_pending_nil hnil)
        · exact ⟨e, he⟩

theorem constant_run_inSession_armed (ins : List Input) (c : ConstantJammer × World)
    (hs : ∀ i ∈ ins, i.inSession = true) (hm : c.1.m_reactToMitigation = true)
    (h : ∃ e, c.2.sim.ArmedWith c.1.m_jammingEvent c.1.m_rxTimeoutEvent Callback.DoJamming e) :
    ∃ e, (run c ins).2.sim.ArmedWith (run c ins).1.m_jammingEvent
      (run c ins).1.m_rxTimeoutEvent Callback.DoJamming e := by
  induction ins generalizing c with
  | nil => exact h
  | cons i ins ih =>
    have hstep := constant_step_inSession_armed c i (hs i (List.mem_cons_self _ _)) hm h
    have hm1 : (step c i).1.m_reactToMitigation = true := by
      rw [constant_step_reactToMitigation]; exact hm
    exact ih (step c i) (fun x hx => hs x (List.mem_cons_of_mem _ hx)) hm1 hstep

end ConstantJammer

/-! ## Random jammer: the watchdog slot along a run -/

namespace RandomJammer

theorem random_DoJamming_armed (j : RandomJammer) (w : World) (p : ℚ) {e : Event}
    (h : w.sim.ArmedWith j.m_jammingEvent j.m_rxTimeoutEvent Callback.DoJamming e) :
    (j.DoJamming w p).2.sim = w.sim ∧
      (j.DoJamming w p).1.m_jammingEvent = j.m_jammingEvent ∧
      (j.DoJamming w p).1.m_rxTimeoutEvent = j.m_rxTimeoutEvent := by
  have hx := Simulator.IsExpired_of_ArmedWith h
  unfold DoJamming
  cases j.m_jammerOn
  · exact ⟨rfl, rfl, rfl⟩
  · simp [hx]

theorem random_DoJamming_idle (j : RandomJammer) (w : World) (p : ℚ)
    (hon : j.m_jammerOn = true) (hm : j.m_reactToMitigation = true)
    (h : w.sim.Idle j.m_jammingEvent j.m_rxTimeoutEvent Callback.DoJamming) :
    (j.DoJamming w p).2.sim = (w.sim.Schedule j.m_rxTimeout Callback.RxTimeoutHandler).1 ∧
      (j.DoJamming w p).1.m_jammingEvent = j.m_jammingEvent ∧
      (j.DoJamming w p).1.m_rxTimeoutEvent = some w.sim.nextUid := by
  have hx : w.sim.IsExpired j.m_rxTimeoutEvent = true := h.2.2.2.2
  unfold DoJamming
  simp [hon, hm, hx]

theorem random_DoEndTxHandler_slots (j : RandomJammer) (w : World) (p dr : ℚ) :
    ∃ delay, (j.DoEndTxHandler w p dr).2.sim
        = ((w.sim.Cancel j.m_jammingEvent).Schedule delay Callback.DoJamming).1 ∧
      (j.DoEndTxHandler w p dr).1.m_jammingEvent = some w.sim.nextUid ∧
      (j.DoEndTxHandler w p dr).1.m_rxTimeoutEvent = j.m_rxTimeoutEvent := by
  unfold DoEndTxHandler
  cases j.m_reacting
  · exact ⟨_, rfl, by simp⟩
  · exact ⟨_, rfl, by simp⟩

theorem random_DoStartRxHandler_slots (j : RandomJammer) (w : World) (rss : ℚ)
    (hm : j.m_reactToMitigation = true) :
    (j.DoStartRxHandler w rss).2.2.sim
        = ((w.sim.Cancel j.m_rxTimeoutEvent).Schedule j.m_rxTimeout
            Callback.RxTimeoutHandler).1 ∧
      (j.DoStartRxHandler w rss).2.1.m_jammingEvent = j.m_jammingEvent ∧
      (j.DoStartRxHandler w rss).2.1.m_rxTimeoutEvent = some w.sim.nextUid := by
  unfold DoStartRxHandler
  simp [hm]

theorem random_RxTimeoutHandler_slots (j : RandomJammer) (w : World)
    (hm : j.m_reactToMitigation = true) :
    (j.RxTimeoutHandler w).2.sim
        = ((w.sim.Cancel j.m_rxTimeoutEvent).Schedule j.m_rxTimeout
            Callback.RxTimeoutHandler).1 ∧
      (j.RxTimeoutHandler w).1.m_jammingEvent = j.m_jammingEvent ∧
      (j.RxTimeoutHandler w).1.m_rxTimeoutEvent = some w.sim.nextUid := by
  unfold RxTimeoutHandler
  simp [hm]

theorem random_step_reactToMitigation (c : RandomJammer × World) (i : Input) :
    (step c i).1.m_reactToMitigation = c.1.m_reactToMitigation := by
  cases i with
  | StartJammer p =>
    simp only [step, StartJammer, DoJamming]
    split
    · rfl
    · split <;> rfl
  | StopJammer => rfl
  | StartRx rss d f =>
    simp only [step, DoStartRxHandler]
    split <;> rfl
  | EndRx rss => rfl
  | EndTx p d =>
    simp only [step, DoEndTxHandler]
    split <;> rfl
  | Fire cb p =>
    simp only [step]
    split
    · rfl
    · split
      · cases cb
        · simp only [DoJamming]
          split
          · rfl
          · split <;> rfl
        · rfl
        · simp only [RxTimeoutHandler]
          split <;> rfl
      · rfl
  | Advance t => rfl

end RandomJammer

namespace RandomJammer

/-- Inputs that are neither lifecycle calls, packet detections nor watchdog
fires leave the armed watchdog and its handle as they are. -/
theorem random_step_quiet_armed (c : RandomJammer × World) (i : Input) {e : Event}
    (hq : i.quiet = true)
    (h : c.2.sim.ArmedWith c.1.m_jammingEvent c.1.m_rxTimeoutEvent Callback.DoJamming e) :
    (step c i).2.sim.ArmedWith (step c i).1.m_jammingEvent (step c i).1.m_rxTimeoutEvent
      Callback.DoJamming e := by
  cases i with
  | StartJammer p => exact absurd hq (by simp [Input.quiet])
  | StopJammer => exact absurd hq (by simp [Input.quiet])
  | StartRx rss d f => exact absurd hq (by simp [Input.quiet])
  | EndRx rss => exact h
  | EndTx p d =>
    obtain ⟨dl, h1, h2, h3⟩ := random_DoEndTxHandler_slots c.1 c.2 p d
    show (DoEndTxHandler c.1 c.2 p d).2.sim.ArmedWith
      (DoEndTxHandler c.1 c.2 p d).1.m_jammingEvent
      (DoEndTxHandler c.1 c.2 p d).1.m_rxTimeoutEvent _ _
    rw [h1, h2, h3]
    exact Simulator.ArmedWith_tick dl (by decide) h
  | Advance t =>
    exact Simulator.ArmedWith_congr (Simulator.Advance_events _ _)
      (Simulator.Advance_nextUid _ _) h
  | Fire cb p =>
    cases cb with
    | RxTimeoutHandler => exact absurd hq (by simp [Input.quiet])
    | ReactToPacket =>
      simp only [step]
      split
      · exact h
      · split <;> exact h
    | DoJamming =>
      simp only [step]
      split
      · exact h
      · rename_i x t hp
        split
        · rename_i hx
          have ht : t.ArmedWith c.1.m_jammingEvent c.1.m_rxTimeoutEvent Callback.DoJamming e :=
            Simulator.ArmedWith_Pop_other hp (by rw [hx]; decide) h
          obtain ⟨h1, h2, h3⟩ := random_DoJamming_armed c.1 { c.2 with sim := t } p ht
          rw [h1, h2, h3]
          exact ht
        · exact h

theorem random_run_quiet_armed (ins : List Input) (c : RandomJammer × World) {e : Event}
    (hq : ∀ i ∈ ins, i.quiet = true)
    (h : c.2.sim.ArmedWith c.1.m_jammingEvent c.1.m_rxTimeoutEvent Callback.DoJamming e) :
    (run c ins).2.sim.ArmedWith (run c ins).1.m_jammingEvent (run c ins).1.m_rxTimeoutEvent
      Callback.DoJamming e := by
  induction ins generalizing c with
  | nil => exact h
  | cons i ins ih =>
    have hstep := random_step_quiet_armed c i (hq i (List.mem_cons_self _ _)) h
    exact ih (step c i) (fun x hx => hq x (List.mem_cons_of_mem _ hx)) hstep

/-- Every input of a session keeps exactly one watchdog armed while chasing
is enabled. -/
theorem random_step_inSession_armed (c : RandomJammer × World) (i : Input)
    (hs : i.inSession = true) (hm : c.1.m_reactToMitigation = true)
    (h : ∃ e, c.2.sim.ArmedWith c.1.m_jammingEvent c.1.m_rxTimeoutEvent Callback.DoJamming e) :
    ∃ e, (step c i).2.sim.ArmedWith (step c i).1.m_jammingEvent (step c i).1.m_rxTimeoutEvent
      Callback.DoJamming e := by
  obtain ⟨e, he⟩ := h
  cases i with
  | StartJammer p => exact absurd hs (by simp [Input.inSession])
  | StopJammer => exact absurd hs (by simp [Input.inSession])
  | StartRx rss d f =>
    obtain ⟨h1, h2, h3⟩ := random_DoStartRxHandler_slots c.1 c.2 rss hm
    refine ⟨Event.mk c.2.sim.nextUid (c.2.sim.now + c.1.m_rxTimeout)
      Callback.RxTimeoutHandler, ?_⟩
    show (DoStartRxHandler c.1 c.2 rss).2.2.sim.ArmedWith
      (DoStartRxHandler c.1 c.2 rss).2.1.m_jammingEvent
      (DoStartRxHandler c.1 c.2 rss).2.1.m_rxTimeoutEvent _ _
    rw [h1, h2, h3]
    exact Simulator.ArmedWith_rearm _ he.1 he.2.1 he.2.2.1 (Simulator.Tracked_of_ArmedWith he)
  | EndRx rss => exact ⟨e, random_step_quiet_armed c _ rfl he⟩
  | EndTx p d => exact ⟨e, random_step_quiet_armed c _ rfl he⟩
  | Advance t => exact ⟨e, random_step_quiet_armed c _ rfl he⟩
  | Fire cb p =>
    cases cb with
    | ReactToPacket => exact ⟨e, random_step_quiet_armed c _ rfl he⟩
    | DoJamming => exact ⟨e, random_step_quiet_armed c _ rfl he⟩
    | RxTimeoutHandler =>
      simp only [step]
      split
      · exact ⟨e, he⟩
      · rename_i x t hp
        split
        · rename_i hx
          obtain ⟨_, hwf, hiss, href, hnil⟩ := Simulator.Pop_watchdog hp hx he
          obtain ⟨h1, h2, h3⟩ := random_RxTimeoutHandler_slots c.1 { c.2 with sim := t } hm
          refine ⟨Event.mk t.nextUid (t.now + c.1.m_rxTimeout) Callback.RxTimeoutHandler, ?_⟩
          rw [h1, h2, h3]
          exact Simulator.ArmedWith_rearm _ hwf hiss href (Simulator.Tracked_of_pending_nil hnil)
        · exact ⟨e, he⟩

theorem random_run_inSession_armed (ins : List Input) (c : RandomJammer × World)
    (hs : ∀ i ∈ ins, i.inSession = true) (hm : c.1.m_reactToMitigation = true)
    (h : ∃ e, c.2.sim.ArmedWith c.1.m_jammingEvent c.1.m_rxTimeoutEvent Callback.DoJamming e) :
    ∃ e, (run c ins).2.sim.ArmedWith (run c ins).1.m_jammingEvent
      (run c ins).1.m_rxTimeoutEvent Callback.DoJamming e := by
  induction ins generalizing c with
  | nil => exact h
  | cons i ins ih =>
    have hstep := random_step_inSession_armed c i (hs i (List.mem_cons_self _ _)) hm h
    have hm1 : (step c i).1.m_reactToMitigation = true := by
      rw [random_step_reactToMitigation]; exact hm
    exact ih (step c i) (fun x hx => hs x (List.mem_cons_of_mem _ hx)) hm1 hstep

end RandomJammer

/-! ## Reactive jammer: the watchdog slot along a run -/

namespace ReactiveJammer

theorem reactive_DoJamming_slots (j : ReactiveJammer) (w : World)
    (hm : j.m_reactToMitigation = true) :
    (j.DoJamming w).2.sim = (w.sim.Schedule j.m_rxTimeout Callback.RxTimeoutHandler).1 ∧
      (j.DoJamming w).1.m_jammingEvent = j.m_jammingEvent ∧
      (j.DoJamming w).1.m_rxTimeoutEvent = some w.sim.nextUid ∧
      (j.DoJamming w).1.m_reactToMitigation = true := by
  unfold DoJamming
  simp [hm]

theorem reactive_RxTimeoutHandler_slots (j : ReactiveJammer) (w : World)
    (hm : j.m_reactToMitigation = true) :
    (j.RxTimeoutHandler w).2.sim
        = ((w.sim.Cancel j.m_rxTimeoutEvent).Schedule j.m_rxTimeout
            Callback.RxTimeoutHandler).1 ∧
      (j.RxTimeoutHandler w).1.m_jammingEvent = j.m_jammingEvent ∧
      (j.RxTimeoutHandler w).1.m_rxTimeoutEvent = some w.sim.nextUid ∧
      (j.RxTimeoutHandler w).1.m_reactToMitigation = true := by
  unfold RxTimeoutHandler
  simp [hm]

theorem DoStartRxHandler_error (j : ReactiveJammer) (w : World) (rss d f : ℚ) (x : Fatal)
    (h : j.IsPacketToBeJammed d f = Except.error x) :
    j.DoStartRxHandler w rss d f = Except.error x := by
  unfold DoStartRxHandler
  rw [h]

theorem reactive_DoStartRxHandler_armed (j : ReactiveJammer) (w : World) (rss d f : ℚ)
    {r : Bool × ReactiveJammer × World} {e : Event}
    (hm : j.m_reactToMitigation = true)
    (hr : j.DoStartRxHandler w rss d f = Except.ok r)
    (h : w.sim.ArmedWith j.m_jammingEvent j.m_rxTimeoutEvent Callback.ReactToPacket e) :
    r.2.1.m_reactToMitigation = true ∧
    ∃ e1, r.2.2.sim.ArmedWith r.2.1.m_jammingEvent r.2.1.m_rxTimeoutEvent
      Callback.ReactToPacket e1 := by
  cases hd : j.IsPacketToBeJammed d f with
  | error x =>
    rw [DoStartRxHandler_error j w rss d f x hd] at hr
    exact Except.noConfusion hr
  | ok b =>
    rw [DoStartRxHandler_of_decision j w rss d f b hd, hm] at hr
    have hr1 := Except.ok.inj hr
    subst hr1
    cases b <;> simp only [if_true, Bool.false_eq_true, if_false]
    · refine ⟨trivial, Event.mk w.sim.nextUid (w.sim.now + j.m_rxTimeout)
        Callback.RxTimeoutHandler, ?_⟩
      exact Simulator.ArmedWith_rearm _ h.1 h.2.1 h.2.2.1 (Simulator.Tracked_of_ArmedWith h)
    · refine ⟨trivial, Event.mk (w.sim.nextUid + 1) (w.sim.now + j.m_rxTimeout)
        Callback.RxTimeoutHandler, ?_⟩
      have h1 := Simulator.ArmedWith_tick j.m_rxTxSwitchingDelay (by decide) h
      have h2 := Simulator.ArmedWith_rearm j.m_rxTimeout h1.1 h1.2.1 h1.2.2.1
        (Simulator.Tracked_of_ArmedWith h1)
      simpa using h2

/-- Every input of a session keeps exactly one watchdog armed while chasing
is enabled. -/
theorem reactive_step_inSession_armed (c c1 : ReactiveJammer × World) (i : Input)
    (hs : i.inSession = true) (hm : c.1.m_reactToMitigation = true)
    (h : ∃ e, c.2.sim.ArmedWith c.1.m_jammingEvent c.1.m_rxTimeoutEvent
      Callback.ReactToPacket e)
    (hstep : step c i = Except.ok c1) :
    c1.1.m_reactToMitigation = true ∧
    ∃ e, c1.2.sim.ArmedWith c1.1.m_jammingEvent c1.1.m_rxTimeoutEvent
      Callback.ReactToPacket e := by
  obtain ⟨e, he⟩ := h
  cases i with
  | StartJammer p => exact absurd hs (by simp [Input.inSession])
  | StopJammer => exact absurd hs (by simp [Input.inSession])
  | StartRx rss d f =>
    simp only [step] at hstep
    cases hr : DoStartRxHandler c.1 c.2 rss d f with
    | error x => rw [hr] at hstep; exact Except.noConfusion hstep
    | ok r =>
      rw [hr] at hstep
      have := Except.ok.inj hstep
      subst this
      exact reactive_DoStartRxHandler_armed c.1 c.2 rss d f hm hr he
  | EndRx rss =>
    have := Except.ok.inj hstep
    subst this
    exact ⟨hm, e, he⟩
  | EndTx p d =>
    have := Except.ok.inj hstep
    subst this
    exact ⟨hm, e, he⟩
  | Advance t =>
    have := Except.ok.inj hstep
    subst this
    exact ⟨hm, e, Simulator.ArmedWith_congr (Simulator.Advance_events _ _)
      (Simulator.Advance_nextUid _ _) he⟩
  | Fire cb p =>
    simp only [step] at hstep
    cases hp : c.2.sim.Pop with
    | none =>
      rw [hp] at hstep
      have := Except.ok.inj hstep
      subst this
      exact ⟨hm, e, he⟩
    | some xt =>
      obtain ⟨x, t⟩ := xt
      rw [hp] at hstep
      simp only at hstep
      by_cases hx : x.cb = cb
      · rw [if_pos hx] at hstep
        cases cb with
        | DoJamming =>
          have := Except.ok.inj hstep
          subst this
          exact ⟨hm, e, he⟩
        | ReactToPacket =>
          have := Except.ok.inj hstep
          subst this
          have ht : t.ArmedWith c.1.m_jammingEvent c.1.m_rxTimeoutEvent
              Callback.ReactToPacket e :=
            Simulator.ArmedWith_Pop_other hp (by rw [hx]; decide) he
          refine ⟨hm, e, ?_⟩
          simpa [ReactToPacket] using ht
        | RxTimeoutHandler =>
          have := Except.ok.inj hstep
          subst this
          obtain ⟨_, hwf, hiss, href, hnil⟩ := Simulator.Pop_watchdog hp hx he
          obtain ⟨h1, h2, h3, h4⟩ := reactive_RxTimeoutHandler_slots c.1 { c.2 with sim := t } hm
          refine ⟨h4, Event.mk t.nextUid (t.now + c.1.m_rxTimeout) Callback.RxTimeoutHandler, ?_⟩
          rw [h1, h2, h3]
          exact Simulator.ArmedWith_rearm _ hwf hiss href (Simulator.Tracked_of_pending_nil hnil)
      · rw [if_neg hx] at hstep
        have := Except.ok.inj hstep
        subst this
        exact ⟨hm, e, he⟩

theorem reactive_run_inSession_armed (ins : List Input) (c c1 : ReactiveJammer × World)
    (hs : ∀ i ∈ ins, i.inSession = true) (hm : c.1.m_reactToMitigation = true)
    (h : ∃ e, c.2.sim.ArmedWith c.1.m_jammingEvent c.1.m_rxTimeoutEvent
      Callback.ReactToPacket e)
    (hrun : run c ins = Except.ok c1) :
    ∃ e, c1.2.sim.ArmedWith c1.1.m_jammingEvent c1.1.m_rxTimeoutEvent
      Callback.ReactToPacket e := by
  induction ins generalizing c with
  | nil =>
    have := Except.ok.inj hrun
    subst this
    exact h
  | cons i ins ih =>
    simp only [run] at hrun
    cases hstep : step c i with
    | error x => rw [hstep] at hrun; exact Except.noConfusion hrun
    | ok c2 =>
      rw [hstep] at hrun
      obtain ⟨hm2, h2⟩ := reactive_step_inSession_armed c c2 i (hs i (List.mem_cons_self _ _))
        hm h hstep
      exact ih c2 (fun x hx => hs x (List.mem_cons_of_mem _ hx)) hm2 h2 hrun

end ReactiveJammer

/-! ## Totality of reactive runs in a recognised mode -/

namespace ReactiveJammer

theorem IsPacketToBeJammed_recognised (j : ReactiveJammer) (d f : ℚ)
    (hmode : j.m_reactionStrategy = ENERGY_AWARE ∨ j.m_reactionStrategy = FIXED_PROBABILITY) :
    ∃ b, j.IsPacketToBeJammed d f = Except.ok b := by
  unfold IsPacketToBeJammed
  rcases hmode with h | h
  · exact ⟨_, if_pos h⟩
  · by_cases h0 : j.m_reactionStrategy = ENERGY_AWARE
    · exact ⟨_, if_pos h0⟩
    · rw [if_neg h0, if_pos h]
      exact ⟨_, rfl⟩

theorem reactive_step_ok (c : ReactiveJammer × World) (i : Input)
    (hmode : c.1.m_reactionStrategy = ENERGY_AWARE ∨
      c.1.m_reactionStrategy = FIXED_PROBABILITY) :
    ∃ c1, step c i = Except.ok c1 ∧ c1.1.m_reactionStrategy = c.1.m_reactionStrategy := by
  cases i with
  | StartJammer p =>
    refine ⟨_, rfl, ?_⟩
    simp only [StartJammer, DoJamming]
    split <;> rfl
  | StopJammer => exact ⟨_, rfl, rfl⟩
  | StartRx rss d f =>
    obtain ⟨b, hb⟩ := IsPacketToBeJammed_recognised c.1 d f hmode
    have h2 := DoStartRxHandler_of_decision c.1 c.2 rss d f b hb
    simp only [step, h2]
    refine ⟨_, rfl, ?_⟩
    cases b <;> cases c.1.m_reactToMitigation <;> rfl
  | EndRx rss => exact ⟨_, rfl, rfl⟩
  | EndTx p d => exact ⟨_, rfl, rfl⟩
  | Advance t => exact ⟨_, rfl, rfl⟩
  | Fire cb p =>
    simp only [step]
    cases c.2.sim.Pop with
    | none => exact ⟨_, rfl, rfl⟩
    | some xt =>
      obtain ⟨x, t⟩ := xt
      simp only
      by_cases hx : x.cb = cb
      · rw [if_pos hx]
        cases cb with
        | DoJamming => exact ⟨_, rfl, rfl⟩
        | ReactToPacket => exact ⟨_, rfl, rfl⟩
        | RxTimeoutHandler =>
          refine ⟨_, rfl, ?_⟩
          simp only [RxTimeoutHandler]
          split <;> rfl
      · rw [if_neg hx]
        exact ⟨_, rfl, rfl⟩

theorem reactive_run_ok (ins : List Input) (c : ReactiveJammer × World)
    (hmode : c.1.m_reactionStrategy = ENERGY_AWARE ∨
      c.1.m_reactionStrategy = FIXED_PROBABILITY) :
    ∃ c1, run c ins = Except.ok c1 := by
  induction ins generalizing c with
  | nil => exact ⟨c, rfl⟩
  | cons i ins ih =>
    obtain ⟨c2, h2, hm2⟩ := reactive_step_ok c i hmode
    simp only [run, h2]
    exact ih c2 (by rw [hm2]; exact hmode)

end ReactiveJammer

/-! ## One watchdog throughout a session -/

/-- One watchdog after a first start.  A jammer with `reactToMitigation`
enabled is started in a state in which no watchdog is pending and its watchdog
handle is expired (as for a jammer that has not been started before).  Then
after every sequence of
session inputs (ticks, burst-sent, packet-detected, packet-received, reactions,
watchdog fires, passage of time; no `start`, no `stop`, no setter) exactly one
RX-timeout watchdog event is pending.  For the reactive jammer in a recognised
mode the run does not abort. -/
theorem one_watchdog_throughout_session :
    (∀ (j : ConstantJammer) (w : World) (p : ℚ) (ins : List Input),
      j.m_reactToMitigation = true →
      w.sim.Idle j.m_jammingEvent j.m_rxTimeoutEvent Callback.DoJamming →
      (∀ i ∈ ins, i.inSession = true) →
      ((ConstantJammer.run (j.StartJammer w p) ins).2.sim.pending
        Callback.RxTimeoutHandler).length = 1) ∧
    (∀ (j : RandomJammer) (w : World) (p : ℚ) (ins : List Input),
      j.m_reactToMitigation = true →
      w.sim.Idle j.m_jammingEvent j.m_rxTimeoutEvent Callback.DoJamming →
      (∀ i ∈ ins, i.inSession = true) →
      ((RandomJammer.run (j.StartJammer w p) ins).2.sim.pending
        Callback.RxTimeoutHandler).length = 1) ∧
    (∀ (j : ReactiveJammer) (w : World) (ins : List Input),
      j.m_reactToMitigation = true →
      j.m_reactionStrategy = ENERGY_AWARE ∨ j.m_reactionStrategy = FIXED_PROBABILITY →
      w.sim.Idle j.m_jammingEvent j.m_rxTimeoutEvent Callback.ReactToPacket →
      (∀ i ∈ ins, i.inSession = true) →
      ∃ c1, ReactiveJammer.run (j.StartJammer w) ins = Except.ok c1 ∧
        (c1.2.sim.pending Callback.RxTimeoutHandler).length = 1) := by
  refine ⟨?_, ?_, ?_⟩
  · intro j w p ins hm hidle hs
    obtain ⟨h1, h2, h3⟩ := ConstantJammer.constant_DoJamming_idle
      { j with m_jammerOn := true } w p rfl hm hidle
    have harm := Simulator.ArmedWith_of_Idle j.m_rxTimeout hidle
    have hstart : ∃ e, (j.StartJammer w p).2.sim.ArmedWith (j.StartJammer w p).1.m_jammingEvent
        (j.StartJammer w p).1.m_rxTimeoutEvent Callback.DoJamming e := by
      refine ⟨Event.mk w.sim.nextUid (w.sim.now + j.m_rxTimeout) Callback.RxTimeoutHandler, ?_⟩
      unfold ConstantJammer.StartJammer
      rw [h1, h2, h3]
      exact harm
    have hm1 : (j.StartJammer w p).1.m_reactToMitigation = true := by
      have := ConstantJammer.constant_step_reactToMitigation (j, w) (Input.StartJammer p)
      exact this.trans hm
    obtain ⟨e, he⟩ := ConstantJammer.constant_run_inSession_armed ins _ hs hm1 hstart
    rw [he.2.2.2.1]
    rfl
  · intro j w p ins hm hidle hs
    obtain ⟨h1, h2, h3⟩ := RandomJammer.random_DoJamming_idle
      { j with m_jammerOn := true } w p rfl hm hidle
    have harm := Simulator.ArmedWith_of_Idle j.m_rxTimeout hidle
    have hstart : ∃ e, (j.StartJammer w p).2.sim.ArmedWith (j.StartJammer w p).1.m_jammingEvent
        (j.StartJammer w p).1.m_rxTimeoutEvent Callback.DoJamming e := by
      refine ⟨Event.mk w.sim.nextUid (w.sim.now + j.m_rxTimeout) Callback.RxTimeoutHandler, ?_⟩
      unfold RandomJammer.StartJammer
      rw [h1, h2, h3]
      exact harm
    have hm1 : (j.StartJammer w p).1.m_reactToMitigation = true := by
      have := RandomJammer.random_step_reactToMitigation (j, w) (Input.StartJammer p)
      exact this.trans hm
    obtain ⟨e, he⟩ := RandomJammer.random_run_inSession_armed ins _ hs hm1 hstart
    rw [he.2.2.2.1]
    rfl
  · intro j w ins hm hmode hidle hs
    obtain ⟨h1, h2, h3, h4⟩ := ReactiveJammer.reactive_DoJamming_slots
      { j with m_jammerOn := true } w hm
    have harm := Simulator.ArmedWith_of_Idle j.m_rxTimeout hidle
    have hstart : ∃ e, (j.StartJammer w).2.sim.ArmedWith (j.StartJammer w).1.m_jammingEvent
        (j.StartJammer w).1.m_rxTimeoutEvent Callback.ReactToPacket e := by
      refine ⟨Event.mk w.sim.nextUid (w.sim.now + j.m_rxTimeout) Callback.RxTimeoutHandler, ?_⟩
      unfold ReactiveJammer.StartJammer
      rw [h1, h2, h3]
      exact harm
    have hmode1 : (j.StartJammer w).1.m_reactionStrategy = ENERGY_AWARE ∨
        (j.StartJammer w).1.m_reactionStrategy = FIXED_PROBABILITY := by
      obtain ⟨c1, hc1, hc2⟩ := ReactiveJammer.reactive_step_ok (j, w) (Input.StartJammer 0) hmode
      have : c1 = j.StartJammer w := (Except.ok.inj hc1).symm
      rw [← this, hc2]
      exact hmode
    obtain ⟨c1, hc1⟩ := ReactiveJammer.reactive_run_ok ins (j.StartJammer w) hmode1
    obtain ⟨e, he⟩ := ReactiveJammer.reactive_run_inSession_armed ins _ c1 hs h4 hstart hc1
    refine ⟨c1, hc1, ?_⟩
    rw [he.2.2.2.1]
    rfl

theorem Idle_init (t0 : Int) (tick rx : EventId) (cb : Callback)
    (ht : tick = none) (hr : rx = none) : (Simulator.init t0).Idle tick rx cb := by
  subst ht
  subst hr
  refine ⟨⟨fun e he => absurd he (List.not_mem_nil _), List.nodup_nil⟩,
    fun _ hu => Option.noConfusion hu, fun e he => absurd he (List.not_mem_nil _), rfl, rfl⟩

/-- One watchdog after a first start, at a constant jammer with chasing
enabled that is started at time 0 and then ticks, hears a packet at 1 s, lets
the watchdog fire at 3 s and hears another packet. -/
theorem one_watchdog_throughout_session_witness :
    ((ConstantJammer.run
        ((ConstantJammer.fresh.SetReactToMitigation true).StartJammer
          (World.init 0 PhyLayerInfo.threeChannels) 1)
        [Input.Advance 5000000, Input.EndTx 1 0, Input.Fire Callback.DoJamming 1,
         Input.Advance 1000000000, Input.StartRx 1 0 0, Input.Advance 3000000000,
         Input.Fire Callback.RxTimeoutHandler 0, Input.StartRx 1 0 0]).2.sim.pending
      Callback.RxTimeoutHandler).length = 1 :=
  one_watchdog_throughout_session.1 (ConstantJammer.fresh.SetReactToMitigation true)
    (World.init 0 PhyLayerInfo.threeChannels) 1 _ rfl
    (Idle_init 0 _ _ _ rfl rfl) (by decide)

/-- C5 (evaluated on the code). A reactive jammer with chasing enabled (RX
timeout 2 s) is started at time 0, stopped, and started again at 1 s.  After
that second start the jammer is on and `reactToMitigation` is true, and two
watchdog events are pending: the one for 2 s, which the stop left in the
queue, and the one for 3 s, which the start hook scheduled without looking at
the handle.  Two watchdogs are still pending after a packet is detected at
1.5 s, which reschedules only the one the handle holds, and after the reaction
to that packet has run.  A constant and a random jammer given the same start,
stop and start have one watchdog pending: their start hook schedules only when
the handle is expired. -/
theorem reactive_restart_two_watchdogs_while_on :
    (ReactiveJammer.run (ReactiveJammer.fresh.SetReactToMitigation true,
          World.init 0 PhyLayerInfo.threeChannels)
        [Input.StartJammer 1, Input.StopJammer, Input.Advance 1000000000,
         Input.StartJammer 1]).map
        (fun x => (x.1.m_jammerOn, x.1.m_reactToMitigation,
          (x.2.sim.pending Callback.RxTimeoutHandler).length))
      = Except.ok (true, true, 2) ∧
    (ReactiveJammer.run (ReactiveJammer.fresh.SetReactToMitigation true,
          World.init 0 PhyLayerInfo.threeChannels)
        [Input.StartJammer 1, Input.StopJammer, Input.Advance 1000000000,
         Input.StartJammer 1, Input.Advance 1500000000, Input.StartRx 1 0 1]).map
        (fun x => (x.1.m_jammerOn, x.1.m_reactToMitigation,
          x.2.sim.pending Callback.RxTimeoutHandler))
      = Except.ok (true, true, [Event.mk 0 2000000000 Callback.RxTimeoutHandler,
          Event.mk 3 3500000000 Callback.RxTimeoutHandler]) ∧
    (ReactiveJammer.run (ReactiveJammer.fresh.SetReactToMitigation true,
          World.init 0 PhyLayerInfo.threeChannels)
        [Input.StartJammer 1, Input.StopJammer, Input.Advance 1000000000,
         Input.StartJammer 1, Input.Advance 1500000000, Input.StartRx 1 0 1,
         Input.Fire Callback.ReactToPacket 1]).map
        (fun x => (x.1.m_jammerOn, x.1.m_reactToMitigation,
          (x.2.sim.pending Callback.RxTimeoutHandler).length))
      = Except.ok (true, true, 2) ∧
    ((ConstantJammer.run (ConstantJammer.fresh.SetReactToMitigation true,
          World.init 0 PhyLayerInfo.threeChannels)
        [Input.StartJammer 1, Input.StopJammer, Input.Advance 1000000000,
         Input.StartJammer 1]).2.sim.pending Callback.RxTimeoutHandler).length = 1 ∧
    ((RandomJammer.run (RandomJammer.fresh, World.init 0 PhyLayerInfo.threeChannels)
        [Input.StartJammer 1, Input.StopJammer, Input.Advance 1000000000,
         Input.StartJammer 1]).2.sim.pending Callback.RxTimeoutHandler).length = 1 := by
  exact ⟨rfl, rfl, rfl, by decide, by decide⟩

/-! ## The watchdog is scheduled once before the first packet -/

/-- C7. A constant or random jammer that is on, with `reactToMitigation`
enabled, ticks (`DoJamming`) at time `now` in a state in which no watchdog is
pending and the watchdog handle is expired.  That first tick schedules the
watchdog for `now + m_rxTimeout`.  After any further sequence of inputs that
contains no packet detection and no watchdog fire (further ticks, burst-sent,
packet-received, passage of time - however many ticks there are) the pending
watchdogs are still exactly that one event, with the id and fire time the
first tick gave it, and the watchdog handle still holds that id. -/
theorem watchdog_scheduled_once_by_first_tick :
    (∀ (j : ConstantJammer) (w : World) (p : ℚ) (ins : List Input),
      j.m_jammerOn = true → j.m_reactToMitigation = true →
      w.sim.Idle j.m_jammingEvent j.m_rxTimeoutEvent Callback.DoJamming →
      (∀ i ∈ ins, i.quiet = true) →
      (j.DoJamming w p).2.sim.pending Callback.RxTimeoutHandler
          = [Event.mk w.sim.nextUid (w.sim.now + j.m_rxTimeout) Callback.RxTimeoutHandler] ∧
        (ConstantJammer.run (j.DoJamming w p) ins).2.sim.pending Callback.RxTimeoutHandler
          = [Event.mk w.sim.nextUid (w.sim.now + j.m_rxTimeout) Callback.RxTimeoutHandler] ∧
        (ConstantJammer.run (j.DoJamming w p) ins).1.m_rxTimeoutEvent = some w.sim.nextUid) ∧
    (∀ (j : RandomJammer) (w : World) (p : ℚ) (ins : List Input),
      j.m_jammerOn = true → j.m_reactToMitigation = true →
      w.sim.Idle j.m_jammingEvent j.m_rxTimeoutEvent Callback.DoJamming →
      (∀ i ∈ ins, i.quiet = true) →
      (j.DoJamming w p).2.sim.pending Callback.RxTimeoutHandler
          = [Event.mk w.sim.nextUid (w.sim.now + j.m_rxTimeout) Callback.RxTimeoutHandler] ∧
        (RandomJammer.run (j.DoJamming w p) ins).2.sim.pending Callback.RxTimeoutHandler
          = [Event.mk w.sim.nextUid (w.sim.now + j.m_rxTimeout) Callback.RxTimeoutHandler] ∧
        (RandomJammer.run (j.DoJamming w p) ins).1.m_rxTimeoutEvent = some w.sim.nextUid) := by
  refine ⟨?_, ?_⟩
  · intro j w p ins hon hm hidle hq
    obtain ⟨h1, h2, h3⟩ := ConstantJammer.constant_DoJamming_idle j w p hon hm hidle
    have harm := Simulator.ArmedWith_of_Idle j.m_rxTimeout hidle
    have hstart : (j.DoJamming w p).2.sim.ArmedWith (j.DoJamming w p).1.m_jammingEvent
        (j.DoJamming w p).1.m_rxTimeoutEvent Callback.DoJamming
        (Event.mk w.sim.nextUid (w.sim.now + j.m_rxTimeout) Callback.RxTimeoutHandler) := by
      rw [h1, h2, h3]
      exact harm
    have hrun := ConstantJammer.constant_run_quiet_armed ins _ hq hstart
    exact ⟨hstart.2.2.2.1, hrun.2.2.2.1, hrun.2.2.2.2⟩
  · intro j w p ins hon hm hidle hq
    obtain ⟨h1, h2, h3⟩ := RandomJammer.random_DoJamming_idle j w p hon hm hidle
    have harm := Simulator.ArmedWith_of_Idle j.m_rxTimeout hidle
    have hstart : (j.DoJamming w p).2.sim.ArmedWith (j.DoJamming w p).1.m_jammingEvent
        (j.DoJamming w p).1.m_rxTimeoutEvent Callback.DoJamming
        (Event.mk w.sim.nextUid (w.sim.now + j.m_rxTimeout) Callback.RxTimeoutHandler) := by
      rw [h1, h2, h3]
      exact harm
    have hrun := RandomJammer.random_run_quiet_armed ins _ hq hstart
    exact ⟨hstart.2.2.2.1, hrun.2.2.2.1, hrun.2.2.2.2⟩

/-- C7, at a constant jammer with chasing enabled started at time 0 (first
tick) and followed through two more burst cycles: three transmissions have
been requested and the only pending watchdog is still the one the first tick
scheduled for 2 s. -/
theorem watchdog_scheduled_once_by_first_tick_witness :
    (ConstantJammer.run
        ((ConstantJammer.fresh.SetReactToMitigation true).StartJammer
          (World.init 0 PhyLayerInfo.threeChannels) 1)
        [Input.Advance 5000000, Input.EndTx 1 0, Input.Fire Callback.DoJamming 1,
         Input.Advance 10000000, Input.EndTx 1 0,
         Input.Fire Callback.DoJamming 1]).2.commands.length = 3 ∧
    (ConstantJammer.run
        ((ConstantJammer.fresh.SetReactToMitigation true).StartJammer
          (World.init 0 PhyLayerInfo.threeChannels) 1)
        [Input.Advance 5000000, Input.EndTx 1 0, Input.Fire Callback.DoJamming 1,
         Input.Advance 10000000, Input.EndTx 1 0,
         Input.Fire Callback.DoJamming 1]).2.sim.pending Callback.RxTimeoutHandler
      = [Event.mk 0 (0 + 2000000000) Callback.RxTimeoutHandler] :=
  ⟨by decide,
   (watchdog_scheduled_once_by_first_tick.1
      { ConstantJammer.fresh with m_jammerOn := true, m_reactToMitigation := true }
      (World.init 0 PhyLayerInfo.threeChannels) 1 _ rfl rfl
      (Idle_init 0 _ _ _ rfl rfl) (by decide)).2.1⟩

/-! ## Starting twice -/

/-- C6 (evaluated on the code). A reactive jammer with chasing enabled
(RX timeout 2 s) is started twice at time 0: two watchdog events are pending,
and the handle holds only the second.  A packet detected at 1 s cancels and
reschedules only that one, so a watchdog still fires at 2 s and the jammer
hops although a transmission was observed a second earlier.  The same happens
when the jammer is started, stopped and started again. -/
theorem reactive_start_twice_two_watchdogs :
    (ReactiveJammer.run (ReactiveJammer.fresh.SetReactToMitigation true,
          World.init 0 PhyLayerInfo.threeChannels)
        [Input.StartJammer 1, Input.StartJammer 1]).map
        (fun x => (x.1.m_rxTimeoutEvent, x.2.sim.pending Callback.RxTimeoutHandler))
      = Except.ok (some 1, [Event.mk 0 2000000000 Callback.RxTimeoutHandler,
          Event.mk 1 2000000000 Callback.RxTimeoutHandler]) ∧
    (ReactiveJammer.run (ReactiveJammer.fresh.SetReactToMitigation true,
          World.init 0 PhyLayerInfo.threeChannels)
        [Input.StartJammer 1, Input.StartJammer 1, Input.Advance 1000000000,
         Input.StartRx 1 1 0]).map
        (fun x => (x.1.m_rxTimeoutEvent, x.2.sim.pending Callback.RxTimeoutHandler))
      = Except.ok (some 2, [Event.mk 0 2000000000 Callback.RxTimeoutHandler,
          Event.mk 2 3000000000 Callback.RxTimeoutHandler]) ∧
    (ReactiveJammer.run (ReactiveJammer.fresh.SetReactToMitigation true,
          World.init 0 PhyLayerInfo.threeChannels)
        [Input.StartJammer 1, Input.StartJammer 1, Input.Advance 1000000000,
         Input.StartRx 1 1 0, Input.Fire Callback.RxTimeoutHandler 0]).map
        (fun x => x.2.switches)
      = Except.ok [RadioCommand.SwitchChannel 2000000000 1] ∧
    (ReactiveJammer.run (ReactiveJammer.fresh.SetReactToMitigation true,
          World.init 0 PhyLayerInfo.threeChannels)
        [Input.StartJammer 1, Input.StopJammer, Input.Advance 1000000000,
         Input.StartJammer 1]).map
        (fun x => (x.1.m_rxTimeoutEvent, x.2.sim.pending Callback.RxTimeoutHandler))
      = Except.ok (some 1, [Event.mk 0 2000000000 Callback.RxTimeoutHandler,
          Event.mk 1 3000000000 Callback.RxTimeoutHandler]) := by
  exact ⟨rfl, rfl, rfl, rfl⟩

/-! ## Back-to-back bursts of the constant jammer -/

namespace ConstantJammer

/-- The facts that hold after every tick of a continuous-jamming run. -/
theorem burstSent_spec (p : ℚ) (c : ConstantJammer × World)
    (hev : c.2.sim.events = []) (hint : c.1.m_constantJammingInterval = 0)
    (hd : 0 ≤ c.1.m_jammingDuration) (hr : c.1.m_reacting = false) :
    (burstSent p c).2.sim.now = c.2.sim.now + c.1.m_jammingDuration ∧
      (burstSent p c).2.sim.events
        = [Event.mk c.2.sim.nextUid (c.2.sim.now + c.1.m_jammingDuration) Callback.DoJamming] ∧
      (burstSent p c).2.sim.nextUid = c.2.sim.nextUid + 1 ∧
      (burstSent p c).2.commands = c.2.commands ∧
      (burstSent p c).1 = { c.1 with m_jammingEvent := some c.2.sim.nextUid } := by
  have hadv : c.2.sim.Advance (c.2.sim.now + c.1.m_jammingDuration)
      = { c.2.sim with now := c.2.sim.now + c.1.m_jammingDuration } := by
    unfold Simulator.Advance
    rw [if_pos]
    refine ⟨by omega, ?_⟩
    rw [hev]
    rfl
  have hce : ∀ (s : Simulator) (id : EventId), s.events = [] → (s.Cancel id).events = [] := by
    intro s id hs
    exact List.eq_nil_of_subset_nil (hs ▸ (Simulator.Cancel_events_sublist s id).subset)
  simp only [burstSent, step, World.Advance, hadv, DoEndTxHandler, hr, Bool.false_eq_true,
    if_false, World.Cancel, World.Schedule, Simulator.Schedule, hint, add_zero]
  have h0 := hce { c.2.sim with now := c.2.sim.now + c.1.m_jammingDuration } c.1.m_jammingEvent hev
  simp only at h0
  simp [h0]

theorem burst_spec (p : ℚ) (c : ConstantJammer × World)
    (hev : c.2.sim.events = []) (hint : c.1.m_constantJammingInterval = 0)
    (hd : 0 ≤ c.1.m_jammingDuration) (hr : c.1.m_reacting = false)
    (hon : c.1.m_jammerOn = true) (hm : c.1.m_reactToMitigation = false) :
    (burst p c).2.sim.now = c.2.sim.now + c.1.m_jammingDuration ∧
      (burst p c).2.sim.events = [] ∧
      (burst p c).2.commands = c.2.commands
        ++ [RadioCommand.SendJammingSignal (c.2.sim.now + c.1.m_jammingDuration)
              c.1.m_txPower c.1.m_jammingDuration] ∧
      (burst p c).1 = { c.1 with m_jammingEvent := some c.2.sim.nextUid } := by
  obtain ⟨h1, h2, h3, h4, h5⟩ := burstSent_spec p c hev hint hd hr
  have hb : burst p c = step (burstSent p c) (Input.Fire Callback.DoJamming p) := rfl
  have hpop : (burstSent p c).2.sim.Pop
      = some (Event.mk c.2.sim.nextUid (c.2.sim.now + c.1.m_jammingDuration) Callback.DoJamming,
          { (burstSent p c).2.sim with
              now := c.2.sim.now + c.1.m_jammingDuration, events := [] }) := by
    simp [Simulator.Pop, Simulator.Next, h2, Event.before]
  rw [hb]
  simp only [step, hpop, if_true, DoJamming, h5, hon, hm, Bool.not_true, Bool.false_eq_true,
    if_false, Bool.false_and]
  simp [h4, hr]

end ConstantJammer

namespace ConstantJammer

theorem bursts_spec (j : ConstantJammer) (w : World) (p : ℚ)
    (hint : j.m_constantJammingInterval = 0) (hm : j.m_reactToMitigation = false)
    (hd : 0 ≤ j.m_jammingDuration) (hev : w.sim.events = []) (k : Nat) :
    ((burst p)^[k] (j.StartJammer w p)).2.sim.events = [] ∧
      ((burst p)^[k] (j.StartJammer w p)).2.sim.now = w.sim.now + (k : Int) * j.m_jammingDuration ∧
      ((burst p)^[k] (j.StartJammer w p)).1.m_constantJammingInterval = 0 ∧
      ((burst p)^[k] (j.StartJammer w p)).1.m_jammingDuration = j.m_jammingDuration ∧
      ((burst p)^[k] (j.StartJammer w p)).1.m_reacting = false ∧
      ((burst p)^[k] (j.StartJammer w p)).1.m_jammerOn = true ∧
      ((burst p)^[k] (j.StartJammer w p)).1.m_reactToMitigation = false ∧
      ((burst p)^[k] (j.StartJammer w p)).1.m_txPower = j.m_txPower ∧
      ((burst p)^[k] (j.StartJammer w p)).2.commands
        = w.commands ++ (List.range (k + 1)).map (fun i : Nat =>
            RadioCommand.SendJammingSignal (w.sim.now + (i : Int) * j.m_jammingDuration)
              j.m_txPower j.m_jammingDuration) := by
  induction k with
  | zero =>
    have hr1 : List.range 1 = [0] := rfl
    simp [StartJammer, DoJamming, hm, hev, hint, hr1]
  | succ k ih =>
    obtain ⟨h1, h2, h3, h4, h5, h6, h7, h8, h9⟩ := ih
    rw [Function.iterate_succ_apply']
    obtain ⟨b1, b2, b3, b4⟩ := burst_spec p _ h1 h3 (by rw [h4]; exact hd) h5 h6 h7
    refine ⟨b2, ?_, ?_, ?_, ?_, ?_, ?_, ?_, ?_⟩
    · rw [b1, h2, h4]
      push_cast
      ring
    · rw [b4]; exact h3
    · rw [b4]; exact h4
    · rw [b4]; exact h5
    · rw [b4]; exact h6
    · rw [b4]; exact h7
    · rw [b4]; exact h8
    · rw [b3, h9, h2, h4, h8, List.range_succ (k + 1), List.map_append, List.append_assoc]
      congr 2
      simp only [List.map_cons, List.map_nil]
      congr 2
      push_cast
      ring

end ConstantJammer

/-- C8. A constant jammer with inter-burst interval 0 and `reactToMitigation`
disabled is started at time `now` with nothing pending, and every burst-sent
arrives `m_jammingDuration` after its tick.  For every `n ≥ 1`, after the
`n`-th tick the radio has been asked for exactly `n` transmissions, the `k`-th
of them (counting from 0) at time `now + k * m_jammingDuration`, each with the
configured power and duration; and when burst-sent of the `n`-th burst is
handled, the only pending event is the next tick, with fire time equal to the
time at which burst-sent is handled. -/
theorem constant_back_to_back (j : ConstantJammer) (w : World) (p : ℚ) (n : Nat)
    (hn : 1 ≤ n) (hint : j.m_constantJammingInterval = 0)
    (hm : j.m_reactToMitigation = false) (hd : 0 ≤ j.m_jammingDuration)
    (hev : w.sim.events = []) :
    ((ConstantJammer.burst p)^[n - 1] (j.StartJammer w p)).2.commands
        = w.commands ++ (List.range n).map (fun k : Nat =>
            RadioCommand.SendJammingSignal (w.sim.now + (k : Int) * j.m_jammingDuration)
              j.m_txPower j.m_jammingDuration) ∧
      ∃ u, (ConstantJammer.burstSent p
            ((ConstantJammer.burst p)^[n - 1] (j.StartJammer w p))).2.sim.events
        = [Event.mk u
            (ConstantJammer.burstSent p
              ((ConstantJammer.burst p)^[n - 1] (j.StartJammer w p))).2.sim.now
            Callback.DoJamming] := by
  obtain ⟨h1, h2, h3, h4, h5, h6, h7, h8, h9⟩ :=
    ConstantJammer.bursts_spec j w p hint hm hd hev (n - 1)
  have hn1 : n - 1 + 1 = n := Nat.sub_add_cancel hn
  rw [hn1] at h9
  refine ⟨h9, ?_⟩
  obtain ⟨s1, s2, _, _, _⟩ := ConstantJammer.burstSent_spec p _ h1 h3 (by rw [h4]; exact hd) h5
  exact ⟨_, by rw [s2, s1]⟩

/-- C8, at one hundred bursts of the default constant jammer (5 ms bursts,
interval 0, no chasing) started at time 0. -/
theorem constant_back_to_back_witness :
    ((ConstantJammer.burst 1)^[100 - 1]
        (ConstantJammer.fresh.StartJammer (World.init 0 PhyLayerInfo.threeChannels) 1)).2.commands
      = (World.init 0 PhyLayerInfo.threeChannels).commands ++ (List.range 100).map
          (fun k : Nat => RadioCommand.SendJammingSignal
            ((World.init 0 PhyLayerInfo.threeChannels).sim.now
              + (k : Int) * ConstantJammer.fresh.m_jammingDuration)
            ConstantJammer.fresh.m_txPower ConstantJammer.fresh.m_jammingDuration) :=
  (constant_back_to_back ConstantJammer.fresh (World.init 0 PhyLayerInfo.threeChannels) 1 100
    (by decide) rfl rfl (by decide) rfl).1

/-! ## An unrecognised reaction strategy -/

theorem IsPacketToBeJammed_unrecognised (j : ReactiveJammer) (d f : ℚ)
    (h0 : j.m_reactionStrategy ≠ ENERGY_AWARE) (h1 : j.m_reactionStrategy ≠ FIXED_PROBABILITY) :
    j.IsPacketToBeJammed d f = Except.error Fatal.UnknownReactionStrategy := by
  unfold ReactiveJammer.IsPacketToBeJammed
  rw [if_neg h0, if_neg h1]

/-- C11. The reaction decision ends in a fatal error exactly when the
configured reaction strategy is neither `ENERGY_AWARE` nor
`FIXED_PROBABILITY`, whatever the draw and the energy fraction.  The error is
raised when packet detection asks for a decision: `DoStartRxHandler` then
aborts with that error, in every state and for every signal strength, without
producing a successor state (so no reaction is scheduled and the watchdog is
not reset), and a run ends at that input. -/
theorem unrecognised_strategy_fatal_at_decision (j : ReactiveJammer) (w : World)
    (startRss draw energyFraction : ℚ) :
    ((∃ x, j.IsPacketToBeJammed draw energyFraction = Except.error x) ↔
      (j.m_reactionStrategy ≠ ENERGY_AWARE ∧ j.m_reactionStrategy ≠ FIXED_PROBABILITY)) ∧
    (j.m_reactionStrategy ≠ ENERGY_AWARE ∧ j.m_reactionStrategy ≠ FIXED_PROBABILITY →
      j.DoStartRxHandler w startRss draw energyFraction
          = Except.error Fatal.UnknownReactionStrategy ∧
        ∀ ins : List Input,
          ReactiveJammer.run (j, w) (Input.StartRx startRss draw energyFraction :: ins)
            = Except.error Fatal.UnknownReactionStrategy) := by
  refine ⟨⟨?_, ?_⟩, ?_⟩
  · rintro ⟨x, hx⟩
    refine ⟨?_, ?_⟩
    · intro h
      have := (ReactiveJammer.IsPacketToBeJammed_recognised j draw energyFraction (Or.inl h))
      obtain ⟨b, hb⟩ := this
      rw [hb] at hx
      exact Except.noConfusion hx
    · intro h
      have := (ReactiveJammer.IsPacketToBeJammed_recognised j draw energyFraction (Or.inr h))
      obtain ⟨b, hb⟩ := this
      rw [hb] at hx
      exact Except.noConfusion hx
  · rintro ⟨h0, h1⟩
    exact ⟨_, IsPacketToBeJammed_unrecognised j draw energyFraction h0 h1⟩
  · rintro ⟨h0, h1⟩
    have hd := IsPacketToBeJammed_unrecognised j draw energyFraction h0 h1
    have he := ReactiveJammer.DoStartRxHandler_error j w startRss draw energyFraction _ hd
    refine ⟨he, ?_⟩
    intro ins
    simp only [ReactiveJammer.run, ReactiveJammer.step, he]

/-- C11, at a reactive jammer whose reaction strategy was set to 7. -/
theorem unrecognised_strategy_fatal_at_decision_witness :
    (ReactiveJammer.fresh.SetReactionStrategy 7).DoStartRxHandler
        (World.init 0 PhyLayerInfo.threeChannels) 1 (1 / 2) 1
      = Except.error Fatal.UnknownReactionStrategy :=
  ((unrecognised_strategy_fatal_at_decision (ReactiveJammer.fresh.SetReactionStrategy 7)
    (World.init 0 PhyLayerInfo.threeChannels) 1 (1 / 2) 1).2 ⟨by decide, by decide⟩).1

/-- C12 fails on the code: the reaction strategy 7 is stored by
`SetReactionStrategy`, the jammer starts with it (the start hook returns
normally), and the started jammer - whose decision logic runs at the next
detected packet - holds the unrecognised value. -/
theorem unrecognised_strategy_accepted_at_start :
    (ReactiveJammer.fresh.SetReactionStrategy 7).m_reactionStrategy = 7 ∧
    (ReactiveJammer.run (ReactiveJammer.fresh.SetReactionStrategy 7,
          World.init 0 PhyLayerInfo.threeChannels) [Input.StartJammer 1]).map
        (fun x => (x.1.m_jammerOn, x.1.m_reactionStrategy)) = Except.ok (true, 7) ∧
    (ReactiveJammer.run (ReactiveJammer.fresh.SetReactionStrategy 7,
          World.init 0 PhyLayerInfo.threeChannels)
        [Input.StartJammer 1, Input.StartRx 1 (1 / 2) 1]).map (fun x => x.1.m_reactionStrategy)
      = Except.error Fatal.UnknownReactionStrategy := by
  exact ⟨rfl, rfl, rfl⟩

/-- C12 as amended. `SetReactionStrategy` stores every value it is given, and
the start hook neither checks nor changes the stored value (starting always
returns).  An unrecognised value is rejected only when a decision is
requested: for a value other than `ENERGY_AWARE` and `FIXED_PROBABILITY`,
packet detection on the started jammer ends in the fatal error. -/
theorem strategy_checked_only_at_decision (j : ReactiveJammer) (w : World) (strategy : Nat) :
    (j.SetReactionStrategy strategy).m_reactionStrategy = strategy ∧
    (j.DoJamming w).1.m_reactionStrategy = j.m_reactionStrategy ∧
    (j.StartJammer w).1.m_reactionStrategy = j.m_reactionStrategy ∧
    (strategy ≠ ENERGY_AWARE ∧ strategy ≠ FIXED_PROBABILITY →
      ∀ (startRss draw energyFraction : ℚ),
        ((j.SetReactionStrategy strategy).StartJammer w).1.DoStartRxHandler
            ((j.SetReactionStrategy strategy).StartJammer w).2 startRss draw energyFraction
          = Except.error Fatal.UnknownReactionStrategy) := by
  have hd : ∀ (x : ReactiveJammer) (v : World),
      (x.DoJamming v).1.m_reactionStrategy = x.m_reactionStrategy := by
    intro x v
    unfold ReactiveJammer.DoJamming
    split <;> rfl
  refine ⟨rfl, hd j w, hd _ w, ?_⟩
  rintro ⟨h0, h1⟩ rss d f
  have hs : ((j.SetReactionStrategy strategy).StartJammer w).1.m_reactionStrategy = strategy :=
    hd _ w
  exact ReactiveJammer.DoStartRxHandler_error _ _ rss d f _
    (IsPacketToBeJammed_unrecognised _ d f (by rw [hs]; exact h0) (by rw [hs]; exact h1))

/-- C12 as amended, at the value 7 on the default reactive jammer. -/
theorem strategy_checked_only_at_decision_witness :
    ((ReactiveJammer.fresh.SetReactionStrategy 7).StartJammer
        (World.init 0 PhyLayerInfo.threeChannels)).1.DoStartRxHandler
        ((ReactiveJammer.fresh.SetReactionStrategy 7).StartJammer
          (World.init 0 PhyLayerInfo.threeChannels)).2 1 (1 / 2) 1
      = Except.error Fatal.UnknownReactionStrategy :=
  (strategy_checked_only_at_decision ReactiveJammer.fresh
    (World.init 0 PhyLayerInfo.threeChannels) 7).2.2.2 ⟨by decide, by decide⟩ 1 (1 / 2) 1

/-! ## Stored parameters -/

/-- C13 (evaluated on the code). `SetJammingDuration` and `SetRxTimeout` of
the three jammers store a negative duration without complaint, while their
siblings `SetConstantJammingInterval` and `SetRxTxSwitchingDelay` fail their
assertion on it; the negative burst duration is then handed to the radio and
the negative RX timeout puts the watchdog in the past. -/
theorem negative_duration_stored :
    (ConstantJammer.fresh.SetJammingDuration (-5000000)).m_jammingDuration = -5000000 ∧
    (ConstantJammer.fresh.SetRxTimeout (-2000000000)).m_rxTimeout = -2000000000 ∧
    (RandomJammer.fresh.SetJammingDuration (-5000000)).m_jammingDuration = -5000000 ∧
    (RandomJammer.fresh.SetRxTimeout (-2000000000)).m_rxTimeout = -2000000000 ∧
    (ReactiveJammer.fresh.SetJammingDuration (-5000000)).m_jammingDuration = -5000000 ∧
    (ReactiveJammer.fresh.SetRxTimeout (-2000000000)).m_rxTimeout = -2000000000 ∧
    ConstantJammer.fresh.SetConstantJammingInterval (-5000000)
      = Except.error Fatal.AssertFailed ∧
    ReactiveJammer.fresh.SetRxTxSwitchingDelay (-5000000) = Except.error Fatal.AssertFailed ∧
    ((ConstantJammer.fresh.SetJammingDuration (-5000000)).StartJammer
        (World.init 0 PhyLayerInfo.threeChannels) 1).2.commands
      = [RadioCommand.SendJammingSignal 0 (1 / 1000) (-5000000)] ∧
    ((RandomJammer.fresh.SetRxTimeout (-2000000000)).StartJammer
        (World.init 0 PhyLayerInfo.threeChannels) 1).2.sim.events
      = [Event.mk 0 (-2000000000) Callback.RxTimeoutHandler] := by
  refine ⟨rfl, rfl, rfl, rfl, rfl, rfl, rfl, rfl, rfl, by decide⟩

/-! ## Jamming while the hop settles -/

/-- C14 (evaluated on the code). A constant jammer with 5 ms bursts every
10 ms and an RX timeout of 14.8 ms is started at time 0 on a radio whose
channel switch takes 0.5 ms.  Burst-sent at 5 ms schedules the next tick for
15 ms.  The watchdog fires at 14.8 ms, commands the hop and sets the reacting
flag, but leaves the pending tick alone: the tick runs at 15 ms, inside
`[14.8 ms, 15.3 ms)`, requests a transmission and clears the flag. -/
theorem tick_pending_at_hop_still_jams :
    (ConstantJammer.run (ConstantJammer.paced, World.init 0 PhyLayerInfo.threeChannels)
        [Input.StartJammer 1, Input.Advance 5000000, Input.EndTx 1 0,
         Input.Fire Callback.RxTimeoutHandler 0]).1.m_reacting = true ∧
    (ConstantJammer.run (ConstantJammer.paced, World.init 0 PhyLayerInfo.threeChannels)
        [Input.StartJammer 1, Input.Advance 5000000, Input.EndTx 1 0,
         Input.Fire Callback.RxTimeoutHandler 0]).2.sim.pending Callback.DoJamming
      = [Event.mk 1 15000000 Callback.DoJamming] ∧
    (ConstantJammer.run (ConstantJammer.paced, World.init 0 PhyLayerInfo.threeChannels)
        [Input.StartJammer 1, Input.Advance 5000000, Input.EndTx 1 0,
         Input.Fire Callback.RxTimeoutHandler 0, Input.Fire Callback.DoJamming 1]).2.commands
      = [RadioCommand.SendJammingSignal 0 (1 / 1000) 5000000,
         RadioCommand.SwitchChannel 14800000 1,
         RadioCommand.SendJammingSignal 15000000 (1 / 1000) 5000000] ∧
    (14800000 : Int) ≤ 15000000 ∧
    (15000000 : Int) < 14800000 + PhyLayerInfo.threeChannels.channelSwitchDelay := by
  refine ⟨by decide, by decide, rfl, by decide, by decide⟩

/-! ## Handlers that change nothing -/

/-- C15. `DoEndRxHandler` of each of the three jammers returns `false` for
every packet strength and hands back the jammer and the world exactly as it
received them: all member variables (timer handles and reacting flag
included), the scheduler with its pending events, the radio state and the
record of radio commands are unchanged. -/
theorem DoEndRxHandler_ignores_packet :
    (∀ (j : ConstantJammer) (w : World) (averageRss : ℚ),
      j.DoEndRxHandler w averageRss = (false, j, w)) ∧
    (∀ (j : RandomJammer) (w : World) (averageRss : ℚ),
      j.DoEndRxHandler w averageRss = (false, j, w)) ∧
    (∀ (j : ReactiveJammer) (w : World) (averageRss : ℚ),
      j.DoEndRxHandler w averageRss = (false, j, w)) :=
  ⟨fun _ _ _ => rfl, fun _ _ _ => rfl, fun _ _ _ => rfl⟩

/-- C16. `DoJamming` of the constant and of the random jammer, run while the
jammer is off, hands back the jammer and the world exactly as it received
them, whatever `reactToMitigation` is: no transmission is requested, nothing
is scheduled or cancelled (the watchdog in particular), no field changes. -/
theorem DoJamming_off_is_noop :
    (∀ (j : ConstantJammer) (w : World) (actualPower : ℚ), j.m_jammerOn = false →
      j.DoJamming w actualPower = (j, w)) ∧
    (∀ (j : RandomJammer) (w : World) (actualPower : ℚ), j.m_jammerOn = false →
      j.DoJamming w actualPower = (j, w)) := by
  refine ⟨?_, ?_⟩
  · intro j w p hoff
    unfold ConstantJammer.DoJamming
    simp [hoff]
  · intro j w p hoff
    unfold RandomJammer.DoJamming
    simp [hoff]

/-- C16, at a stopped constant jammer with chasing enabled whose tick is run
by the scheduler: the record of radio commands stays empty and no watchdog is
scheduled. -/
theorem DoJamming_off_is_noop_witness :
    (ConstantJammer.fresh.SetReactToMitigation true).DoJamming
        (World.init 0 PhyLayerInfo.threeChannels) 1
      = (ConstantJammer.fresh.SetReactToMitigation true,
          World.init 0 PhyLayerInfo.threeChannels) :=
  DoJamming_off_is_noop.1 _ _ 1 rfl

/-! ## The radio's answer does not steer the jammer -/

/-- C17. For each transmit step - `DoJamming` of the constant and of the random
jammer, `ReactToPacket` of the reactive jammer - two executions from the same
jammer and world that differ only in the power the radio returns end with the
same jammer fields, the same scheduler (clock, ids, pending events), the same
radio state and the same record of radio commands; only the report of the
outcome can differ. -/
theorem actual_power_does_not_alter_state :
    (∀ (j : ConstantJammer) (w : World) (p q : ℚ),
      (j.DoJamming w p).1 = (j.DoJamming w q).1 ∧
      (j.DoJamming w p).2.sim = (j.DoJamming w q).2.sim ∧
      (j.DoJamming w p).2.phy = (j.DoJamming w q).2.phy ∧
      (j.DoJamming w p).2.commands = (j.DoJamming w q).2.commands) ∧
    (∀ (j : RandomJammer) (w : World) (p q : ℚ),
      (j.DoJamming w p).1 = (j.DoJamming w q).1 ∧
      (j.DoJamming w p).2.sim = (j.DoJamming w q).2.sim ∧
      (j.DoJamming w p).2.phy = (j.DoJamming w q).2.phy ∧
      (j.DoJamming w p).2.commands = (j.DoJamming w q).2.commands) ∧
    (∀ (j : ReactiveJammer) (w : World) (p q : ℚ),
      (j.ReactToPacket w p).1 = (j.ReactToPacket w q).1 ∧
      (j.ReactToPacket w p).2.sim = (j.ReactToPacket w q).2.sim ∧
      (j.ReactToPacket w p).2.phy = (j.ReactToPacket w q).2.phy ∧
      (j.ReactToPacket w p).2.commands = (j.ReactToPacket w q).2.commands) := by
  refine ⟨?_, ?_, ?_⟩
  · intro j w p q
    unfold ConstantJammer.DoJamming
    cases j.m_jammerOn
    · exact ⟨rfl, rfl, rfl, rfl⟩
    · simp only [Bool.not_true, Bool.false_eq_true, if_false, World.world_report_sim]
      split <;> simp
  · intro j w p q
    unfold RandomJammer.DoJamming
    cases j.m_jammerOn
    · exact ⟨rfl, rfl, rfl, rfl⟩
    · simp only [Bool.not_true, Bool.false_eq_true, if_false, World.world_report_sim]
      split <;> simp
  · intro j w p q
    unfold ReactiveJammer.ReactToPacket
    simp

/-! ## Who changes the strategy parameters -/

theorem constant_step_parameters (c : ConstantJammer × World) (i : Input) :
    (ConstantJammer.step c i).1.parameters = c.1.parameters := by
  cases i with
  | StartJammer p =>
    simp only [ConstantJammer.step, ConstantJammer.StartJammer, ConstantJammer.DoJamming]
    split
    · rfl
    · split <;> rfl
  | StopJammer => rfl
  | StartRx rss d f =>
    simp only [ConstantJammer.step, ConstantJammer.DoStartRxHandler]
    split <;> rfl
  | EndRx rss => rfl
  | EndTx p d =>
    simp only [ConstantJammer.step, ConstantJammer.DoEndTxHandler]
    split <;> rfl
  | Fire cb p =>
    simp only [ConstantJammer.step]
    split
    · rfl
    · split
      · cases cb
        · simp only [ConstantJammer.DoJamming]
          split
          · rfl
          · split <;> rfl
        · rfl
        · simp only [ConstantJammer.RxTimeoutHandler]
          split <;> rfl
      · rfl
  | Advance t => rfl

theorem random_step_parameters (c : RandomJammer × World) (i : Input) :
    (RandomJammer.step c i).1.parameters = c.1.parameters := by
  cases i with
  | StartJammer p =>
    simp only [RandomJammer.step, RandomJammer.StartJammer, RandomJammer.DoJamming]
    split
    · rfl
    · split <;> rfl
  | StopJammer => rfl
  | StartRx rss d f =>
    simp only [RandomJammer.step, RandomJammer.DoStartRxHandler]
    split <;> rfl
  | EndRx rss => rfl
  | EndTx p d =>
    simp only [RandomJammer.step, RandomJammer.DoEndTxHandler]
    split <;> rfl
  | Fire cb p =>
    simp only [RandomJammer.step]
    split
    · rfl
    · split
      · cases cb
        · simp only [RandomJammer.DoJamming]
          split
          · rfl
          · split <;> rfl
        · rfl
        · simp only [RandomJammer.RxTimeoutHandler]
          split <;> rfl
      · rfl
  | Advance t => rfl

theorem reactive_step_parameters (c c1 : ReactiveJammer × World) (i : Input)
    (h : ReactiveJammer.step c i = Except.ok c1) : c1.1.parameters = c.1.parameters := by
  cases i with
  | StartJammer p =>
    have := Except.ok.inj h
    subst this
    simp only [ReactiveJammer.StartJammer, ReactiveJammer.DoJamming]
    split <;> rfl
  | StopJammer =>
    have := Except.ok.inj h
    subst this
    rfl
  | StartRx rss d f =>
    simp only [ReactiveJammer.step] at h
    cases hd : c.1.IsPacketToBeJammed d f with
    | error x =>
      rw [ReactiveJammer.DoStartRxHandler_error c.1 c.2 rss d f x hd] at h
      exact Except.noConfusion h
    | ok b =>
      rw [DoStartRxHandler_of_decision c.1 c.2 rss d f b hd] at h
      have := Except.ok.inj h
      subst this
      cases b <;> cases c.1.m_reactToMitigation <;> rfl
  | EndRx rss =>
    have := Except.ok.inj h
    subst this
    rfl
  | EndTx p d =>
    have := Except.ok.inj h
    subst this
    rfl
  | Advance t =>
    have := Except.ok.inj h
    subst this
    rfl
  | Fire cb p =>
    simp only [ReactiveJammer.step] at h
    cases hp : c.2.sim.Pop with
    | none =>
      rw [hp] at h
      have := Except.ok.inj h
      subst this
      rfl
    | some xt =>
      obtain ⟨x, t⟩ := xt
      rw [hp] at h
      simp only at h
      by_cases hx : x.cb = cb
      · rw [if_pos hx] at h
        cases cb with
        | DoJamming =>
          have := Except.ok.inj h
          subst this
          rfl
        | ReactToPacket =>
          have := Except.ok.inj h
          subst this
          rfl
        | RxTimeoutHandler =>
          have := Except.ok.inj h
          subst this
          simp only [ReactiveJammer.RxTimeoutHandler]
          split <;> rfl
      · rw [if_neg hx] at h
        have := Except.ok.inj h
        subst this
        rfl

/-- C18 fails on the code: the default constant jammer is started (it is on,
with 5 ms bursts) and `SetJammingDuration` is then called with 7 ns; the
stored burst duration becomes 7 ns.  Likewise `SetReactionStrategy` on a
started reactive jammer replaces the stored strategy, and `SetRandomVariable`
on a started random jammer replaces the stored interval distribution. -/
theorem setter_while_on_changes_parameter :
    (ConstantJammer.fresh.StartJammer (World.init 0 PhyLayerInfo.threeChannels) 1).1.m_jammerOn
      = true ∧
    (ConstantJammer.fresh.StartJammer
      (World.init 0 PhyLayerInfo.threeChannels) 1).1.m_jammingDuration = 5000000 ∧
    ((ConstantJammer.fresh.StartJammer
      (World.init 0 PhyLayerInfo.threeChannels) 1).1.SetJammingDuration 7).m_jammingDuration
      = 7 ∧
    ((ConstantJammer.fresh.StartJammer
      (World.init 0 PhyLayerInfo.threeChannels) 1).1.SetJammingDuration 7).m_jammingDuration
      ≠ (ConstantJammer.fresh.StartJammer
          (World.init 0 PhyLayerInfo.threeChannels) 1).1.m_jammingDuration ∧
    (ReactiveJammer.fresh.StartJammer (World.init 0 PhyLayerInfo.threeChannels)).1.m_jammerOn
      = true ∧
    ((ReactiveJammer.fresh.StartJammer
      (World.init 0 PhyLayerInfo.threeChannels)).1.SetReactionStrategy
        FIXED_PROBABILITY).m_reactionStrategy
      ≠ (ReactiveJammer.fresh.StartJammer
          (World.init 0 PhyLayerInfo.threeChannels)).1.m_reactionStrategy ∧
    (RandomJammer.fresh.StartJammer (World.init 0 PhyLayerInfo.threeChannels) 1).1.m_jammerOn
      = true ∧
    ((RandomJammer.fresh.StartJammer
      (World.init 0 PhyLayerInfo.threeChannels) 1).1.SetRandomVariable
        (RandomVariable.ConstantVariable 1)).m_randomJammingInterval
      = RandomVariable.ConstantVariable 1 ∧
    ((RandomJammer.fresh.StartJammer
      (World.init 0 PhyLayerInfo.threeChannels) 1).1.SetRandomVariable
        (RandomVariable.ConstantVariable 1)).m_randomJammingInterval
      ≠ (RandomJammer.fresh.StartJammer
          (World.init 0 PhyLayerInfo.threeChannels) 1).1.m_randomJammingInterval := by
  refine ⟨by decide, by decide, by decide, by decide, by decide, by decide, by decide,
    by decide, by decide⟩

/-- C18 as amended. Every parameter setter stores the value it is given, in
every state of the jammer - on or off alike; the setters guarded by an
assertion do so for every value that passes it.  Nothing else changes the
strategy parameters: every input a jammer receives (start, stop, tick,
burst-sent, packet-detected, packet-received, reaction, watchdog fire, passage
of time) leaves tx power, burst duration, constant interval, random-interval
distribution, rx/tx switching delay, reaction strategy and fixed probability
as they were. -/
theorem parameters_changed_only_by_setters :
    (∀ (c : ConstantJammer × World) (i : Input),
      (ConstantJammer.step c i).1.parameters = c.1.parameters) ∧
    (∀ (c : RandomJammer × World) (i : Input),
      (RandomJammer.step c i).1.parameters = c.1.parameters) ∧
    (∀ (c c1 : ReactiveJammer × World) (i : Input),
      ReactiveJammer.step c i = Except.ok c1 → c1.1.parameters = c.1.parameters) ∧
    (∀ (j : ConstantJammer) (v : ℚ), (j.SetTxPower v).m_txPower = v) ∧
    (∀ (j : ConstantJammer) (v : Int), (j.SetJammingDuration v).m_jammingDuration = v) ∧
    (∀ (j : ConstantJammer) (v : Int), 0 ≤ v →
      ∃ j1, j.SetConstantJammingInterval v = Except.ok j1 ∧
        j1.m_constantJammingInterval = v) ∧
    (∀ (j : RandomJammer) (v : ℚ), (j.SetTxPower v).m_txPower = v) ∧
    (∀ (j : RandomJammer) (v : Int), (j.SetJammingDuration v).m_jammingDuration = v) ∧
    (∀ (j : RandomJammer) (v : RandomVariable),
      (j.SetRandomVariable v).m_randomJammingInterval = v) ∧
    (∀ (j : ReactiveJammer) (v : ℚ), (j.SetTxPower v).m_txPower = v) ∧
    (∀ (j : ReactiveJammer) (v : Int), (j.SetJammingDuration v).m_jammingDuration = v) ∧
    (∀ (j : ReactiveJammer) (v : Int), 0 ≤ v →
      ∃ j1, j.SetRxTxSwitchingDelay v = Except.ok j1 ∧ j1.m_rxTxSwitchingDelay = v) ∧
    (∀ (j : ReactiveJammer) (v : Nat), (j.SetReactionStrategy v).m_reactionStrategy = v) ∧
    (∀ (j : ReactiveJammer) (v : ℚ), 0 ≤ v → v ≤ 1 →
      ∃ j1, j.SetFixedProbability v = Except.ok j1 ∧ j1.m_fixedProbability = v) := by
  refine ⟨constant_step_parameters, random_step_parameters, reactive_step_parameters,
    fun _ _ => rfl, fun _ _ => rfl, ?_, fun _ _ => rfl, fun _ _ => rfl, fun _ _ => rfl,
    fun _ _ => rfl, fun _ _ => rfl, ?_, fun _ _ => rfl, ?_⟩
  · intro j v hv
    unfold ConstantJammer.SetConstantJammingInterval
    rw [if_pos hv]
    exact ⟨_, rfl, rfl⟩
  · intro j v hv
    unfold ReactiveJammer.SetRxTxSwitchingDelay
    rw [if_pos hv]
    exact ⟨_, rfl, rfl⟩
  · intro j v h0 h1
    unfold ReactiveJammer.SetFixedProbability
    rw [if_pos ⟨h0, h1⟩]
    exact ⟨_, rfl, rfl⟩

/-- C18 as amended, at a started constant jammer whose interval is set to
7 ms while it is on. -/
theorem parameters_changed_only_by_setters_witness :
    ∃ j1, (ConstantJammer.fresh.StartJammer
        (World.init 0 PhyLayerInfo.threeChannels) 1).1.SetConstantJammingInterval 7000000
        = Except.ok j1 ∧ j1.m_constantJammingInterval = 7000000 :=
  parameters_changed_only_by_setters.2.2.2.2.2.1
    (ConstantJammer.fresh.StartJammer (World.init 0 PhyLayerInfo.threeChannels) 1).1 7000000
    (by decide)

/-! ## Burst-sent schedules the next tick -/

theorem pending_Cancel_other {s : Simulator} {id : EventId} {cb cb1 : Callback}
    (hr : s.Refers id cb) (hne : cb1 ≠ cb) : (s.Cancel id).pending cb1 = s.pending cb1 := by
  cases id with
  | none => rfl
  | some u =>
    rw [Simulator.pending_Cancel]
    refine List.filter_eq_self.mpr ?_
    intro e he
    have hm := Simulator.mem_pending.mp he
    have hu : e.uid ≠ u := by
      intro heq
      have hcb := hr e hm.1 (by rw [heq])
      rw [hm.2] at hcb
      exact hne hcb
    simp [hu]

/-- What cancel-then-schedule of the tick slot does to the scheduler. -/
theorem tick_reschedule (s : Simulator) (tick : EventId) (d : Int)
    (ht : s.Tracked tick Callback.DoJamming) (hi : s.Issued tick)
    (hr : s.Refers tick Callback.DoJamming) :
    ((s.Cancel tick).Schedule d Callback.DoJamming).1.pending Callback.DoJamming
        = [Event.mk s.nextUid (s.now + d) Callback.DoJamming] ∧
      (∀ e ∈ s.pending Callback.DoJamming,
        e ∉ ((s.Cancel tick).Schedule d Callback.DoJamming).1.events) ∧
      ((s.Cancel tick).Schedule d Callback.DoJamming).1.pending Callback.RxTimeoutHandler
        = s.pending Callback.RxTimeoutHandler := by
  refine ⟨Simulator.pending_rearm d ht, ?_, ?_⟩
  · intro e he
    have hid := ht e he
    exact Simulator.not_mem_rearm _ _ hid (hi _ hid)
  · rw [Simulator.pending_Schedule_other _ _ (by decide)]
    exact pending_Cancel_other hr (by decide)

theorem constant_DoEndTxHandler_eq (j : ConstantJammer) (w : World) (p : ℚ) :
    j.DoEndTxHandler w p
      = ({ j with m_jammingEvent := some w.sim.nextUid },
          ((w.Cancel j.m_jammingEvent).Schedule
            (if j.m_reacting then w.phy.channelSwitchDelay else j.m_constantJammingInterval)
            Callback.DoJamming).1) := by
  unfold ConstantJammer.DoEndTxHandler
  cases j.m_reacting <;> simp

/-- C19. `DoEndTxHandler` of the constant jammer, run at time `now` in a state
whose pending tick (if any) is the one the tick handle refers to: afterwards
exactly one tick is pending, a new one held by the tick handle, with fire time
`now + channelSwitchDelay` if the reacting flag is set and
`now + m_constantJammingInterval` otherwise; every tick that was pending
before is gone; the reacting flag, the watchdog handle, the pending watchdog
events and the record of radio commands are unchanged. -/
theorem constant_burst_sent_reschedules (j : ConstantJammer) (w : World) (txPower : ℚ)
    (ht : w.sim.Tracked j.m_jammingEvent Callback.DoJamming)
    (hi : w.sim.Issued j.m_jammingEvent)
    (hr : w.sim.Refers j.m_jammingEvent Callback.DoJamming) :
    (j.DoEndTxHandler w txPower).2.sim.pending Callback.DoJamming
        = [Event.mk w.sim.nextUid
            (w.sim.now + (if j.m_reacting then w.phy.channelSwitchDelay
              else j.m_constantJammingInterval)) Callback.DoJamming] ∧
      (∀ e ∈ w.sim.pending Callback.DoJamming, e ∉ (j.DoEndTxHandler w txPower).2.sim.events) ∧
      (j.DoEndTxHandler w txPower).1.m_jammingEvent = some w.sim.nextUid ∧
      (j.DoEndTxHandler w txPower).1.m_reacting = j.m_reacting ∧
      (j.DoEndTxHandler w txPower).1.m_rxTimeoutEvent = j.m_rxTimeoutEvent ∧
      (j.DoEndTxHandler w txPower).2.sim.pending Callback.RxTimeoutHandler
        = w.sim.pending Callback.RxTimeoutHandler ∧
      (j.DoEndTxHandler w txPower).2.commands = w.commands := by
  rw [constant_DoEndTxHandler_eq]
  obtain ⟨h1, h2, h3⟩ := tick_reschedule w.sim j.m_jammingEvent
    (if j.m_reacting then w.phy.channelSwitchDelay else j.m_constantJammingInterval) ht hi hr
  exact ⟨h1, h2, rfl, rfl, rfl, h3, rfl⟩

/-- C19, at a paced constant jammer (interval 10 ms) whose tick for 15 ms is
already pending when burst-sent is handled once more at 5 ms: that tick is
replaced by a new one for 15 ms and the watchdog for 14.8 ms stays. -/
theorem constant_burst_sent_reschedules_witness :
    ((ConstantJammer.run (ConstantJammer.paced, World.init 0 PhyLayerInfo.threeChannels)
        [Input.StartJammer 1, Input.Advance 5000000, Input.EndTx 1 0]).1.DoEndTxHandler
      (ConstantJammer.run (ConstantJammer.paced, World.init 0 PhyLayerInfo.threeChannels)
        [Input.StartJammer 1, Input.Advance 5000000, Input.EndTx 1 0]).2 1).2.sim.events
      = [Event.mk 0 14800000 Callback.RxTimeoutHandler, Event.mk 2 15000000 Callback.DoJamming] ∧
    ((ConstantJammer.run (ConstantJammer.paced, World.init 0 PhyLayerInfo.threeChannels)
        [Input.StartJammer 1, Input.Advance 5000000, Input.EndTx 1 0]).1.DoEndTxHandler
      (ConstantJammer.run (ConstantJammer.paced, World.init 0 PhyLayerInfo.threeChannels)
        [Input.StartJammer 1, Input.Advance 5000000, Input.EndTx 1 0]).2 1).2.sim.pending
        Callback.DoJamming
      = [Event.mk 2 15000000 Callback.DoJamming] :=
  ⟨by decide,
   (constant_burst_sent_reschedules
      (ConstantJammer.run (ConstantJammer.paced, World.init 0 PhyLayerInfo.threeChannels)
        [Input.StartJammer 1, Input.Advance 5000000, Input.EndTx 1 0]).1
      (ConstantJammer.run (ConstantJammer.paced, World.init 0 PhyLayerInfo.threeChannels)
        [Input.StartJammer 1, Input.Advance 5000000, Input.EndTx 1 0]).2
      1 (by decide) (by decide) (by decide)).1⟩

/-! ## The random jammer's next-tick delay -/

theorem random_DoEndTxHandler_reacting (j : RandomJammer) (w : World) (p u : ℚ)
    (h : j.m_reacting = true) :
    j.DoEndTxHandler w p u
      = ({ j with m_jammingEvent := some w.sim.nextUid },
          ((w.Cancel j.m_jammingEvent).Schedule w.phy.channelSwitchDelay
            Callback.DoJamming).1) := by
  unfold RandomJammer.DoEndTxHandler
  simp [h]

theorem random_DoEndTxHandler_drawing (j : RandomJammer) (w : World) (p u : ℚ)
    (h : j.m_reacting = false) :
    j.DoEndTxHandler w p u
      = ({ j with m_jammingEvent := some w.sim.nextUid },
          (((w.Cancel j.m_jammingEvent).GetValue
              (j.m_randomJammingInterval.GetValue u)).Schedule
            (Seconds (doubleAdd (j.m_randomJammingInterval.GetValue u)
              (GetSeconds j.m_jammingDuration)))
            Callback.DoJamming).1) := by
  unfold RandomJammer.DoEndTxHandler
  simp [h]

/-! ## Doubles and whole nanoseconds -/

theorem abs_roundHalfEven_sub_le (q : ℚ) : |(roundHalfEven q : ℚ) - q| ≤ 1 / 2 := by
  unfold roundHalfEven
  have h1 := Int.floor_le q
  have h2 := Int.lt_floor_add_one q
  rw [abs_le]
  split_ifs with ha hb hc
  · constructor <;> linarith
  · push_cast
    constructor <;> linarith
  · have hq : q - ⌊q⌋ = 1 / 2 := le_antisymm (not_lt.mp hb) (not_lt.mp ha)
    constructor <;> linarith
  · have hq : q - ⌊q⌋ = 1 / 2 := le_antisymm (not_lt.mp hb) (not_lt.mp ha)
    push_cast
    constructor <;> linarith

theorem roundHalfEven_nonneg (q : ℚ) (h : 0 ≤ q) : 0 ≤ roundHalfEven q := by
  unfold roundHalfEven
  have h1 : 0 ≤ ⌊q⌋ := Int.floor_nonneg.mpr h
  split_ifs <;> omega

theorem roundHalfEven_eq_of_abs_lt (q : ℚ) (m : ℤ) (h : |q - m| < 1 / 2) :
    roundHalfEven q = m := by
  rw [abs_lt] at h
  unfold roundHalfEven
  by_cases hq : (m : ℚ) ≤ q
  · have hf : ⌊q⌋ = m := Int.floor_eq_iff.mpr ⟨hq, by linarith⟩
    rw [hf, if_pos (by linarith)]
  · have hf : ⌊q⌋ = m - 1 := Int.floor_eq_iff.mpr ⟨by push_cast; linarith, by push_cast; linarith⟩
    rw [hf, if_neg (by push_cast; linarith), if_pos (by push_cast; linarith)]
    omega

theorem roundHalfEven_half (m : ℤ) (hm : m % 2 = 0) : roundHalfEven (m + 1 / 2) = m := by
  unfold roundHalfEven
  have hf : ⌊(m : ℚ) + 1 / 2⌋ = m := Int.floor_eq_iff.mpr ⟨by linarith, by linarith⟩
  rw [hf, if_neg (by linarith), if_neg (by linarith), if_pos hm]

theorem roundDouble_zero : roundDouble 0 = 0 := by
  unfold roundDouble roundHalfEven
  simp

theorem roundDouble_nonneg (x : ℚ) (h : 0 ≤ x) : 0 ≤ roundDouble x := by
  unfold roundDouble
  have hs : (0 : ℚ) < 2 ^ (max (Int.log 2 |x|) (-1022) - 52) := by positivity
  have hq : 0 ≤ roundHalfEven (x / 2 ^ (max (Int.log 2 |x|) (-1022) - 52)) :=
    roundHalfEven_nonneg _ (div_nonneg h hs.le)
  have hq1 : (0 : ℚ) ≤ (roundHalfEven (x / 2 ^ (max (Int.log 2 |x|) (-1022) - 52)) : ℚ) := by
    exact_mod_cast hq
  exact mul_nonneg hq1 hs.le

theorem abs_roundDouble_sub_le (x : ℚ) (k : ℤ) (hk : -1022 ≤ k) (hx : |x| < 2 ^ (k + 1)) :
    |roundDouble x - x| ≤ 2 ^ (k - 53) := by
  by_cases h0 : x = 0
  · subst h0
    rw [roundDouble_zero, sub_zero, abs_zero]
    positivity
  · have hpos : 0 < |x| := abs_pos.mpr h0
    have hlog : Int.log 2 |x| ≤ k := by
      have h := (Int.lt_zpow_iff_log_lt (b := 2) (by norm_num) hpos (x := k + 1)).mp
        (by simpa using hx)
      omega
    have hek : max (Int.log 2 |x|) (-1022) ≤ k := max_le hlog hk
    unfold roundDouble
    generalize max (Int.log 2 |x|) (-1022) = e at hek
    have hs : (0 : ℚ) < 2 ^ (e - 52) := by positivity
    have hr : (roundHalfEven (x / 2 ^ (e - 52)) : ℚ) * 2 ^ (e - 52) - x
        = ((roundHalfEven (x / 2 ^ (e - 52)) : ℚ) - x / 2 ^ (e - 52)) * 2 ^ (e - 52) := by
      field_simp
    rw [hr, abs_mul, abs_of_pos hs]
    calc |(roundHalfEven (x / 2 ^ (e - 52)) : ℚ) - x / 2 ^ (e - 52)| * 2 ^ (e - 52)
        ≤ 1 / 2 * 2 ^ (e - 52) :=
          mul_le_mul_of_nonneg_right (abs_roundHalfEven_sub_le _) hs.le
      _ = 2 ^ (e - 53) := by
          rw [show e - 52 = (e - 53) + 1 by ring, zpow_add_one₀ (by norm_num)]
          ring
      _ ≤ 2 ^ (k - 53) := zpow_le_zpow_right₀ (by norm_num) (by omega)

theorem roundDouble_eq (x : ℚ) (e m : ℤ) (he : -1022 ≤ e) (h1 : 2 ^ e ≤ |x|)
    (h2 : |x| < 2 ^ (e + 1)) (hm : roundHalfEven (x / 2 ^ (e - 52)) = m) :
    roundDouble x = m * 2 ^ (e - 52) := by
  have hpos : 0 < |x| := lt_of_lt_of_le (by positivity) h1
  have hlo : e ≤ Int.log 2 |x| :=
    (Int.zpow_le_iff_le_log (b := 2) (by norm_num) hpos).mp (by simpa using h1)
  have hhi : Int.log 2 |x| < e + 1 :=
    (Int.lt_zpow_iff_log_lt (b := 2) (by norm_num) hpos).mp (by simpa using h2)
  have hlog : Int.log 2 |x| = e := by omega
  unfold roundDouble
  rw [hlog, max_eq_left he, hm]

theorem Seconds_of_nonneg (x : ℚ) (h : 0 ≤ x) : Seconds x = ⌊x * 1000000000⌋ := by
  unfold Seconds
  rw [if_pos h]

theorem GetSeconds_200ms : GetSeconds 200000000 = 3602879701896397 / 18014398509481984 := by
  unfold GetSeconds
  rw [roundDouble_eq _ (-3) 7205759403792794 (by norm_num) (by norm_num [abs_of_pos])
    (by norm_num [abs_of_pos])
    (roundHalfEven_eq_of_abs_lt _ _ (by norm_num [abs_lt]))]
  norm_num

theorem doubleAdd_half_200ms :
    doubleAdd (1 / 2) (GetSeconds 200000000) = 3152519739159347 / 4503599627370496 := by
  rw [GetSeconds_200ms]
  unfold doubleAdd
  rw [roundDouble_eq _ (-1) 6305039478318694 (by norm_num) (by norm_num [abs_of_pos])
    (by norm_num [abs_of_pos])
    (by
      have h : ((1 : ℚ) / 2 + 3602879701896397 / 18014398509481984) / 2 ^ ((-1 : ℤ) - 52)
          = ((6305039478318694 : ℤ) : ℚ) + 1 / 2 := by norm_num
      rw [h]
      exact roundHalfEven_half _ (by decide))]
  norm_num

theorem Seconds_half_200ms :
    Seconds (doubleAdd (1 / 2) (GetSeconds 200000000)) = 699999999 := by
  rw [doubleAdd_half_200ms, Seconds_of_nonneg _ (by norm_num)]
  exact Int.floor_eq_iff.mpr ⟨by norm_num, by norm_num⟩

theorem Seconds_doubleAdd_GetSeconds_bounds (d : ℚ) (t : Int) (hd0 : 0 ≤ d)
    (hd : d ≤ 1000000) (ht0 : 0 ≤ t) (ht : t ≤ 1000000000000000) :
    d * 1000000000 + t - 2 < Seconds (doubleAdd d (GetSeconds t)) ∧
    (Seconds (doubleAdd d (GetSeconds t)) : ℚ) < d * 1000000000 + t + 1 := by
  have ht0q : (0 : ℚ) ≤ t := by exact_mod_cast ht0
  have htq : (t : ℚ) ≤ 1000000000000000 := by exact_mod_cast ht
  have hx0 : (0 : ℚ) ≤ (t : ℚ) / 1000000000 := by positivity
  have hx1 : (t : ℚ) / 1000000000 ≤ 1000000 := by
    rw [div_le_iff₀ (by norm_num)]
    linarith
  have hg0 : 0 ≤ GetSeconds t := roundDouble_nonneg _ hx0
  have hg : |GetSeconds t - (t : ℚ) / 1000000000| ≤ 2 ^ ((19 : ℤ) - 53) :=
    abs_roundDouble_sub_le _ 19 (by norm_num) (by
      rw [abs_of_nonneg hx0]
      norm_num
      linarith)
  rw [abs_le] at hg
  have hsum0 : 0 ≤ d + GetSeconds t := by linarith
  have hS0 : 0 ≤ doubleAdd d (GetSeconds t) := roundDouble_nonneg _ hsum0
  have hS : |doubleAdd d (GetSeconds t) - (d + GetSeconds t)| ≤ 2 ^ ((20 : ℤ) - 53) :=
    abs_roundDouble_sub_le _ 20 (by norm_num) (by
      rw [abs_of_nonneg hsum0]
      norm_num at hg ⊢
      linarith)
  rw [abs_le] at hS
  rw [Seconds_of_nonneg _ hS0]
  have h1 := Int.floor_le (doubleAdd d (GetSeconds t) * 1000000000)
  have h2 := Int.lt_floor_add_one (doubleAdd d (GetSeconds t) * 1000000000)
  norm_num at hg hS
  constructor <;> linarith

/-- C20 fails on the code: the default random jammer (bursts of 200 ms) with
the interval distribution set to the constant 0.5 s handles burst-sent at time
0 with the reacting flag clear.  The one value drawn is 0.5, so
`draw + burstDuration` is 0.7 s, which is 700000000 ns; the tick is scheduled
with a delay of 699999999 ns, because the sum of the two doubles is the double
just below 0.7 and `Seconds` keeps its whole nanoseconds. -/
theorem random_delay_not_exact_sum :
    ((RandomJammer.fresh.SetRandomVariable (RandomVariable.ConstantVariable (1 / 2))).DoEndTxHandler
        (World.init 0 PhyLayerInfo.threeChannels) 1 0).2.sim.pending Callback.DoJamming
      = [Event.mk 0 699999999 Callback.DoJamming] ∧
    ((RandomJammer.fresh.SetRandomVariable (RandomVariable.ConstantVariable (1 / 2))).DoEndTxHandler
        (World.init 0 PhyLayerInfo.threeChannels) 1 0).2.draws = [1 / 2] ∧
    (1 / 2 : ℚ) * 1000000000
        + (RandomJammer.fresh.SetRandomVariable
            (RandomVariable.ConstantVariable (1 / 2))).m_jammingDuration
      = 700000000 := by
  have hS : Seconds (doubleAdd
      ((RandomJammer.fresh.SetRandomVariable
        (RandomVariable.ConstantVariable (1 / 2))).m_randomJammingInterval.GetValue 0)
      (GetSeconds (RandomJammer.fresh.SetRandomVariable
        (RandomVariable.ConstantVariable (1 / 2))).m_jammingDuration)) = 699999999 :=
    Seconds_half_200ms
  refine ⟨?_, ?_, ?_⟩
  · rw [random_DoEndTxHandler_drawing _ _ _ _ rfl, hS]
    rfl
  · rw [random_DoEndTxHandler_drawing _ _ _ _ rfl]
    rfl
  · show (1 / 2 : ℚ) * 1000000000 + ((200000000 : Int) : ℚ) = 700000000
    norm_num

/-- C20 as amended. `DoEndTxHandler` of the random jammer, run at time `now` in a
state whose pending tick (if any) is the one the tick handle refers to.  With
the reacting flag clear exactly one value `draw` is taken from the configured
interval distribution and exactly one tick is pending afterwards; for a
non-negative draw and burst duration its delay from `now` is the sum
`draw + burstDuration` in seconds, added as doubles and cut to whole
nanoseconds, and for draws and burst durations of at most `10^6` s that delay
is less than 2 ns below and less than 1 ns above `draw + burstDuration`.  With
the reacting flag set exactly one tick is pending, its delay is
`channelSwitchDelay`, and no value is drawn. -/
theorem random_burst_sent_delay (j : RandomJammer) (w : World) (txPower u : ℚ)
    (ht : w.sim.Tracked j.m_jammingEvent Callback.DoJamming)
    (hi : w.sim.Issued j.m_jammingEvent)
    (hr : w.sim.Refers j.m_jammingEvent Callback.DoJamming) :
    (j.m_reacting = false →
      (j.DoEndTxHandler w txPower u).2.draws
          = w.draws ++ [j.m_randomJammingInterval.GetValue u] ∧
        (∃ delay : Int, (j.DoEndTxHandler w txPower u).2.sim.pending Callback.DoJamming
          = [Event.mk w.sim.nextUid (w.sim.now + delay) Callback.DoJamming]) ∧
        (0 ≤ j.m_randomJammingInterval.GetValue u → 0 ≤ j.m_jammingDuration →
          (j.DoEndTxHandler w txPower u).2.sim.pending Callback.DoJamming
              = [Event.mk w.sim.nextUid
                  (w.sim.now + ⌊doubleAdd (j.m_randomJammingInterval.GetValue u)
                    (GetSeconds j.m_jammingDuration) * 1000000000⌋)
                  Callback.DoJamming] ∧
            (j.m_randomJammingInterval.GetValue u ≤ 1000000 →
              j.m_jammingDuration ≤ 1000000000000000 →
              j.m_randomJammingInterval.GetValue u * 1000000000 + j.m_jammingDuration - 2
                  < ⌊doubleAdd (j.m_randomJammingInterval.GetValue u)
                      (GetSeconds j.m_jammingDuration) * 1000000000⌋ ∧
                (⌊doubleAdd (j.m_randomJammingInterval.GetValue u)
                      (GetSeconds j.m_jammingDuration) * 1000000000⌋ : ℚ)
                  < j.m_randomJammingInterval.GetValue u * 1000000000
                      + j.m_jammingDuration + 1))) ∧
    (j.m_reacting = true →
      (j.DoEndTxHandler w txPower u).2.sim.pending Callback.DoJamming
          = [Event.mk w.sim.nextUid (w.sim.now + w.phy.channelSwitchDelay)
              Callback.DoJamming] ∧
        (j.DoEndTxHandler w txPower u).2.draws = w.draws) := by
  refine ⟨?_, ?_⟩
  · intro hre
    rw [random_DoEndTxHandler_drawing j w txPower u hre]
    refine ⟨rfl, ⟨_, (tick_reschedule w.sim j.m_jammingEvent _ ht hi hr).1⟩, ?_⟩
    intro hd0 ht0
    have hS0 : 0 ≤ doubleAdd (j.m_randomJammingInterval.GetValue u)
        (GetSeconds j.m_jammingDuration) :=
      roundDouble_nonneg _ (add_nonneg hd0
        (roundDouble_nonneg _ (div_nonneg (by exact_mod_cast ht0) (by norm_num))))
    rw [← Seconds_of_nonneg _ hS0]
    refine ⟨(tick_reschedule w.sim j.m_jammingEvent _ ht hi hr).1, ?_⟩
    intro hd1 ht1
    exact Seconds_doubleAdd_GetSeconds_bounds _ _ hd0 hd1 ht0 ht1
  · intro hre
    rw [random_DoEndTxHandler_reacting j w txPower u hre]
    exact ⟨(tick_reschedule w.sim j.m_jammingEvent _ ht hi hr).1, rfl⟩

/-- C20 as amended, at the default random jammer (bursts of 200 ms) with the
interval distribution set to the constant 0.5 s, handling burst-sent at time
0: the value 0.5 is drawn and the delay is within 2 ns of 0.7 s. -/
theorem random_burst_sent_delay_witness :
    ((RandomJammer.fresh.SetRandomVariable (RandomVariable.ConstantVariable (1 / 2))).DoEndTxHandler
        (World.init 0 PhyLayerInfo.threeChannels) 1 0).2.draws
      = (World.init 0 PhyLayerInfo.threeChannels).draws ++ [1 / 2] ∧
    (1 / 2 : ℚ) * 1000000000 + (200000000 : Int) - 2
      < ⌊doubleAdd (1 / 2) (GetSeconds 200000000) * 1000000000⌋ ∧
    (⌊doubleAdd (1 / 2) (GetSeconds 200000000) * 1000000000⌋ : ℚ)
      < (1 / 2 : ℚ) * 1000000000 + (200000000 : Int) + 1 :=
  ⟨((random_burst_sent_delay
      (RandomJammer.fresh.SetRandomVariable (RandomVariable.ConstantVariable (1 / 2)))
      (World.init 0 PhyLayerInfo.threeChannels) 1 0 (by decide) (by decide) (by decide)).1
        rfl).1,
   (((random_burst_sent_delay
      (RandomJammer.fresh.SetRandomVariable (RandomVariable.ConstantVariable (1 / 2)))
      (World.init 0 PhyLayerInfo.threeChannels) 1 0 (by decide) (by decide) (by decide)).1
        rfl).2.2 (by show (0 : ℚ) ≤ 1 / 2; norm_num) (by decide)).2
      (by show (1 / 2 : ℚ) ≤ 1000000; norm_num) (by decide)⟩

/-! ## The watchdog handlers in full -/

theorem World_SwitchChannel_Cancel (w : World) (ch : Nat) (id : EventId) :
    (w.Cancel id).SwitchChannel ch = (w.SwitchChannel ch).Cancel id := by
  simp [World.SwitchChannel, World.Cancel]

theorem constant_RxTimeoutHandler_eq (j : ConstantJammer) (w : World)
    (hm : j.m_reactToMitigation = true) :
    j.RxTimeoutHandler w
      = ({ j with m_reacting := true, m_rxTimeoutEvent := some w.sim.nextUid },
          (((w.SwitchChannel (nextChannel w.phy.currentChannel w.phy.numOfChannels)).Cancel
            j.m_rxTimeoutEvent).Schedule j.m_rxTimeout Callback.RxTimeoutHandler).1) := by
  unfold ConstantJammer.RxTimeoutHandler
  simp [hm]

theorem random_RxTimeoutHandler_eq (j : RandomJammer) (w : World)
    (hm : j.m_reactToMitigation = true) :
    j.RxTimeoutHandler w
      = ({ j with m_reacting := true, m_rxTimeoutEvent := some w.sim.nextUid },
          (((w.SwitchChannel (nextChannel w.phy.currentChannel w.phy.numOfChannels)).Cancel
            j.m_rxTimeoutEvent).Schedule j.m_rxTimeout Callback.RxTimeoutHandler).1) := by
  unfold RandomJammer.RxTimeoutHandler
  simp only [hm, Bool.not_true, Bool.false_eq_true, if_false]
  rw [← World_SwitchChannel_Cancel]
  simp

theorem reactive_RxTimeoutHandler_eq (j : ReactiveJammer) (w : World)
    (hm : j.m_reactToMitigation = true) :
    j.RxTimeoutHandler w
      = ({ j with m_rxTimeoutEvent := some w.sim.nextUid },
          (((w.SwitchChannel (nextChannel w.phy.currentChannel w.phy.numOfChannels)).Cancel
            j.m_rxTimeoutEvent).Schedule j.m_rxTimeout Callback.RxTimeoutHandler).1) := by
  unfold ReactiveJammer.RxTimeoutHandler
  simp only [hm, Bool.not_true, Bool.false_eq_true, if_false]
  rw [← World_SwitchChannel_Cancel]
  simp

/-- What hop, cancel and re-arm do to the world, whichever jammer runs them. -/
theorem hop_world (w : World) (rx : EventId) (d : Int)
    (ht : w.sim.Tracked rx Callback.RxTimeoutHandler)
    (hr : w.sim.Refers rx Callback.RxTimeoutHandler) (cb : Callback)
    (hcb : cb ≠ Callback.RxTimeoutHandler) :
    (((w.SwitchChannel (nextChannel w.phy.currentChannel w.phy.numOfChannels)).Cancel
        rx).Schedule d Callback.RxTimeoutHandler).1.commands
      = w.commands ++ [RadioCommand.SwitchChannel w.sim.now
          (nextChannel w.phy.currentChannel w.phy.numOfChannels)] ∧
    (((w.SwitchChannel (nextChannel w.phy.currentChannel w.phy.numOfChannels)).Cancel
        rx).Schedule d Callback.RxTimeoutHandler).1.sim.pending Callback.RxTimeoutHandler
      = [Event.mk w.sim.nextUid (w.sim.now + d) Callback.RxTimeoutHandler] ∧
    (((w.SwitchChannel (nextChannel w.phy.currentChannel w.phy.numOfChannels)).Cancel
        rx).Schedule d Callback.RxTimeoutHandler).1.sim.pending cb
      = w.sim.pending cb := by
  refine ⟨by simp, ?_, ?_⟩
  · exact Simulator.pending_rearm d ht
  · show ((w.sim.Cancel rx).Schedule d Callback.RxTimeoutHandler).1.pending cb = _
    rw [Simulator.pending_Schedule_other _ _ (Ne.symm hcb)]
    exact pending_Cancel_other hr hcb

/-- C21. With `reactToMitigation` enabled, the watchdog handler of the constant
and of the random jammer, run at time `now` in a state whose pending watchdog
(if any) is the one the watchdog handle refers to: it adds exactly one radio
command, the switch to the next channel; the reacting flag is true afterwards;
exactly one watchdog is pending, a new one with fire time `now + m_rxTimeout`
held by the watchdog handle; the tick handle and the pending ticks are as
before. -/
theorem watchdog_fire_hops_and_rearms :
    (∀ (j : ConstantJammer) (w : World), j.m_reactToMitigation = true →
      w.sim.Tracked j.m_rxTimeoutEvent Callback.RxTimeoutHandler →
      w.sim.Refers j.m_rxTimeoutEvent Callback.RxTimeoutHandler →
      (j.RxTimeoutHandler w).2.commands
          = w.commands ++ [RadioCommand.SwitchChannel w.sim.now
              (nextChannel w.phy.currentChannel w.phy.numOfChannels)] ∧
        (j.RxTimeoutHandler w).1.m_reacting = true ∧
        (j.RxTimeoutHandler w).2.sim.pending Callback.RxTimeoutHandler
          = [Event.mk w.sim.nextUid (w.sim.now + j.m_rxTimeout) Callback.RxTimeoutHandler] ∧
        (j.RxTimeoutHandler w).1.m_rxTimeoutEvent = some w.sim.nextUid ∧
        (j.RxTimeoutHandler w).1.m_jammingEvent = j.m_jammingEvent ∧
        (j.RxTimeoutHandler w).2.sim.pending Callback.DoJamming
          = w.sim.pending Callback.DoJamming) ∧
    (∀ (j : RandomJammer) (w : World), j.m_reactToMitigation = true →
      w.sim.Tracked j.m_rxTimeoutEvent Callback.RxTimeoutHandler →
      w.sim.Refers j.m_rxTimeoutEvent Callback.RxTimeoutHandler →
      (j.RxTimeoutHandler w).2.commands
          = w.commands ++ [RadioCommand.SwitchChannel w.sim.now
              (nextChannel w.phy.currentChannel w.phy.numOfChannels)] ∧
        (j.RxTimeoutHandler w).1.m_reacting = true ∧
        (j.RxTimeoutHandler w).2.sim.pending Callback.RxTimeoutHandler
          = [Event.mk w.sim.nextUid (w.sim.now + j.m_rxTimeout) Callback.RxTimeoutHandler] ∧
        (j.RxTimeoutHandler w).1.m_rxTimeoutEvent = some w.sim.nextUid ∧
        (j.RxTimeoutHandler w).1.m_jammingEvent = j.m_jammingEvent ∧
        (j.RxTimeoutHandler w).2.sim.pending Callback.DoJamming
          = w.sim.pending Callback.DoJamming) := by
  refine ⟨?_, ?_⟩
  · intro j w hm ht hr
    obtain ⟨h1, h2, h3⟩ := hop_world w j.m_rxTimeoutEvent j.m_rxTimeout ht hr
      Callback.DoJamming (by decide)
    rw [constant_RxTimeoutHandler_eq j w hm]
    exact ⟨h1, rfl, h2, rfl, rfl, h3⟩
  · intro j w hm ht hr
    obtain ⟨h1, h2, h3⟩ := hop_world w j.m_rxTimeoutEvent j.m_rxTimeout ht hr
      Callback.DoJamming (by decide)
    rw [random_RxTimeoutHandler_eq j w hm]
    exact ⟨h1, rfl, h2, rfl, rfl, h3⟩

/-- C21, at a paced constant jammer (RX timeout 14.8 ms) whose watchdog is run
by the scheduler at 14.8 ms while a tick is pending for 15 ms: one switch to
channel 1, the flag set, one watchdog pending for 29.6 ms, the tick still
pending. -/
theorem watchdog_fire_hops_and_rearms_witness :
    (ConstantJammer.run (ConstantJammer.paced, World.init 0 PhyLayerInfo.threeChannels)
        [Input.StartJammer 1, Input.Advance 5000000, Input.EndTx 1 0,
         Input.Fire Callback.RxTimeoutHandler 0]).2.sim.events
      = [Event.mk 1 15000000 Callback.DoJamming,
         Event.mk 2 29600000 Callback.RxTimeoutHandler] ∧
    ((ConstantJammer.run (ConstantJammer.paced, World.init 0 PhyLayerInfo.threeChannels)
        [Input.StartJammer 1, Input.Advance 5000000, Input.EndTx 1 0]).1.RxTimeoutHandler
      (ConstantJammer.run (ConstantJammer.paced, World.init 0 PhyLayerInfo.threeChannels)
        [Input.StartJammer 1, Input.Advance 5000000, Input.EndTx 1 0]).2).1.m_reacting
      = true :=
  ⟨by decide,
   (watchdog_fire_hops_and_rearms.1
      (ConstantJammer.run (ConstantJammer.paced, World.init 0 PhyLayerInfo.threeChannels)
        [Input.StartJammer 1, Input.Advance 5000000, Input.EndTx 1 0]).1
      (ConstantJammer.run (ConstantJammer.paced, World.init 0 PhyLayerInfo.threeChannels)
        [Input.StartJammer 1, Input.Advance 5000000, Input.EndTx 1 0]).2
      (by decide) (by decide) (by decide)).2.1⟩

theorem Cancel_eq_self {s : Simulator} {id : EventId} {cb : Callback}
    (hr : s.Refers id cb) (hp : s.pending cb = []) : s.Cancel id = s := by
  cases id with
  | none => rfl
  | some u =>
    have hf : s.events.filter (fun e => e.uid != u) = s.events := by
      refine List.filter_eq_self.mpr ?_
      intro e he
      have hu : e.uid ≠ u := by
        intro heq
        have hcb := hr e he (by rw [heq])
        have : e ∈ s.pending cb := Simulator.mem_pending.mpr ⟨he, hcb⟩
        rw [hp] at this
        exact absurd this (List.not_mem_nil _)
      simp [hu]
    simp only [Simulator.Cancel, hf]

/-- C22. With `reactToMitigation` disabled, the watchdog handler of each of the
three jammers, run when the watchdog that fired has left the queue (no
watchdog is pending, and the watchdog handle refers to no other kind of
event), hands back the jammer and the world exactly as it received them: no
channel switch is commanded, the reacting flag and the tick/reaction slot are
unchanged, nothing is scheduled, and no watchdog is pending afterwards. -/
theorem watchdog_fire_disabled_is_noop :
    (∀ (j : ConstantJammer) (w : World), j.m_reactToMitigation = false →
      w.sim.pending Callback.RxTimeoutHandler = [] →
      w.sim.Refers j.m_rxTimeoutEvent Callback.RxTimeoutHandler →
      j.RxTimeoutHandler w = (j, w) ∧
        (j.RxTimeoutHandler w).2.sim.pending Callback.RxTimeoutHandler = []) ∧
    (∀ (j : RandomJammer) (w : World), j.m_reactToMitigation = false →
      w.sim.pending Callback.RxTimeoutHandler = [] →
      w.sim.Refers j.m_rxTimeoutEvent Callback.RxTimeoutHandler →
      j.RxTimeoutHandler w = (j, w) ∧
        (j.RxTimeoutHandler w).2.sim.pending Callback.RxTimeoutHandler = []) ∧
    (∀ (j : ReactiveJammer) (w : World), j.m_reactToMitigation = false →
      w.sim.pending Callback.RxTimeoutHandler = [] →
      w.sim.Refers j.m_rxTimeoutEvent Callback.RxTimeoutHandler →
      j.RxTimeoutHandler w = (j, w) ∧
        (j.RxTimeoutHandler w).2.sim.pending Callback.RxTimeoutHandler = []) := by
  refine ⟨?_, ?_, ?_⟩
  · intro j w hm hp _
    have h : j.RxTimeoutHandler w = (j, w) := by
      unfold ConstantJammer.RxTimeoutHandler
      simp [hm]
    rw [h]
    exact ⟨rfl, hp⟩
  · intro j w hm hp hr
    have hc : w.Cancel j.m_rxTimeoutEvent = w := by
      unfold World.Cancel
      rw [Cancel_eq_self hr hp]
    have h : j.RxTimeoutHandler w = (j, w) := by
      unfold RandomJammer.RxTimeoutHandler
      simp [hm, hc]
    rw [h]
    exact ⟨rfl, hp⟩
  · intro j w hm hp hr
    have hc : w.Cancel j.m_rxTimeoutEvent = w := by
      unfold World.Cancel
      rw [Cancel_eq_self hr hp]
    have h : j.RxTimeoutHandler w = (j, w) := by
      unfold ReactiveJammer.RxTimeoutHandler
      simp [hm, hc]
    rw [h]
    exact ⟨rfl, hp⟩

/-- C22, at a random jammer that was started with chasing enabled, had
chasing disabled afterwards, and whose watchdog is then run by the scheduler
at 2 s: nothing is pending afterwards and no switch was commanded. -/
theorem watchdog_fire_disabled_is_noop_witness :
    (RandomJammer.step
        ((RandomJammer.run (RandomJammer.fresh, World.init 0 PhyLayerInfo.threeChannels)
            [Input.StartJammer 1]).1.SetReactToMitigation false,
         (RandomJammer.run (RandomJammer.fresh, World.init 0 PhyLayerInfo.threeChannels)
            [Input.StartJammer 1]).2)
        (Input.Fire Callback.RxTimeoutHandler 0)).2.sim.events = [] ∧
    (RandomJammer.step
        ((RandomJammer.run (RandomJammer.fresh, World.init 0 PhyLayerInfo.threeChannels)
            [Input.StartJammer 1]).1.SetReactToMitigation false,
         (RandomJammer.run (RandomJammer.fresh, World.init 0 PhyLayerInfo.threeChannels)
            [Input.StartJammer 1]).2)
        (Input.Fire Callback.RxTimeoutHandler 0)).2.switches = [] ∧
    (RandomJammer.fresh.SetReactToMitigation false).RxTimeoutHandler
        (World.init 2000000000 PhyLayerInfo.threeChannels)
      = (RandomJammer.fresh.SetReactToMitigation false,
          World.init 2000000000 PhyLayerInfo.threeChannels) :=
  ⟨by decide, by decide,
   (watchdog_fire_disabled_is_noop.2.1 (RandomJammer.fresh.SetReactToMitigation false)
      (World.init 2000000000 PhyLayerInfo.threeChannels) rfl rfl (by decide)).1⟩

/-- C27. A constant, a random and a reactive jammer with `reactToMitigation`
enabled, the same RX timeout and the same watchdog handle run their watchdog
handler in the same world.  The three resulting worlds are equal - scheduler,
radio state, record of radio commands - so the place of the self-cancel makes
no difference: one switch to the next channel is commanded and (when the
pending watchdog, if any, is the one the handle refers to) exactly one
watchdog is pending, with fire time `now + rxTimeout`.  Each jammer comes back
with its watchdog handle set to the new event and every other field as
before, except that the constant and the random jammer have the reacting flag
set. -/
theorem watchdog_handlers_agree (jc : ConstantJammer) (jr : RandomJammer)
    (ja : ReactiveJammer) (w : World)
    (hc : jc.m_reactToMitigation = true) (hr : jr.m_reactToMitigation = true)
    (ha : ja.m_reactToMitigation = true)
    (htc : jc.m_rxTimeout = ja.m_rxTimeout) (htr : jr.m_rxTimeout = ja.m_rxTimeout)
    (hec : jc.m_rxTimeoutEvent = ja.m_rxTimeoutEvent)
    (her : jr.m_rxTimeoutEvent = ja.m_rxTimeoutEvent) :
    (jc.RxTimeoutHandler w).2 = (ja.RxTimeoutHandler w).2 ∧
    (jr.RxTimeoutHandler w).2 = (ja.RxTimeoutHandler w).2 ∧
    (ja.RxTimeoutHandler w).2.commands
      = w.commands ++ [RadioCommand.SwitchChannel w.sim.now
          (nextChannel w.phy.currentChannel w.phy.numOfChannels)] ∧
    (w.sim.Tracked ja.m_rxTimeoutEvent Callback.RxTimeoutHandler →
      (ja.RxTimeoutHandler w).2.sim.pending Callback.RxTimeoutHandler
        = [Event.mk w.sim.nextUid (w.sim.now + ja.m_rxTimeout) Callback.RxTimeoutHandler]) ∧
    (jc.RxTimeoutHandler w).1
      = ConstantJammer.mk jc.m_jammerOn jc.m_constantJammingInterval jc.m_txPower
          jc.m_jammingDuration jc.m_jammingEvent jc.m_rxTimeout (some w.sim.nextUid)
          jc.m_reactToMitigation true ∧
    (jr.RxTimeoutHandler w).1
      = RandomJammer.mk jr.m_jammerOn jr.m_randomJammingInterval jr.m_txPower
          jr.m_jammingDuration jr.m_jammingEvent
          jr.m_rxTimeout (some w.sim.nextUid) jr.m_reactToMitigation true ∧
    (ja.RxTimeoutHandler w).1
      = ReactiveJammer.mk ja.m_jammerOn ja.m_rxTxSwitchingDelay ja.m_txPower
          ja.m_jammingDuration ja.m_jammingEvent ja.m_reactionStrategy ja.m_fixedProbability
          ja.m_rxTimeout (some w.sim.nextUid) ja.m_reactToMitigation := by
  rw [constant_RxTimeoutHandler_eq jc w hc, random_RxTimeoutHandler_eq jr w hr,
    reactive_RxTimeoutHandler_eq ja w ha, htc, htr, hec, her]
  refine ⟨rfl, rfl, by simp, ?_, rfl, rfl, rfl⟩
  intro ht
  exact Simulator.pending_rearm _ ht

/-- C27, at the three default jammers with chasing enabled (RX timeout 2 s,
watchdog never scheduled) on a three-channel radio tuned to channel 2: the
constant and the reactive handler leave the same world. -/
theorem watchdog_handlers_agree_witness :
    ((ConstantJammer.fresh.SetReactToMitigation true).RxTimeoutHandler
        (World.init 0 PhyLayerInfo.threeChannels)).2
      = ((ReactiveJammer.fresh.SetReactToMitigation true).RxTimeoutHandler
        (World.init 0 PhyLayerInfo.threeChannels)).2 :=
  (watchdog_handlers_agree (ConstantJammer.fresh.SetReactToMitigation true) RandomJammer.fresh
    (ReactiveJammer.fresh.SetReactToMitigation true) (World.init 0 PhyLayerInfo.threeChannels)
    rfl rfl rfl rfl rfl rfl rfl).1

/-! ## The reaction slot of the reactive jammer -/

/-- C23. `DoStartRxHandler` of the reactive jammer in a recognised mode, run at
time `now` in a state whose pending reaction (if any) is the one the reaction
handle refers to.  If the decision is `jam`, exactly one reaction is pending
afterwards, a new one with fire time `now + m_rxTxSwitchingDelay` held by the
reaction handle, and every reaction that was pending before is gone.  If the
decision is `do not jam`, the reaction handle and the pending reactions are
exactly as before.  In both cases the record of radio commands is unchanged:
no transmission is requested by the handler itself. -/
theorem packet_detected_reaction_slot (j : ReactiveJammer) (w : World)
    (startRss draw energyFraction : ℚ) (jam : Bool)
    (hdec : j.IsPacketToBeJammed draw energyFraction = Except.ok jam)
    (ht : w.sim.Tracked j.m_jammingEvent Callback.ReactToPacket)
    (hi : w.sim.Issued j.m_jammingEvent)
    (hri : w.sim.Issued j.m_rxTimeoutEvent)
    (hrr : w.sim.Refers j.m_rxTimeoutEvent Callback.RxTimeoutHandler) :
    ∃ j1 w1, j.DoStartRxHandler w startRss draw energyFraction = Except.ok (false, j1, w1) ∧
      w1.commands = w.commands ∧
      (jam = true →
        w1.sim.pending Callback.ReactToPacket
            = [Event.mk w.sim.nextUid (w.sim.now + j.m_rxTxSwitchingDelay)
                Callback.ReactToPacket] ∧
          j1.m_jammingEvent = some w.sim.nextUid ∧
          ∀ e ∈ w.sim.pending Callback.ReactToPacket, e ∉ w1.sim.events) ∧
      (jam = false →
        w1.sim.pending Callback.ReactToPacket = w.sim.pending Callback.ReactToPacket ∧
          j1.m_jammingEvent = j.m_jammingEvent) := by
  rw [DoStartRxHandler_of_decision j w startRss draw energyFraction jam hdec]
  have hnew : ((w.sim.Cancel j.m_jammingEvent).Schedule j.m_rxTxSwitchingDelay
      Callback.ReactToPacket).1.pending Callback.ReactToPacket
      = [Event.mk w.sim.nextUid (w.sim.now + j.m_rxTxSwitchingDelay)
          Callback.ReactToPacket] := Simulator.pending_rearm _ ht
  have hgone : ∀ e ∈ w.sim.pending Callback.ReactToPacket,
      e ∉ ((w.sim.Cancel j.m_jammingEvent).Schedule j.m_rxTxSwitchingDelay
        Callback.ReactToPacket).1.events := by
    intro e he
    have hid := ht e he
    exact Simulator.not_mem_rearm _ _ hid (hi _ hid)
  cases jam <;> cases hm : j.m_reactToMitigation <;>
    simp only [if_true, Bool.false_eq_true, if_false]
  · exact ⟨_, _, rfl, rfl, fun h => by simp at h, fun _ => ⟨rfl, rfl⟩⟩
  · refine ⟨_, _, rfl, rfl, fun h => by simp at h, fun _ => ⟨?_, rfl⟩⟩
    show ((w.sim.Cancel j.m_rxTimeoutEvent).Schedule j.m_rxTimeout
      Callback.RxTimeoutHandler).1.pending Callback.ReactToPacket = _
    rw [Simulator.pending_Schedule_other _ _ (by decide)]
    exact pending_Cancel_other hrr (by decide)
  · exact ⟨_, _, rfl, rfl, fun _ => ⟨hnew, rfl, hgone⟩, fun h => by simp at h⟩
  · refine ⟨_, _, rfl, rfl, fun _ => ⟨?_, rfl, ?_⟩, fun h => by simp at h⟩
    · show ((((w.sim.Cancel j.m_jammingEvent).Schedule j.m_rxTxSwitchingDelay
        Callback.ReactToPacket).1.Cancel j.m_rxTimeoutEvent).Schedule j.m_rxTimeout
        Callback.RxTimeoutHandler).1.pending Callback.ReactToPacket = _
      rw [Simulator.pending_Schedule_other _ _ (by decide)]
      have hrr1 : ((w.sim.Cancel j.m_jammingEvent).Schedule j.m_rxTxSwitchingDelay
          Callback.ReactToPacket).1.Refers j.m_rxTimeoutEvent Callback.RxTimeoutHandler :=
        Simulator.Refers_Schedule_other _ _ (Simulator.Issued_mono (by simp) hri)
          (Simulator.Refers_of_subset (Simulator.Cancel_events_sublist _ _).subset hrr)
      rw [pending_Cancel_other hrr1 (by decide)]
      exact hnew
    · intro e he hmem
      have hsub : e ∈ ((w.sim.Cancel j.m_jammingEvent).Schedule j.m_rxTxSwitchingDelay
          Callback.ReactToPacket).1.events := by
        have hmem1 : e ∈ ((((w.sim.Cancel j.m_jammingEvent).Schedule j.m_rxTxSwitchingDelay
            Callback.ReactToPacket).1.Cancel j.m_rxTimeoutEvent).Schedule j.m_rxTimeout
            Callback.RxTimeoutHandler).1.events := hmem
        simp only [Simulator.Schedule_events, List.mem_append, List.mem_singleton] at hmem1
        rcases hmem1 with h1 | h1
        · have := Simulator.mem_of_mem_Cancel h1
          simpa using this
        · have hcb := (Simulator.mem_pending.mp he).2
          rw [h1] at hcb
          exact absurd hcb (by simp)
      exact hgone e he hsub

/-- C23, at the default (energy-aware) reactive jammer with full energy and
draw 0: the decision is `jam` and one reaction is pending 500 us later. -/
theorem packet_detected_reaction_slot_witness :
    ∃ j1 w1, ReactiveJammer.fresh.DoStartRxHandler (World.init 0 PhyLayerInfo.threeChannels)
        1 0 1 = Except.ok (false, j1, w1) ∧
      w1.commands = (World.init 0 PhyLayerInfo.threeChannels).commands ∧
      (true = true →
        w1.sim.pending Callback.ReactToPacket
            = [Event.mk (World.init 0 PhyLayerInfo.threeChannels).sim.nextUid
                ((World.init 0 PhyLayerInfo.threeChannels).sim.now
                  + ReactiveJammer.fresh.m_rxTxSwitchingDelay) Callback.ReactToPacket] ∧
          j1.m_jammingEvent = some (World.init 0 PhyLayerInfo.threeChannels).sim.nextUid ∧
          ∀ e ∈ (World.init 0 PhyLayerInfo.threeChannels).sim.pending Callback.ReactToPacket,
            e ∉ w1.sim.events) ∧
      (true = false →
        w1.sim.pending Callback.ReactToPacket
            = (World.init 0 PhyLayerInfo.threeChannels).sim.pending Callback.ReactToPacket ∧
          j1.m_jammingEvent = ReactiveJammer.fresh.m_jammingEvent) :=
  packet_detected_reaction_slot ReactiveJammer.fresh (World.init 0 PhyLayerInfo.threeChannels)
    1 0 1 true rfl (by decide) (by decide) (by decide) (by decide)

/-- C24. The start hook `DoJamming` of the reactive jammer adds nothing to the
record of radio commands and leaves the reaction handle and the pending
reactions as they are.  With `reactToMitigation` enabled it schedules one
event, the RX-timeout watchdog with fire time `now + m_rxTimeout`, and stores
its handle; with `reactToMitigation` disabled it hands back the jammer and the
world unchanged. -/
theorem reactive_start_hook (j : ReactiveJammer) (w : World) :
    (j.DoJamming w).2.commands = w.commands ∧
    (j.DoJamming w).1.m_jammingEvent = j.m_jammingEvent ∧
    (j.DoJamming w).2.sim.pending Callback.ReactToPacket
      = w.sim.pending Callback.ReactToPacket ∧
    (j.m_reactToMitigation = true →
      (j.DoJamming w).2.sim.events
          = w.sim.events
            ++ [Event.mk w.sim.nextUid (w.sim.now + j.m_rxTimeout) Callback.RxTimeoutHandler] ∧
        (j.DoJamming w).1.m_rxTimeoutEvent = some w.sim.nextUid) ∧
    (j.m_reactToMitigation = false → j.DoJamming w = (j, w)) := by
  unfold ReactiveJammer.DoJamming
  cases hm : j.m_reactToMitigation
  · simp
  · simp [Simulator.pending]

/-- C24, at the default reactive jammer with chasing enabled, started at time
0: the only pending event is the watchdog for 2 s. -/
theorem reactive_start_hook_witness :
    ((ReactiveJammer.fresh.SetReactToMitigation true).DoJamming
        (World.init 0 PhyLayerInfo.threeChannels)).2.sim.events
      = (World.init 0 PhyLayerInfo.threeChannels).sim.events
        ++ [Event.mk (World.init 0 PhyLayerInfo.threeChannels).sim.nextUid
            ((World.init 0 PhyLayerInfo.threeChannels).sim.now
              + (ReactiveJammer.fresh.SetReactToMitigation true).m_rxTimeout)
            Callback.RxTimeoutHandler] :=
  ((reactive_start_hook (ReactiveJammer.fresh.SetReactToMitigation true)
    (World.init 0 PhyLayerInfo.threeChannels)).2.2.2.1 rfl).1

/-- C25. `DoEndTxHandler` of the reactive jammer hands back the jammer and the
world exactly as it received them.  `ReactToPacket` leaves every field of the
jammer, the scheduler (clock, ids, pending events) and the radio state as they
are and adds exactly one radio command: a transmission with the configured
tx power and burst duration. -/
theorem reactive_transmit_path_frame :
    (∀ (j : ReactiveJammer) (w : World) (txPower : ℚ), j.DoEndTxHandler w txPower = (j, w)) ∧
    (∀ (j : ReactiveJammer) (w : World) (actualPower : ℚ),
      (j.ReactToPacket w actualPower).1 = j ∧
      (j.ReactToPacket w actualPower).2.sim = w.sim ∧
      (j.ReactToPacket w actualPower).2.phy = w.phy ∧
      (j.ReactToPacket w actualPower).2.commands
        = w.commands
          ++ [RadioCommand.SendJammingSignal w.sim.now j.m_txPower j.m_jammingDuration]) := by
  refine ⟨fun _ _ _ => rfl, ?_⟩
  intro j w p
  unfold ReactiveJammer.ReactToPacket
  simp

/-! ## The reacting flag -/

theorem constant_DoJamming_reacting (j : ConstantJammer) (w : World) (p : ℚ) :
    (j.DoJamming w p).1.m_reacting = (if j.m_jammerOn then false else j.m_reacting) := by
  unfold ConstantJammer.DoJamming
  cases j.m_jammerOn
  · rfl
  · simp only [Bool.not_true, Bool.false_eq_true, if_false, if_true]
    split <;> rfl

theorem constant_RxTimeoutHandler_reacting (j : ConstantJammer) (w : World) :
    (j.RxTimeoutHandler w).1.m_reacting
      = (if j.m_reactToMitigation then true else j.m_reacting) := by
  unfold ConstantJammer.RxTimeoutHandler
  cases j.m_reactToMitigation <;> rfl

/-- The reacting flag can only be raised by a watchdog fire with chasing
enabled. -/
theorem constant_step_raises_reacting (c : ConstantJammer × World) (i : Input)
    (h1 : c.1.m_reacting = false) (h2 : (ConstantJammer.step c i).1.m_reacting = true) :
    (∃ p, i = Input.Fire Callback.RxTimeoutHandler p) ∧ c.1.m_reactToMitigation = true := by
  cases i with
  | StartJammer p =>
    have h : (ConstantJammer.step c (Input.StartJammer p)).1.m_reacting = false := by
      simp only [ConstantJammer.step, ConstantJammer.StartJammer, constant_DoJamming_reacting]
      rfl
    rw [h] at h2
    exact absurd h2 (by simp)
  | StopJammer =>
    have h : (ConstantJammer.step c Input.StopJammer).1.m_reacting = c.1.m_reacting := rfl
    rw [h, h1] at h2
    exact absurd h2 (by simp)
  | StartRx rss d f =>
    have h : (ConstantJammer.step c (Input.StartRx rss d f)).1.m_reacting = c.1.m_reacting := by
      simp only [ConstantJammer.step, ConstantJammer.DoStartRxHandler]
      split <;> rfl
    rw [h, h1] at h2
    exact absurd h2 (by simp)
  | EndRx rss =>
    have h : (ConstantJammer.step c (Input.EndRx rss)).1.m_reacting = c.1.m_reacting := rfl
    rw [h, h1] at h2
    exact absurd h2 (by simp)
  | EndTx p d =>
    have h : (ConstantJammer.step c (Input.EndTx p d)).1.m_reacting = c.1.m_reacting := by
      simp only [ConstantJammer.step, ConstantJammer.DoEndTxHandler]
      split <;> rfl
    rw [h, h1] at h2
    exact absurd h2 (by simp)
  | Advance t =>
    have h : (ConstantJammer.step c (Input.Advance t)).1.m_reacting = c.1.m_reacting := rfl
    rw [h, h1] at h2
    exact absurd h2 (by simp)
  | Fire cb p =>
    cases cb with
    | DoJamming =>
      have h : (ConstantJammer.step c (Input.Fire Callback.DoJamming p)).1.m_reacting = false := by
        simp only [ConstantJammer.step]
        split
        · exact h1
        · split
          · rw [constant_DoJamming_reacting]
            split
            · rfl
            · exact h1
          · exact h1
      rw [h] at h2
      exact absurd h2 (by simp)
    | ReactToPacket =>
      have h : (ConstantJammer.step c (Input.Fire Callback.ReactToPacket p)).1.m_reacting
          = c.1.m_reacting := by
        simp only [ConstantJammer.step]
        split
        · rfl
        · split <;> rfl
      rw [h, h1] at h2
      exact absurd h2 (by simp)
    | RxTimeoutHandler =>
      refine ⟨⟨p, rfl⟩, ?_⟩
      simp only [ConstantJammer.step] at h2
      split at h2
      · rw [h1] at h2
        exact absurd h2 (by simp)
      · split at h2
        · rw [constant_RxTimeoutHandler_reacting] at h2
          cases hm : c.1.m_reactToMitigation
          · rw [hm] at h2
            simp only [Bool.false_eq_true, if_false] at h2
            rw [h1] at h2
            exact absurd h2 (by simp)
          · rfl
        · rw [h1] at h2
          exact absurd h2 (by simp)

theorem random_DoJamming_reacting (j : RandomJammer) (w : World) (p : ℚ) :
    (j.DoJamming w p).1.m_reacting = (if j.m_jammerOn then false else j.m_reacting) := by
  unfold RandomJammer.DoJamming
  cases j.m_jammerOn
  · rfl
  · simp only [Bool.not_true, Bool.false_eq_true, if_false, if_true]
    split <;> rfl

theorem random_RxTimeoutHandler_reacting (j : RandomJammer) (w : World) :
    (j.RxTimeoutHandler w).1.m_reacting
      = (if j.m_reactToMitigation then true else j.m_reacting) := by
  unfold RandomJammer.RxTimeoutHandler
  cases j.m_reactToMitigation <;> rfl

/-- The reacting flag can only be raised by a watchdog fire with chasing
enabled. -/
theorem random_step_raises_reacting (c : RandomJammer × World) (i : Input)
    (h1 : c.1.m_reacting = false) (h2 : (RandomJammer.step c i).1.m_reacting = true) :
    (∃ p, i = Input.Fire Callback.RxTimeoutHandler p) ∧ c.1.m_reactToMitigation = true := by
  cases i with
  | StartJammer p =>
    have h : (RandomJammer.step c (Input.StartJammer p)).1.m_reacting = false := by
      simp only [RandomJammer.step, RandomJammer.StartJammer, random_DoJamming_reacting]
      rfl
    rw [h] at h2
    exact absurd h2 (by simp)
  | StopJammer =>
    have h : (RandomJammer.step c Input.StopJammer).1.m_reacting = c.1.m_reacting := rfl
    rw [h, h1] at h2
    exact absurd h2 (by simp)
  | StartRx rss d f =>
    have h : (RandomJammer.step c (Input.StartRx rss d f)).1.m_reacting = c.1.m_reacting := by
      simp only [RandomJammer.step, RandomJammer.DoStartRxHandler]
      split <;> rfl
    rw [h, h1] at h2
    exact absurd h2 (by simp)
  | EndRx rss =>
    have h : (RandomJammer.step c (Input.EndRx rss)).1.m_reacting = c.1.m_reacting := rfl
    rw [h, h1] at h2
    exact absurd h2 (by simp)
  | EndTx p d =>
    have h : (RandomJammer.step c (Input.EndTx p d)).1.m_reacting = c.1.m_reacting := by
      simp only [RandomJammer.step, RandomJammer.DoEndTxHandler]
      split <;> rfl
    rw [h, h1] at h2
    exact absurd h2 (by simp)
  | Advance t =>
    have h : (RandomJammer.step c (Input.Advance t)).1.m_reacting = c.1.m_reacting := rfl
    rw [h, h1] at h2
    exact absurd h2 (by simp)
  | Fire cb p =>
    cases cb with
    | DoJamming =>
      have h : (RandomJammer.step c (Input.Fire Callback.DoJamming p)).1.m_reacting = false := by
        simp only [RandomJammer.step]
        split
        · exact h1
        · split
          · rw [random_DoJamming_reacting]
            split
            · rfl
            · exact h1
          · exact h1
      rw [h] at h2
      exact absurd h2 (by simp)
    | ReactToPacket =>
      have h : (RandomJammer.step c (Input.Fire Callback.ReactToPacket p)).1.m_reacting
          = c.1.m_reacting := by
        simp only [RandomJammer.step]
        split
        · rfl
        · split <;> rfl
      rw [h, h1] at h2
      exact absurd h2 (by simp)
    | RxTimeoutHandler =>
      refine ⟨⟨p, rfl⟩, ?_⟩
      simp only [RandomJammer.step] at h2
      split at h2
      · rw [h1] at h2
        exact absurd h2 (by simp)
      · split at h2
        · rw [random_RxTimeoutHandler_reacting] at h2
          cases hm : c.1.m_reactToMitigation
          · rw [hm] at h2
            simp only [Bool.false_eq_true, if_false] at h2
            rw [h1] at h2
            exact absurd h2 (by simp)
          · rfl
        · rw [h1] at h2
          exact absurd h2 (by simp)

/-- C26. For the constant and the random jammer: after `DoJamming` run while
the jammer is on the reacting flag is false, whatever it was before, whatever
`reactToMitigation` is and whatever power the radio returned.  And whenever an
input takes the flag from false to true, that input is a watchdog fire and
`reactToMitigation` is enabled. -/
theorem reacting_flag_lifecycle :
    (∀ (j : ConstantJammer) (w : World) (actualPower : ℚ), j.m_jammerOn = true →
      (j.DoJamming w actualPower).1.m_reacting = false) ∧
    (∀ (c : ConstantJammer × World) (i : Input), c.1.m_reacting = false →
      (ConstantJammer.step c i).1.m_reacting = true →
      (∃ p, i = Input.Fire Callback.RxTimeoutHandler p) ∧ c.1.m_reactToMitigation = true) ∧
    (∀ (j : RandomJammer) (w : World) (actualPower : ℚ), j.m_jammerOn = true →
      (j.DoJamming w actualPower).1.m_reacting = false) ∧
    (∀ (c : RandomJammer × World) (i : Input), c.1.m_reacting = false →
      (RandomJammer.step c i).1.m_reacting = true →
      (∃ p, i = Input.Fire Callback.RxTimeoutHandler p) ∧ c.1.m_reactToMitigation = true) := by
  refine ⟨?_, constant_step_raises_reacting, ?_, random_step_raises_reacting⟩
  · intro j w p hon
    rw [constant_DoJamming_reacting, hon]
    rfl
  · intro j w p hon
    rw [random_DoJamming_reacting, hon]
    rfl

/-- C26, at a paced constant jammer whose watchdog has just fired (the flag is
set): the next tick clears the flag, also when the radio reports failure. -/
theorem reacting_flag_lifecycle_witness :
    (ConstantJammer.run (ConstantJammer.paced, World.init 0 PhyLayerInfo.threeChannels)
        [Input.StartJammer 1, Input.Advance 5000000, Input.EndTx 1 0,
         Input.Fire Callback.RxTimeoutHandler 0]).1.m_reacting = true ∧
    ((ConstantJammer.run (ConstantJammer.paced, World.init 0 PhyLayerInfo.threeChannels)
        [Input.StartJammer 1, Input.Advance 5000000, Input.EndTx 1 0,
         Input.Fire Callback.RxTimeoutHandler 0]).1.DoJamming
      (ConstantJammer.run (ConstantJammer.paced, World.init 0 PhyLayerInfo.threeChannels)
        [Input.StartJammer 1, Input.Advance 5000000, Input.EndTx 1 0,
         Input.Fire Callback.RxTimeoutHandler 0]).2 0).1.m_reacting = false :=
  ⟨by decide, reacting_flag_lifecycle.1 _ _ 0 (by decide)⟩

/-! ## Where the hop goes -/

/-- C28 fails on the code: with two channels and the radio on channel 1 the
watchdog handler commands a switch to channel 1, the channel it is on. -/
theorem hop_to_same_channel :
    nextChannel 1 2 = 1 ∧
    ((ConstantJammer.fresh.SetReactToMitigation true).RxTimeoutHandler
        (World.init 0 (PhyLayerInfo.mk 1 2 500000))).2.commands
      = [RadioCommand.SwitchChannel 0 1] ∧
    (RandomJammer.fresh.RxTimeoutHandler
        (World.init 0 (PhyLayerInfo.mk 1 2 500000))).2.commands
      = [RadioCommand.SwitchChannel 0 1] ∧
    ((ReactiveJammer.fresh.SetReactToMitigation true).RxTimeoutHandler
        (World.init 0 (PhyLayerInfo.mk 1 2 500000))).2.commands
      = [RadioCommand.SwitchChannel 0 1] := by
  refine ⟨by decide, by decide, by decide, by decide⟩

theorem nextChannel_ne (c N : Nat) (hc : c < N) (hN : N < 65536) (h3 : 3 ≤ N) :
    nextChannel c N ≠ c := by
  rw [nextChannel_of_lt c N hc hN]
  split <;> omega

/-- C28 as amended. For every channel count `3 ≤ N` (`uint16_t`) and every
current channel `c < N`, the one switch the watchdog handler of each jammer
commands with `reactToMitigation` enabled goes to a channel different from
`c`.  With two channels the hop from channel 0 goes to channel 1 and the hop
from channel 1 goes to channel 1. -/
theorem hop_changes_channel (c N : Nat) (hc : c < N) (hN : N < 65536) (h3 : 3 ≤ N) :
    nextChannel c N ≠ c ∧
    (∀ (j : ConstantJammer) (w : World), j.m_reactToMitigation = true →
      w.phy.currentChannel = c → w.phy.numOfChannels = N →
      (j.RxTimeoutHandler w).2.commands
        = w.commands ++ [RadioCommand.SwitchChannel w.sim.now (nextChannel c N)]) ∧
    (∀ (j : RandomJammer) (w : World), j.m_reactToMitigation = true →
      w.phy.currentChannel = c → w.phy.numOfChannels = N →
      (j.RxTimeoutHandler w).2.commands
        = w.commands ++ [RadioCommand.SwitchChannel w.sim.now (nextChannel c N)]) ∧
    (∀ (j : ReactiveJammer) (w : World), j.m_reactToMitigation = true →
      w.phy.currentChannel = c → w.phy.numOfChannels = N →
      (j.RxTimeoutHandler w).2.commands
        = w.commands ++ [RadioCommand.SwitchChannel w.sim.now (nextChannel c N)]) ∧
    nextChannel 0 2 = 1 ∧ nextChannel 1 2 = 1 := by
  refine ⟨nextChannel_ne c N hc hN h3, ?_, ?_, ?_, by decide, by decide⟩
  · intro j w hm h1 h2
    rw [constant_RxTimeoutHandler_eq j w hm, h1, h2]
    simp
  · intro j w hm h1 h2
    rw [random_RxTimeoutHandler_eq j w hm, h1, h2]
    simp
  · intro j w hm h1 h2
    rw [reactive_RxTimeoutHandler_eq j w hm, h1, h2]
    simp

/-- C28 as amended, at three channels and current channel 2. -/
theorem hop_changes_channel_witness : nextChannel 2 3 ≠ 2 :=
  (hop_changes_channel 2 3 (by decide) (by decide) (by decide)).1

/-! ## Monotone decisions -/

/-- C30. For every draw: if the energy-aware decision is `jam` at energy
fraction `e`, it is `jam` at every fraction `e1 ≥ e`; and if the
fixed-probability decision of a jammer is `jam`, so is that of every jammer in
fixed-probability mode whose configured probability is at least as large. -/
theorem decision_monotone (draw : ℚ) :
    (∀ (j : ReactiveJammer) (e e1 : ℚ), j.m_reactionStrategy = ENERGY_AWARE → e ≤ e1 →
      j.IsPacketToBeJammed draw e = Except.ok true →
      j.IsPacketToBeJammed draw e1 = Except.ok true) ∧
    (∀ (j j1 : ReactiveJammer) (f f1 : ℚ), j.m_reactionStrategy = FIXED_PROBABILITY →
      j1.m_reactionStrategy = FIXED_PROBABILITY →
      j.m_fixedProbability ≤ j1.m_fixedProbability →
      j.IsPacketToBeJammed draw f = Except.ok true →
      j1.IsPacketToBeJammed draw f1 = Except.ok true) := by
  refine ⟨?_, ?_⟩
  · intro j e e1 hmode hle h
    unfold ReactiveJammer.IsPacketToBeJammed at h ⊢
    rw [if_pos hmode] at h ⊢
    have hlt : draw < e := by simpa using h
    have hlt1 : draw < e1 := lt_of_lt_of_le hlt hle
    simp [hlt1]
  · intro j j1 f f1 hmode hmode1 hle h
    rw [IsPacketToBeJammed_fixed j draw f hmode] at h
    rw [IsPacketToBeJammed_fixed j1 draw f1 hmode1]
    have hlt : draw < j.m_fixedProbability := by simpa using h
    have hlt1 : draw < j1.m_fixedProbability := lt_of_lt_of_le hlt hle
    simp [hlt1]

/-- C30, at the default reactive jammer with draw 0, going from energy
fraction 1 to 2. -/
theorem decision_monotone_witness :
    ReactiveJammer.fresh.IsPacketToBeJammed 0 2 = Except.ok true :=
  (decision_monotone 0).1 ReactiveJammer.fresh 1 2 rfl (by norm_num) rfl

/-! ## The cycle of hops -/

theorem nextChannel_range (x N : Nat) (h2 : 2 ≤ N) (hN : N < 65536) (hx : x < N) :
    1 ≤ nextChannel x N ∧ nextChannel x N < N := by
  rw [nextChannel_of_lt x N hx hN]
  split <;> omega

theorem nextChannel_iterate (N c : Nat) (h2 : 2 ≤ N) (hN : N < 65536) (h1 : 1 ≤ c)
    (hc : c < N) (k : Nat) :
    Nat.iterate (fun x => nextChannel x N) k c = (c - 1 + k) % (N - 1) + 1 := by
  induction k with
  | zero =>
    have : (c - 1) % (N - 1) = c - 1 := Nat.mod_eq_of_lt (by omega)
    simp only [Function.iterate_zero, id_eq, Nat.add_zero, this]
    omega
  | succ k ih =>
    rw [Function.iterate_succ_apply', ih]
    have hm : (c - 1 + k) % (N - 1) < N - 1 := Nat.mod_lt _ (by omega)
    have hs : (c - 1 + (k + 1)) % (N - 1) = ((c - 1 + k) % (N - 1) + 1) % (N - 1) := by
      rw [Nat.mod_add_mod, Nat.add_assoc]
    rw [hs, nextChannel_of_lt _ N (by omega) hN]
    by_cases h : (c - 1 + k) % (N - 1) + 1 < N - 1
    · rw [Nat.mod_eq_of_lt h, if_pos (by omega)]
    · have he : (c - 1 + k) % (N - 1) + 1 = N - 1 := by omega
      rw [he, Nat.mod_self, if_neg (by omega)]

theorem hop_list_perm (N c : Nat) (h2 : 2 ≤ N) :
    ((List.range (N - 1)).map (fun i => (c - 1 + (i + 1)) % (N - 1) + 1)).Perm
      (List.range' 1 (N - 1)) := by
  have hM : 0 < N - 1 := by omega
  have hnd : ((List.range (N - 1)).map (fun i => (c - 1 + (i + 1)) % (N - 1) + 1)).Nodup := by
    refine (List.nodup_map_iff_inj_on (List.nodup_range _)).mpr ?_
    intro i hi j hj hij
    rw [List.mem_range] at hi hj
    have h : (c - 1 + 1 + i) % (N - 1) = (c - 1 + 1 + j) % (N - 1) := by
      have := Nat.succ_injective hij
      rw [show c - 1 + 1 + i = c - 1 + (i + 1) by omega,
        show c - 1 + 1 + j = c - 1 + (j + 1) by omega]
      exact this
    have h' : i % (N - 1) = j % (N - 1) := Nat.ModEq.add_left_cancel' (c - 1 + 1) h
    rwa [Nat.mod_eq_of_lt hi, Nat.mod_eq_of_lt hj] at h'
  have hsub : ((List.range (N - 1)).map (fun i => (c - 1 + (i + 1)) % (N - 1) + 1))
      ⊆ List.range' 1 (N - 1) := by
    intro x hx
    rw [List.mem_map] at hx
    obtain ⟨i, _, rfl⟩ := hx
    rw [List.mem_range'_1]
    have := Nat.mod_lt (c - 1 + (i + 1)) hM
    omega
  exact (List.subperm_of_subset hnd hsub).perm_of_length_le (by simp)

theorem hopTargets_of_commands (w w1 : World) (t : Int) (ch : Nat)
    (h : w1.commands = w.commands ++ [RadioCommand.SwitchChannel t ch]) :
    w1.hopTargets = w.hopTargets ++ [ch] := by
  unfold World.hopTargets
  rw [h, List.filterMap_append]
  rfl

theorem hop_world_phy (w : World) (rx : EventId) (d : Int) :
    (((w.SwitchChannel (nextChannel w.phy.currentChannel w.phy.numOfChannels)).Cancel
        rx).Schedule d Callback.RxTimeoutHandler).1.phy.currentChannel
      = nextChannel w.phy.currentChannel w.phy.numOfChannels ∧
    (((w.SwitchChannel (nextChannel w.phy.currentChannel w.phy.numOfChannels)).Cancel
        rx).Schedule d Callback.RxTimeoutHandler).1.phy.numOfChannels
      = w.phy.numOfChannels ∧
    (((w.SwitchChannel (nextChannel w.phy.currentChannel w.phy.numOfChannels)).Cancel
        rx).Schedule d Callback.RxTimeoutHandler).1.hopTargets
      = w.hopTargets ++ [nextChannel w.phy.currentChannel w.phy.numOfChannels] := by
  refine ⟨rfl, rfl, ?_⟩
  exact hopTargets_of_commands w _ w.sim.now _ (by simp)

theorem iterate_hops {J : Type} (H : J × World → J × World) (good : J → Prop)
    (hH : ∀ c : J × World, good c.1 →
      good (H c).1 ∧
      (H c).2.phy.currentChannel = nextChannel c.2.phy.currentChannel c.2.phy.numOfChannels ∧
      (H c).2.phy.numOfChannels = c.2.phy.numOfChannels ∧
      (H c).2.hopTargets
        = c.2.hopTargets ++ [nextChannel c.2.phy.currentChannel c.2.phy.numOfChannels])
    (c : J × World) (hg : good c.1) (k : Nat) :
    good (Nat.iterate H k c).1 ∧
    (Nat.iterate H k c).2.phy.currentChannel
      = Nat.iterate (fun x => nextChannel x c.2.phy.numOfChannels) k c.2.phy.currentChannel ∧
    (Nat.iterate H k c).2.phy.numOfChannels = c.2.phy.numOfChannels ∧
    (Nat.iterate H k c).2.hopTargets
      = c.2.hopTargets ++ (List.range k).map (fun i =>
          Nat.iterate (fun x => nextChannel x c.2.phy.numOfChannels) (i + 1)
            c.2.phy.currentChannel) := by
  induction k with
  | zero => exact ⟨hg, rfl, rfl, by simp⟩
  | succ k ih =>
    obtain ⟨ig, ic, iN, it⟩ := ih
    obtain ⟨sg, sc, sN, st⟩ := hH (Nat.iterate H k c) ig
    rw [Function.iterate_succ_apply']
    refine ⟨sg, ?_, sN.trans iN, ?_⟩
    · rw [sc, ic, iN, Function.iterate_succ_apply']
    · rw [st, it, ic, iN, List.range_succ, List.map_append, List.append_assoc]
      simp only [List.map_cons, List.map_nil, Function.iterate_succ_apply']

theorem constant_hops (j : ConstantJammer) (w : World) (hm : j.m_reactToMitigation = true)
    (k : Nat) :
    (ConstantJammer.hops k (j, w)).2.phy.currentChannel
      = Nat.iterate (fun x => nextChannel x w.phy.numOfChannels) k w.phy.currentChannel ∧
    (ConstantJammer.hops k (j, w)).2.hopTargets
      = w.hopTargets ++ (List.range k).map (fun i =>
          Nat.iterate (fun x => nextChannel x w.phy.numOfChannels) (i + 1)
            w.phy.currentChannel) := by
  have hstep : ∀ c : ConstantJammer × World, c.1.m_reactToMitigation = true →
      (c.1.RxTimeoutHandler c.2).1.m_reactToMitigation = true ∧
      (c.1.RxTimeoutHandler c.2).2.phy.currentChannel
        = nextChannel c.2.phy.currentChannel c.2.phy.numOfChannels ∧
      (c.1.RxTimeoutHandler c.2).2.phy.numOfChannels = c.2.phy.numOfChannels ∧
      (c.1.RxTimeoutHandler c.2).2.hopTargets
        = c.2.hopTargets ++ [nextChannel c.2.phy.currentChannel c.2.phy.numOfChannels] := by
    intro c hc
    rw [constant_RxTimeoutHandler_eq c.1 c.2 hc]
    exact ⟨hc, hop_world_phy c.2 _ _⟩
  have h := iterate_hops (fun c : ConstantJammer × World => c.1.RxTimeoutHandler c.2)
    (fun j => j.m_reactToMitigation = true) hstep (j, w) hm k
  exact ⟨h.2.1, h.2.2.2⟩

theorem random_hops (j : RandomJammer) (w : World) (hm : j.m_reactToMitigation = true)
    (k : Nat) :
    (RandomJammer.hops k (j, w)).2.phy.currentChannel
      = Nat.iterate (fun x => nextChannel x w.phy.numOfChannels) k w.phy.currentChannel ∧
    (RandomJammer.hops k (j, w)).2.hopTargets
      = w.hopTargets ++ (List.range k).map (fun i =>
          Nat.iterate (fun x => nextChannel x w.phy.numOfChannels) (i + 1)
            w.phy.currentChannel) := by
  have hstep : ∀ c : RandomJammer × World, c.1.m_reactToMitigation = true →
      (c.1.RxTimeoutHandler c.2).1.m_reactToMitigation = true ∧
      (c.1.RxTimeoutHandler c.2).2.phy.currentChannel
        = nextChannel c.2.phy.currentChannel c.2.phy.numOfChannels ∧
      (c.1.RxTimeoutHandler c.2).2.phy.numOfChannels = c.2.phy.numOfChannels ∧
      (c.1.RxTimeoutHandler c.2).2.hopTargets
        = c.2.hopTargets ++ [nextChannel c.2.phy.currentChannel c.2.phy.numOfChannels] := by
    intro c hc
    rw [random_RxTimeoutHandler_eq c.1 c.2 hc]
    exact ⟨hc, hop_world_phy c.2 _ _⟩
  have h := iterate_hops (fun c : RandomJammer × World => c.1.RxTimeoutHandler c.2)
    (fun j => j.m_reactToMitigation = true) hstep (j, w) hm k
  exact ⟨h.2.1, h.2.2.2⟩

theorem reactive_hops (j : ReactiveJammer) (w : World) (hm : j.m_reactToMitigation = true)
    (k : Nat) :
    (ReactiveJammer.hops k (j, w)).2.phy.currentChannel
      = Nat.iterate (fun x => nextChannel x w.phy.numOfChannels) k w.phy.currentChannel ∧
    (ReactiveJammer.hops k (j, w)).2.hopTargets
      = w.hopTargets ++ (List.range k).map (fun i =>
          Nat.iterate (fun x => nextChannel x w.phy.numOfChannels) (i + 1)
            w.phy.currentChannel) := by
  have hstep : ∀ c : ReactiveJammer × World, c.1.m_reactToMitigation = true →
      (c.1.RxTimeoutHandler c.2).1.m_reactToMitigation = true ∧
      (c.1.RxTimeoutHandler c.2).2.phy.currentChannel
        = nextChannel c.2.phy.currentChannel c.2.phy.numOfChannels ∧
      (c.1.RxTimeoutHandler c.2).2.phy.numOfChannels = c.2.phy.numOfChannels ∧
      (c.1.RxTimeoutHandler c.2).2.hopTargets
        = c.2.hopTargets ++ [nextChannel c.2.phy.currentChannel c.2.phy.numOfChannels] := by
    intro c hc
    rw [reactive_RxTimeoutHandler_eq c.1 c.2 hc]
    exact ⟨hc, hop_world_phy c.2 _ _⟩
  have h := iterate_hops (fun c : ReactiveJammer × World => c.1.RxTimeoutHandler c.2)
    (fun j => j.m_reactToMitigation = true) hstep (j, w) hm k
  exact ⟨h.2.1, h.2.2.2⟩

theorem nextChannel_iterate_range (N c0 : Nat) (h2 : 2 ≤ N) (hN : N < 65536) (hc : c0 < N)
    (k : Nat) :
    1 ≤ Nat.iterate (fun x => nextChannel x N) (k + 1) c0 ∧
    Nat.iterate (fun x => nextChannel x N) (k + 1) c0 < N := by
  induction k with
  | zero => exact nextChannel_range c0 N h2 hN hc
  | succ k ih =>
    rw [Function.iterate_succ_apply']
    exact nextChannel_range _ N h2 hN ih.2

/-- C29. On a radio with `2 ≤ N` channels (`uint16_t`), starting from a channel
`c` in `[1, N-1]`: every channel the hop computation yields from a channel
below `N` lies in `[1, N-1]`, after any number of hops; from channel 0 the
first hop goes to 1; `N-1` successive hops end back on `c`, and the `N-1`
channels they command are a rearrangement of `1, ..., N-1`, each exactly once.
For each of the three jammers with `reactToMitigation` enabled, `N-1`
successive runs of the watchdog handler command exactly those channels, in that
order, and leave the radio on `c`. -/
theorem hop_map_single_cycle (N c : Nat) (h2 : 2 ≤ N) (hN : N < 65536) (h1 : 1 ≤ c)
    (hc : c < N) :
    (∀ c0 k, c0 < N →
      1 ≤ Nat.iterate (fun x => nextChannel x N) (k + 1) c0 ∧
      Nat.iterate (fun x => nextChannel x N) (k + 1) c0 ≤ N - 1) ∧
    nextChannel 0 N = 1 ∧
    Nat.iterate (fun x => nextChannel x N) (N - 1) c = c ∧
    ((List.range (N - 1)).map
        (fun i => Nat.iterate (fun x => nextChannel x N) (i + 1) c)).Perm
      (List.range' 1 (N - 1)) ∧
    (∀ (j : ConstantJammer) (w : World), j.m_reactToMitigation = true →
      w.phy.currentChannel = c → w.phy.numOfChannels = N →
      (ConstantJammer.hops (N - 1) (j, w)).2.hopTargets
        = w.hopTargets ++ (List.range (N - 1)).map
            (fun i => Nat.iterate (fun x => nextChannel x N) (i + 1) c) ∧
      (ConstantJammer.hops (N - 1) (j, w)).2.phy.currentChannel = c) ∧
    (∀ (j : RandomJammer) (w : World), j.m_reactToMitigation = true →
      w.phy.currentChannel = c → w.phy.numOfChannels = N →
      (RandomJammer.hops (N - 1) (j, w)).2.hopTargets
        = w.hopTargets ++ (List.range (N - 1)).map
            (fun i => Nat.iterate (fun x => nextChannel x N) (i + 1) c) ∧
      (RandomJammer.hops (N - 1) (j, w)).2.phy.currentChannel = c) ∧
    (∀ (j : ReactiveJammer) (w : World), j.m_reactToMitigation = true →
      w.phy.currentChannel = c → w.phy.numOfChannels = N →
      (ReactiveJammer.hops (N - 1) (j, w)).2.hopTargets
        = w.hopTargets ++ (List.range (N - 1)).map
            (fun i => Nat.iterate (fun x => nextChannel x N) (i + 1) c) ∧
      (ReactiveJammer.hops (N - 1) (j, w)).2.phy.currentChannel = c) := by
  have hcyc : Nat.iterate (fun x => nextChannel x N) (N - 1) c = c := by
    rw [nextChannel_iterate N c h2 hN h1 hc, Nat.add_mod_right,
      Nat.mod_eq_of_lt (by omega)]
    omega
  have hperm : ((List.range (N - 1)).map
      (fun i => Nat.iterate (fun x => nextChannel x N) (i + 1) c)).Perm
      (List.range' 1 (N - 1)) := by
    have he : (fun i => Nat.iterate (fun x => nextChannel x N) (i + 1) c)
        = (fun i => (c - 1 + (i + 1)) % (N - 1) + 1) :=
      funext (fun i => nextChannel_iterate N c h2 hN h1 hc (i + 1))
    rw [he]
    exact hop_list_perm N c h2
  refine ⟨?_, ?_, hcyc, hperm, ?_, ?_, ?_⟩
  · intro c0 k h0
    have := nextChannel_iterate_range N c0 h2 hN h0 k
    omega
  · rw [nextChannel_of_lt 0 N (by omega) hN, if_pos (by omega)]
  · intro j w hm hcur hnum
    have h := constant_hops j w hm (N - 1)
    rw [hcur, hnum] at h
    exact ⟨h.2, h.1.trans hcyc⟩
  · intro j w hm hcur hnum
    have h := random_hops j w hm (N - 1)
    rw [hcur, hnum] at h
    exact ⟨h.2, h.1.trans hcyc⟩
  · intro j w hm hcur hnum
    have h := reactive_hops j w hm (N - 1)
    rw [hcur, hnum] at h
    exact ⟨h.2, h.1.trans hcyc⟩

/-- C29, with four channels and the radio on channel 2: three hops command
channels 3, 1, 2 and end on channel 2, also on the reactive jammer. -/
theorem hop_map_single_cycle_witness :
    Nat.iterate (fun x => nextChannel x 4) (4 - 1) 2 = 2 ∧
    (List.range (4 - 1)).map (fun i => Nat.iterate (fun x => nextChannel x 4) (i + 1) 2)
      = [3, 1, 2] ∧
    (ReactiveJammer.hops 3 (ReactiveJammer.fresh.SetReactToMitigation true,
        World.init 0 (PhyLayerInfo.mk 2 4 500000))).2.hopTargets = [3, 1, 2] :=
  ⟨(hop_map_single_cycle 4 2 (by decide) (by decide) (by decide) (by decide)).2.2.1,
    by decide, by decide⟩

end ns3
